import Mathlib

/-!
Verification development for the twine-models discretized heat-exchanger core.

The Rust sources under `src/` are embedded shallowly:

* `f64` quantities become real numbers (`ℝ`); physical-unit wrappers
  (`Power`, `ThermalConductance`, ...) are erased since `uom` quantities are
  plain `f64` values in a fixed SI base unit.
* Fallible constructors (`Constrained::new`, `Effectiveness::new`, ...)
  become `Except ConstraintError ℝ`.
* `f64` special values matter in a few places (the `expect` branches of
  `effectiveness_via` / `ntu_via`); those spots are additionally modelled by
  an exact-value IEEE type `FP` (a real number, `+inf`, `-inf`, or `nan`)
  further below.

Lean's convention `x / 0 = 0` differs from IEEE (`x / 0 = ±inf`); every
place where a division by zero is reachable in the embedded pipeline is
either guarded by the surrounding checks or discussed at the theorem that
uses it.
-/

namespace TwineModels

/-- `support::constraint::ConstraintError`. -/
inductive ConstraintError where
  | negative
  | positive
  | zero
  | notANumber
  | belowMinimum
  | aboveMaximum
  deriving DecidableEq, Repr

/-- `StrictlyPositive::new` / `Constrained::<_, StrictlyPositive>::new` on a
real value.  `partial_cmp` never returns `None` on `ℝ` (no NaN). -/
noncomputable def strictlyPositiveNew (x : ℝ) : Except ConstraintError ℝ :=
  if 0 < x then .ok x
  else if x = 0 then .error .zero
  else .error .negative

/-- `NonNegative::new` on a real value. -/
noncomputable def nonNegativeNew (x : ℝ) : Except ConstraintError ℝ :=
  if 0 ≤ x then .ok x else .error .negative

/-- `UnitInterval::new` on a real value (closed interval `[0, 1]`). -/
noncomputable def unitIntervalNew (x : ℝ) : Except ConstraintError ℝ :=
  if x < 0 then .error .belowMinimum
  else if 1 < x then .error .aboveMaximum
  else .ok x

/-- `CapacityRatio::from_capacitance_rates`: `min / max` of the two strictly
positive capacitance rates (`support::hx::capacity_ratio.rs`). -/
noncomputable def capacityRatioFromRates (c1 c2 : ℝ) : ℝ :=
  min c1 c2 / max c1 c2

/-- `effectiveness_via` (`support::hx::effectiveness_ntu.rs`), factored over
the already-computed capacity ratio `cr`.  The `Err` value models the
`expect("ntu should always yield valid effectiveness")` panic branch. -/
noncomputable def effectivenessViaCr (ntu cr : ℝ) (fnRaw : ℝ → ℝ → ℝ) :
    Except ConstraintError ℝ :=
  if cr = 0 then unitIntervalNew (1 - Real.exp (-ntu))
  else unitIntervalNew (fnRaw ntu cr)

/-- `effectiveness_via` taking the two capacitance rates, as in the source. -/
noncomputable def effectivenessVia (ntu c1 c2 : ℝ) (fnRaw : ℝ → ℝ → ℝ) :
    Except ConstraintError ℝ :=
  effectivenessViaCr ntu (capacityRatioFromRates c1 c2) fnRaw

/-- `ntu_via` (`support::hx::effectiveness_ntu.rs`), factored over the
capacity ratio.  The `Err` value models the
`expect("effectiveness should always yield valid ntu")` panic branch. -/
noncomputable def ntuViaCr (eff cr : ℝ) (fnRaw : ℝ → ℝ → ℝ) :
    Except ConstraintError ℝ :=
  if cr = 0 then nonNegativeNew (-Real.log (1 - eff))
  else nonNegativeNew (fnRaw eff cr)

/-- `ntu_via` taking the two capacitance rates, as in the source. -/
noncomputable def ntuVia (eff c1 c2 : ℝ) (fnRaw : ℝ → ℝ → ℝ) :
    Except ConstraintError ℝ :=
  ntuViaCr eff (capacityRatioFromRates c1 c2) fnRaw

/-- The raw counter-flow effectiveness closure
(`CounterFlow::effectiveness`, `arrangement/counter_flow.rs`). -/
noncomputable def counterFlowEffRaw (ntu cr : ℝ) : ℝ :=
  if cr < 1 then
    (1 - Real.exp (-ntu * (1 - cr))) / (1 - cr * Real.exp (-ntu * (1 - cr)))
  else
    ntu / (1 + ntu)

/-- The raw counter-flow inverse closure (`CounterFlow::ntu`). -/
noncomputable def counterFlowNtuRaw (eff cr : ℝ) : ℝ :=
  if cr < 1 then
    Real.log ((1 - eff * cr) / (1 - eff)) / (1 - cr)
  else
    eff / (1 - eff)

/-- The raw parallel-flow effectiveness closure
(`ParallelFlow::effectiveness`, `arrangement/parallel_flow.rs`). -/
noncomputable def parallelFlowEffRaw (ntu cr : ℝ) : ℝ :=
  (1 - Real.exp (-ntu * (1 + cr))) / (1 + cr)

/-- The raw parallel-flow inverse closure (`ParallelFlow::ntu`). -/
noncomputable def parallelFlowNtuRaw (eff cr : ℝ) : ℝ :=
  -Real.log (1 - eff * (1 + cr)) / (1 + cr)

/-- Raw effectiveness closure for `CrossFlow<Unmixed, Unmixed>`
(`arrangement/cross_flow.rs`); `powf` becomes `Real.rpow`. -/
noncomputable def crossFlowUnmixedUnmixedEffRaw (ntu cr : ℝ) : ℝ :=
  1 - Real.exp ((ntu ^ (0.22 : ℝ) / cr) * (Real.exp (-cr * ntu ^ (0.78 : ℝ)) - 1))

/-- Raw effectiveness closure for `CrossFlow<Mixed, Mixed>`. -/
noncomputable def crossFlowMixedMixedEffRaw (ntu cr : ℝ) : ℝ :=
  1 / (1 / (1 - Real.exp (-ntu)) + cr / (1 - Real.exp (-cr * ntu)) - 1 / ntu)

/-- Raw effectiveness closure for `CrossFlow<Mixed, Unmixed>` when the first
capacitance rate is the larger one (`capacitance_rates[0] >= capacitance_rates[1]`). -/
noncomputable def crossFlowMixedUnmixedEffRawMax (ntu cr : ℝ) : ℝ :=
  (1 - Real.exp (cr * (Real.exp (-ntu) - 1))) / cr

/-- Raw effectiveness closure for `CrossFlow<Mixed, Unmixed>` in the other
branch (`capacitance_rates[0] < capacitance_rates[1]`). -/
noncomputable def crossFlowMixedUnmixedEffRawMin (ntu cr : ℝ) : ℝ :=
  1 - Real.exp (-((1 - Real.exp (-cr * ntu)) / cr))

/-- `CrossFlow<Mixed, Unmixed>::effectiveness`. -/
noncomputable def crossFlowMixedUnmixedEffectiveness (ntu c1 c2 : ℝ) :
    Except ConstraintError ℝ :=
  if c1 ≥ c2 then effectivenessVia ntu c1 c2 crossFlowMixedUnmixedEffRawMax
  else effectivenessVia ntu c1 c2 crossFlowMixedUnmixedEffRawMin

/-- `CrossFlow<Unmixed, Mixed>::effectiveness` delegates with the rates swapped. -/
noncomputable def crossFlowUnmixedMixedEffectiveness (ntu c1 c2 : ℝ) :
    Except ConstraintError ℝ :=
  crossFlowMixedUnmixedEffectiveness ntu c2 c1

/-- Raw inverse closure for `CrossFlow<Mixed, Unmixed>`, first branch. -/
noncomputable def crossFlowMixedUnmixedNtuRawMax (eff cr : ℝ) : ℝ :=
  -Real.log (1 + Real.log (1 - eff * cr) / cr)

/-- Raw inverse closure for `CrossFlow<Mixed, Unmixed>`, second branch. -/
noncomputable def crossFlowMixedUnmixedNtuRawMin (eff cr : ℝ) : ℝ :=
  -Real.log (cr * Real.log (1 - eff) + 1) / cr

/-- `CrossFlow<Mixed, Unmixed>::ntu`. -/
noncomputable def crossFlowMixedUnmixedNtu (eff c1 c2 : ℝ) :
    Except ConstraintError ℝ :=
  if c1 ≥ c2 then ntuVia eff c1 c2 crossFlowMixedUnmixedNtuRawMax
  else ntuVia eff c1 c2 crossFlowMixedUnmixedNtuRawMin

/-- `CrossFlow<Unmixed, Mixed>::ntu` delegates with the rates swapped. -/
noncomputable def crossFlowUnmixedMixedNtu (eff c1 c2 : ℝ) :
    Except ConstraintError ℝ :=
  crossFlowMixedUnmixedNtu eff c2 c1

/-- The single-shell-pass effectiveness closure `eff_1`
(`ShellAndTube::effectiveness`, `arrangement/shell_and_tube.rs`). -/
noncomputable def shellAndTubeEff1Raw (ntu1 cr : ℝ) : ℝ :=
  2 / (1 + cr
    + Real.sqrt (1 + cr ^ 2) * (1 + Real.exp (-ntu1 * Real.sqrt (1 + cr ^ 2)))
      / (1 - Real.exp (-ntu1 * Real.sqrt (1 + cr ^ 2))))

/-- The raw shell-and-tube effectiveness closure for `S` shell passes. -/
noncomputable def shellAndTubeEffRaw (s : ℕ) (ntu1 cr : ℝ) : ℝ :=
  if s = 1 then shellAndTubeEff1Raw ntu1 cr
  else if cr < 1 then
    (((1 - shellAndTubeEff1Raw ntu1 cr * cr) / (1 - shellAndTubeEff1Raw ntu1 cr)) ^ s - 1)
      / (((1 - shellAndTubeEff1Raw ntu1 cr * cr) / (1 - shellAndTubeEff1Raw ntu1 cr)) ^ s - cr)
  else
    ((s : ℝ) * shellAndTubeEff1Raw ntu1 cr)
      / (1 + shellAndTubeEff1Raw ntu1 cr * ((s : ℝ) - 1))

/-- The single-shell-pass inverse closure `ntu_1` (`ShellAndTube::ntu`). -/
noncomputable def shellAndTubeNtu1Raw (eff1 cr : ℝ) : ℝ :=
  let e := (2 - eff1 * (1 + cr)) / (eff1 * Real.sqrt (1 + cr ^ 2))
  Real.log ((e + 1) / (e - 1)) / Real.sqrt (1 + cr ^ 2)

/-- The raw shell-and-tube inverse closure for `S` shell passes. -/
noncomputable def shellAndTubeNtuRaw (s : ℕ) (eff cr : ℝ) : ℝ :=
  if s = 1 then shellAndTubeNtu1Raw eff cr
  else
    shellAndTubeNtu1Raw
      (if cr < 1 then
        (((eff * cr - 1) / (eff - 1)) ^ ((1 : ℝ) / (s : ℝ)) - 1)
          / (((eff * cr - 1) / (eff - 1)) ^ ((1 : ℝ) / (s : ℝ)) - cr)
      else eff / ((s : ℝ) - eff * ((s : ℝ) - 1)))
      cr

/-- `ShellAndTube::<S, T>::effectiveness`. -/
noncomputable def shellAndTubeEffectiveness (s : ℕ) (ntu c1 c2 : ℝ) :
    Except ConstraintError ℝ :=
  effectivenessVia ntu c1 c2 (shellAndTubeEffRaw s)

/-- `ShellAndTube::<S, T>::ntu`. -/
noncomputable def shellAndTubeNtu (s : ℕ) (eff c1 c2 : ℝ) :
    Except ConstraintError ℝ :=
  ntuVia eff c1 c2 (shellAndTubeNtuRaw s)

/-- `ShellAndTubeConfigError` (`arrangement/shell_and_tube.rs`). -/
inductive ShellAndTubeConfigError where
  | zeroShellPasses
  | shellPassOverflow
  | insufficientTubePasses
  | tubePassesNotMultiple
  deriving DecidableEq, Repr

/-- `ShellAndTube::<S, T>::validate`.  `S` and `T` are `u16` const generics;
we carry them as naturals below `2^16` (`u16::MAX / 2 = 32767` in integer
division, and `2 * S` cannot overflow once `S ≤ 32767`). -/
def shellAndTubeValidate (s t : ℕ) : Except ShellAndTubeConfigError Unit :=
  if s = 0 then .error .zeroShellPasses
  else if s > 65535 / 2 then .error .shellPassOverflow
  else if t < 2 * s then .error .insufficientTubePasses
  else if ¬ (2 * s ∣ t) then .error .tubePassesNotMultiple
  else .ok ()

/-- `models::thermal::hx::core::heat_transfer_rate::HeatTransferRate`.
The stored power is strictly positive whenever the value was built through
the validated constructors. -/
inductive HeatTransferRate where
  | topToBottom (q : ℝ)
  | bottomToTop (q : ℝ)
  | none

/-- `HeatTransferRate::from_signed_top_to_bottom` on a real value.  On `ℝ`
the `partial_cmp` never returns `None`, so the `NotANumber` branch of the
source is unreachable here (it is exercised in the `FP` model below). -/
noncomputable def HeatTransferRate.fromSignedTopToBottom (q : ℝ) : HeatTransferRate :=
  if 0 < q then .topToBottom q
  else if q < 0 then .bottomToTop (-q)
  else .none

/-- `HeatTransferRate::signed_top_to_bottom`. -/
def HeatTransferRate.signedTopToBottom : HeatTransferRate → ℝ
  | .topToBottom q => q
  | .bottomToTop q => -q
  | .none => 0

/-- `HeatTransferRate::magnitude`. -/
def HeatTransferRate.magnitude : HeatTransferRate → ℝ
  | .topToBottom q => q
  | .bottomToTop q => q
  | .none => 0

/-- `support::hx::flow::HeatFlow`: heat crossing a stream boundary. -/
inductive HeatFlow where
  | inflow (q : ℝ)
  | outflow (q : ℝ)
  | none

/-- `HeatFlow::from_signed` on a real value (NaN impossible on `ℝ`). -/
noncomputable def HeatFlow.fromSigned (q : ℝ) : HeatFlow :=
  if 0 < q then .inflow q
  else if q < 0 then .outflow (-q)
  else .none

/-- `HeatFlow::signed`. -/
def HeatFlow.signed : HeatFlow → ℝ
  | .inflow q => q
  | .outflow q => -q
  | .none => 0

/-- `support::hx::stream::StreamInlet`. -/
structure StreamInlet where
  capacitanceRate : ℝ
  temperature : ℝ

/-- `support::hx::stream::Stream`. -/
structure Stream where
  capacitanceRate : ℝ
  inletTemperature : ℝ
  outletTemperature : ℝ
  heatFlow : HeatFlow

/-- `Stream::new_from_heat_flow`: outlet from `Q = C * (T_out - T_in)`. -/
noncomputable def Stream.newFromHeatFlow (c tin : ℝ) (hf : HeatFlow) : Stream :=
  { capacitanceRate := c
    inletTemperature := tin
    outletTemperature :=
      match hf with
      | .inflow q => tin + q / c
      | .outflow q => tin - q / c
      | .none => tin
    heatFlow := hf }

/-- `Stream::new_from_outlet_temperature`: heat flow from the temperature
change, direction from its sign. -/
noncomputable def Stream.newFromOutletTemperature (c tin tout : ℝ) : Stream :=
  { capacitanceRate := c
    inletTemperature := tin
    outletTemperature := tout
    heatFlow :=
      if tin < tout then .inflow (c * |tin - tout|)
      else if tin = tout then .none
      else .outflow (c * |tin - tout|) }

/-- `StreamInlet::with_heat_flow`. -/
noncomputable def StreamInlet.withHeatFlow (s : StreamInlet) (hf : HeatFlow) : Stream :=
  Stream.newFromHeatFlow s.capacitanceRate s.temperature hf

/-- `Stream` to `StreamInlet` projection (`impl From<Stream> for StreamInlet`). -/
def Stream.toInlet (s : Stream) : StreamInlet :=
  { capacitanceRate := s.capacitanceRate, temperature := s.inletTemperature }

/-- `functional::calculate_max_heat_flow`.  Over `ℝ` the heat flow cannot be
NaN and the magnitudes fed to `incoming` / `outgoing` are strictly positive,
so the fallible constructors always succeed; the function is total here. -/
noncomputable def calculateMaxHeatFlow (i0 i1 : StreamInlet) : Stream × Stream :=
  let minC := min i0.capacitanceRate i1.capacitanceRate
  let maxHeat := minC * (i0.temperature - i1.temperature)
  if maxHeat < 0 then
    (i0.withHeatFlow (.inflow |maxHeat|), i1.withHeatFlow (.outflow |maxHeat|))
  else if maxHeat = 0 then
    (i0.withHeatFlow .none, i1.withHeatFlow .none)
  else
    (i0.withHeatFlow (.outflow maxHeat), i1.withHeatFlow (.inflow maxHeat))

/-- `functional::KnownConditionsResult`. -/
structure KnownConditionsResult where
  stream0 : Stream
  stream1 : Stream
  ua : ℝ
  ntu : ℝ

/-- `functional::known_conditions_and_inlets`, with the arrangement's
`NtuRelation` passed as the raw closure `ntuRaw` (as used through `ntu_via`).
The modelled panic of `ntu_via` is conflated with the `ConstraintError`
return; no claim below distinguishes the two on this path. -/
noncomputable def knownConditionsAndInlets (ntuRaw : ℝ → ℝ → ℝ)
    (s0 : StreamInlet) (s1 : Stream) :
    Except ConstraintError KnownConditionsResult :=
  let maxStreams := calculateMaxHeatFlow s0 s1.toInlet
  let maxHeatFlow := |maxStreams.1.heatFlow.signed|
  let actualHeatFlow := |s1.heatFlow.signed|
  if maxHeatFlow = 0 then
    if actualHeatFlow ≠ 0 then .error .aboveMaximum
    else .ok { stream0 := s0.withHeatFlow .none, stream1 := s1, ua := 0, ntu := 0 }
  else do
    let eff ← unitIntervalNew (actualHeatFlow / maxHeatFlow)
    let ntu ← ntuVia eff s0.capacitanceRate s1.capacitanceRate ntuRaw
    let hf0 := HeatFlow.fromSigned (eff * maxStreams.1.heatFlow.signed)
    .ok { stream0 := s0.withHeatFlow hf0
          stream1 := s1
          ua := ntu * min s0.capacitanceRate s1.capacitanceRate
          ntu := ntu }

/-- `support::thermo::State<Fluid>`: absolute temperature, density, fluid tag. -/
structure State (F : Type) where
  temperature : ℝ
  density : ℝ
  fluid : F

/-- The thermo capability bundle `DiscretizedHxThermoModel` (`core/traits.rs`):
pressure, enthalpy, and the two `state_from` builders.  Failures carry no
payload that the solver inspects, so errors are reduced to `Unit`. -/
structure ThermoModel (F : Type) where
  pressure : State F → Except Unit ℝ
  enthalpy : State F → Except Unit ℝ
  stateFromTP : F → ℝ → ℝ → Except Unit (State F)
  stateFromPH : F → ℝ → ℝ → Except Unit (State F)

/-- `core::input::Inlets`. -/
structure Inlets (TF BF : Type) where
  top : State TF
  bottom : State BF

/-- `core::input::MassFlows` (validated strictly positive at construction;
the positivity invariant is carried as a hypothesis in the theorems). -/
structure MassFlows where
  top : ℝ
  bottom : ℝ

/-- `core::input::PressureDrops`. -/
structure PressureDrops where
  top : ℝ
  bottom : ℝ

/-- `core::input::Known`. -/
structure Known (TF BF : Type) where
  inlets : Inlets TF BF
  mDot : MassFlows
  dp : PressureDrops

/-- `core::input::Given`. -/
inductive Given where
  | topOutletTemp (t : ℝ)
  | bottomOutletTemp (t : ℝ)
  | heatTransferRate (q : HeatTransferRate)

/-- The `HeatTransferRate` type invariant established by its validated
constructors: a nonzero variant stores a strictly positive magnitude. -/
def HeatTransferRate.wf : HeatTransferRate → Prop
  | .topToBottom q => 0 < q
  | .bottomToTop q => 0 < q
  | .none => True

/-- The corresponding invariant for `Given`. -/
def Given.wf : Given → Prop
  | .heatTransferRate q => q.wf
  | _ => True

/-- `core::solve::SolveError`.  The error `source` payload of
`ThermoModelFailed` is dropped; only the context string is kept. -/
inductive SolveError where
  | secondLawViolation (topOutletTemp bottomOutletTemp : Option ℝ)
      (qDot : ℝ) (minDeltaT : ℝ) (violationNode : Option ℕ)
  | thermoModelFailed (context : String)

/-- `core::solve::resolved::ResolvedStream`. -/
structure ResolvedStream (F : Type) where
  inlet : State F
  outlet : State F
  hIn : ℝ
  pIn : ℝ
  pOut : ℝ
  mDot : ℝ

/-- `core::solve::resolved::Resolved`. -/
structure Resolved (TF BF : Type) where
  top : ResolvedStream TF
  bottom : ResolvedStream BF
  qDot : HeatTransferRate

/-- `resolved.rs::heat_transfer_rate_from_signed`.  On `ℝ` the signed value
is never NaN, so the `SecondLawViolation` branch of the source (which
reports the raw inlet-to-inlet interval with no violation node) is
unreachable and the conversion always succeeds. -/
noncomputable def heatTransferRateFromSignedChecked
    (qSigned : ℝ) : Except SolveError HeatTransferRate :=
  .ok (HeatTransferRate.fromSignedTopToBottom qSigned)

/-- `Resolved::new` (`core/solve/resolved.rs`): extract inlet properties,
apply the pressure drops, then dispatch on `Given`. -/
noncomputable def Resolved.new {TF BF : Type}
    (known : Known TF BF) (given : Given)
    (thermoTop : ThermoModel TF) (thermoBottom : ThermoModel BF) :
    Except SolveError (Resolved TF BF) := do
  let topIn := known.inlets.top
  let bottomIn := known.inlets.bottom
  let pTopIn ← (thermoTop.pressure topIn).mapError
    fun _ => .thermoModelFailed "pressure(top inlet)"
  let pBottomIn ← (thermoBottom.pressure bottomIn).mapError
    fun _ => .thermoModelFailed "pressure(bottom inlet)"
  let pTopOut := pTopIn - known.dp.top
  let pBottomOut := pBottomIn - known.dp.bottom
  let hTopIn ← (thermoTop.enthalpy topIn).mapError
    fun _ => .thermoModelFailed "enthalpy(top inlet)"
  let hBottomIn ← (thermoBottom.enthalpy bottomIn).mapError
    fun _ => .thermoModelFailed "enthalpy(bottom inlet)"
  match given with
  | .topOutletTemp tOut => do
    let topOut ← (thermoTop.stateFromTP topIn.fluid tOut pTopOut).mapError
      fun _ => .thermoModelFailed "state_from(top outlet)"
    let hTopOut ← (thermoTop.enthalpy topOut).mapError
      fun _ => .thermoModelFailed "enthalpy(top outlet)"
    let qSigned := known.mDot.top * (hTopIn - hTopOut)
    let qDot ← heatTransferRateFromSignedChecked qSigned
    let hBottomOut := hBottomIn + qSigned / known.mDot.bottom
    let bottomOut ← (thermoBottom.stateFromPH bottomIn.fluid pBottomOut hBottomOut).mapError
      fun _ => .thermoModelFailed "state_from(bottom outlet)"
    .ok { top := ⟨topIn, topOut, hTopIn, pTopIn, pTopOut, known.mDot.top⟩
          bottom := ⟨bottomIn, bottomOut, hBottomIn, pBottomIn, pBottomOut, known.mDot.bottom⟩
          qDot := qDot }
  | .bottomOutletTemp tOut => do
    let bottomOut ← (thermoBottom.stateFromTP bottomIn.fluid tOut pBottomOut).mapError
      fun _ => .thermoModelFailed "state_from(bottom outlet)"
    let hBottomOut ← (thermoBottom.enthalpy bottomOut).mapError
      fun _ => .thermoModelFailed "enthalpy(bottom outlet)"
    let qSigned := known.mDot.bottom * (hBottomOut - hBottomIn)
    let qDot ← heatTransferRateFromSignedChecked qSigned
    let hTopOut := hTopIn - qSigned / known.mDot.top
    let topOut ← (thermoTop.stateFromPH topIn.fluid pTopOut hTopOut).mapError
      fun _ => .thermoModelFailed "state_from(top outlet)"
    .ok { top := ⟨topIn, topOut, hTopIn, pTopIn, pTopOut, known.mDot.top⟩
          bottom := ⟨bottomIn, bottomOut, hBottomIn, pBottomIn, pBottomOut, known.mDot.bottom⟩
          qDot := qDot }
  | .heatTransferRate qDot => do
    let qSigned := qDot.signedTopToBottom
    let hTopOut := hTopIn - qSigned / known.mDot.top
    let hBottomOut := hBottomIn + qSigned / known.mDot.bottom
    let topOut ← (thermoTop.stateFromPH topIn.fluid pTopOut hTopOut).mapError
      fun _ => .thermoModelFailed "state_from(top outlet)"
    let bottomOut ← (thermoBottom.stateFromPH bottomIn.fluid pBottomOut hBottomOut).mapError
      fun _ => .thermoModelFailed "state_from(bottom outlet)"
    .ok { top := ⟨topIn, topOut, hTopIn, pTopIn, pTopOut, known.mDot.top⟩
          bottom := ⟨bottomIn, bottomOut, hBottomIn, pBottomIn, pBottomOut, known.mDot.bottom⟩
          qDot := qDot }

/-- `core::traits::DiscretizedArrangement`: the bottom-stream direction bit
plus the arrangement's `NtuRelation` raw closure (the part of the relation
used by the discretized pipeline, through `ntu_via`). -/
structure DiscArrangement where
  bottomFlowsLeftToRight : Bool
  ntuRaw : ℝ → ℝ → ℝ

/-- `DiscretizedArrangement::bottom_select`. -/
def DiscArrangement.bottomSelect {α : Type} (arr : DiscArrangement)
    (forward backward : α) : α :=
  if arr.bottomFlowsLeftToRight then forward else backward

/-- `CounterFlow` as a discretized arrangement
(`BOTTOM_FLOWS_LEFT_TO_RIGHT = false`). -/
noncomputable def counterFlowArrangement : DiscArrangement :=
  ⟨false, counterFlowNtuRaw⟩

/-- `ParallelFlow` as a discretized arrangement
(`BOTTOM_FLOWS_LEFT_TO_RIGHT = true`). -/
noncomputable def parallelFlowArrangement : DiscArrangement :=
  ⟨true, parallelFlowNtuRaw⟩

/-- `nodes.rs::linear_array`: `N` evenly spaced points from `start` to `stop`,
indexed by `i ↦ start + (stop - start) * (i / (N - 1))`.  Arrays of length
`n` are embedded as functions on `ℕ` that the pipeline only reads below `n`. -/
noncomputable def linearArray (n : ℕ) (start stop : ℝ) : ℕ → ℝ :=
  fun i => start + (stop - start) * ((i : ℝ) / ((n : ℝ) - 1))

/-- `nodes.rs::NodeArrays`. -/
structure NodeArrays where
  topPressures : ℕ → ℝ
  bottomPressures : ℕ → ℝ
  topEnthalpies : ℕ → ℝ
  bottomEnthalpies : ℕ → ℝ

/-- `nodes.rs::compute_node_arrays`. -/
noncomputable def computeNodeArrays {TF BF : Type} (arr : DiscArrangement) (n : ℕ)
    (resolved : Resolved TF BF) (qSigned : ℝ) : NodeArrays :=
  let hTopOut := resolved.top.hIn - qSigned / resolved.top.mDot
  let hBottomOut := resolved.bottom.hIn + qSigned / resolved.bottom.mDot
  { topPressures := linearArray n resolved.top.pIn resolved.top.pOut
    bottomPressures := arr.bottomSelect
      (linearArray n resolved.bottom.pIn resolved.bottom.pOut)
      (linearArray n resolved.bottom.pOut resolved.bottom.pIn)
    topEnthalpies := linearArray n resolved.top.hIn hTopOut
    bottomEnthalpies := arr.bottomSelect
      (linearArray n resolved.bottom.hIn hBottomOut)
      (linearArray n hBottomOut resolved.bottom.hIn) }

/-- `nodes.rs::build_states`: endpoints reuse the resolved endpoint states,
interior nodes `1 ≤ i < n - 1` come from `state_from((fluid, P, h))`, with an
early return on the first interior failure.  The final match arm for a
failing interior node is unreachable once the scan found no failure; the
source expresses the same thing through its early `return`. -/
noncomputable def buildStates {F : Type} (thermo : ThermoModel F) (side : String)
    (n : ℕ) (inlet outlet : State F) (pressures enthalpies : ℕ → ℝ)
    (inletAtStart : Bool) : Except SolveError (ℕ → State F) :=
  let inletIndex := if inletAtStart then 0 else n - 1
  let outletIndex := if inletAtStart then n - 1 else 0
  match (List.range n).findSome? (fun i =>
      if 1 ≤ i ∧ i < n - 1 then
        match thermo.stateFromPH inlet.fluid (pressures i) (enthalpies i) with
        | .error _ => some (SolveError.thermoModelFailed ("state_from(node): " ++ side))
        | .ok _ => none
      else none) with
  | some e => .error e
  | _ => .ok fun i =>
      if i = inletIndex then inlet
      else if i = outletIndex then outlet
      else
        match thermo.stateFromPH inlet.fluid (pressures i) (enthalpies i) with
        | .ok s => s
        | .error _ => inlet

/-- `core::solve::nodes::Nodes`. -/
structure Nodes (TF BF : Type) where
  top : ℕ → State TF
  bottom : ℕ → State BF
  topEnthalpies : ℕ → ℝ
  bottomEnthalpies : ℕ → ℝ

/-- `Nodes::new`. -/
noncomputable def Nodes.new {TF BF : Type} (arr : DiscArrangement) (n : ℕ)
    (resolved : Resolved TF BF)
    (thermoTop : ThermoModel TF) (thermoBottom : ThermoModel BF) :
    Except SolveError (Nodes TF BF) := do
  let qSigned := resolved.qDot.signedTopToBottom
  let arrays := computeNodeArrays arr n resolved qSigned
  let top ← buildStates thermoTop "top" n resolved.top.inlet resolved.top.outlet
    arrays.topPressures arrays.topEnthalpies true
  let bottom ← buildStates thermoBottom "bottom" n resolved.bottom.inlet
    resolved.bottom.outlet arrays.bottomPressures arrays.bottomEnthalpies
    (arr.bottomSelect true false)
  .ok ⟨top, bottom, arrays.topEnthalpies, arrays.bottomEnthalpies⟩

/-- `core::results::MinDeltaT`. -/
structure MinDeltaT where
  value : ℝ
  node : ℕ

/-- `metrics.rs::compute_min_delta_t`.  The source seeds the scan with `+inf`
and immediately replaces it at `i = 0`; seeding the fold with the node-0
delta expresses the same scan over real-valued deltas. -/
noncomputable def computeMinDeltaT {TF BF : Type} (arr : DiscArrangement) (n : ℕ)
    (nodes : Nodes TF BF) : MinDeltaT :=
  if n = 0 then ⟨0, 0⟩
  else
    let bottomInletIndex := arr.bottomSelect 0 (n - 1)
    let topIsHot :=
      (nodes.bottom bottomInletIndex).temperature ≤ (nodes.top 0).temperature
    let delta := fun i =>
      if topIsHot then (nodes.top i).temperature - (nodes.bottom i).temperature
      else (nodes.bottom i).temperature - (nodes.top i).temperature
    ((List.range n).drop 1).foldl
      (fun acc i => if delta i < acc.value then ⟨delta i, i⟩ else acc)
      ⟨delta 0, 0⟩

/-- `SolveError::check_second_law` (`core/solve/error.rs`). -/
noncomputable def checkSecondLaw {TF BF : Type} (resolved : Resolved TF BF)
    (mdt : MinDeltaT) : Except SolveError Unit :=
  match resolved.qDot with
  | .none => .ok ()
  | qd =>
    let topIsHot : Bool :=
      resolved.bottom.inlet.temperature ≤ resolved.top.inlet.temperature
    let directionMismatch : Bool :=
      match qd with
      | .topToBottom _ => ! topIsHot
      | .bottomToTop _ => topIsHot
      | .none => false
    if directionMismatch || decide (mdt.value < 0) then
      .error (.secondLawViolation (some resolved.top.outlet.temperature)
        (some resolved.bottom.outlet.temperature)
        qd.signedTopToBottom mdt.value (some mdt.node))
    else .ok ()

/-- `CapacitanceRate::from_quantity` = `StrictlyPositive::new`. -/
noncomputable def capacitanceRateFromQuantity (x : ℝ) : Except ConstraintError ℝ :=
  strictlyPositiveNew x

/-- `metrics.rs::segment_violation_error`. -/
noncomputable def segmentViolationError {TF BF : Type} (arr : DiscArrangement)
    (n : ℕ) (nodes : Nodes TF BF) (qDot : HeatTransferRate)
    (segmentDeltaT : ℝ) (segmentIndex : ℕ) : SolveError :=
  let bottomOutletIndex := arr.bottomSelect (n - 1) 0
  .secondLawViolation (some (nodes.top (n - 1)).temperature)
    (some (nodes.bottom bottomOutletIndex).temperature)
    qDot.signedTopToBottom segmentDeltaT (some segmentIndex)

/-- One iteration of the `compute_ua` segment loop (`metrics.rs`). -/
noncomputable def segmentUa {TF BF : Type} (arr : DiscArrangement)
    (mDotTop mDotBottom : ℝ) (qDot : HeatTransferRate) (n : ℕ)
    (nodes : Nodes TF BF) (i : ℕ) : Except SolveError ℝ := do
  let topIn := nodes.top i
  let topOut := nodes.top (i + 1)
  let hTopIn := nodes.topEnthalpies i
  let hTopOut := nodes.topEnthalpies (i + 1)
  let bottomIn := arr.bottomSelect (nodes.bottom i) (nodes.bottom (i + 1))
  let bottomOut := arr.bottomSelect (nodes.bottom (i + 1)) (nodes.bottom i)
  let hBottomIn :=
    arr.bottomSelect (nodes.bottomEnthalpies i) (nodes.bottomEnthalpies (i + 1))
  let hBottomOut :=
    arr.bottomSelect (nodes.bottomEnthalpies (i + 1)) (nodes.bottomEnthalpies i)
  let segDeltaTopToBottom := topIn.temperature - bottomIn.temperature
  let segDeltaBottomToTop := bottomIn.temperature - topIn.temperature
  let segDeltaHotCold :=
    match qDot with
    | .bottomToTop _ => segDeltaBottomToTop
    | _ => segDeltaTopToBottom
  let topDeltaT := topOut.temperature - topIn.temperature
  let topDeltaH := hTopOut - hTopIn
  let cDotTop ← (capacitanceRateFromQuantity (mDotTop * topDeltaH / topDeltaT)).mapError
    fun _ => segmentViolationError arr n nodes qDot segDeltaTopToBottom i
  let bottomDeltaT := bottomOut.temperature - bottomIn.temperature
  let bottomDeltaH := hBottomOut - hBottomIn
  let cDotBottom ←
    (capacitanceRateFromQuantity (mDotBottom * bottomDeltaH / bottomDeltaT)).mapError
      fun _ => segmentViolationError arr n nodes qDot segDeltaBottomToTop i
  let result ← (knownConditionsAndInlets arr.ntuRaw
      ⟨cDotTop, topIn.temperature⟩
      (Stream.newFromOutletTemperature cDotBottom bottomIn.temperature
        bottomOut.temperature)).mapError
    fun _ => segmentViolationError arr n nodes qDot segDeltaHotCold i
  .ok result.ua

/-- The `compute_ua` accumulation loop over segment indices. -/
noncomputable def uaLoop {TF BF : Type} (arr : DiscArrangement)
    (mDotTop mDotBottom : ℝ) (qDot : HeatTransferRate) (n : ℕ)
    (nodes : Nodes TF BF) : List ℕ → ℝ → Except SolveError ℝ
  | [], acc => .ok acc
  | i :: rest, acc =>
    match segmentUa arr mDotTop mDotBottom qDot n nodes i with
    | .error e => .error e
    | .ok ua => uaLoop arr mDotTop mDotBottom qDot n nodes rest (acc + ua)

/-- `metrics.rs::compute_ua`. -/
noncomputable def computeUa {TF BF : Type} (arr : DiscArrangement)
    (mDotTop mDotBottom : ℝ) (qDot : HeatTransferRate) (n : ℕ)
    (nodes : Nodes TF BF) : Except SolveError ℝ :=
  match qDot with
  | .none => .ok 0
  | _ => uaLoop arr mDotTop mDotBottom qDot n nodes (List.range (n - 1)) 0

/-- `core::results::Results`. -/
structure Results (TF BF : Type) where
  top : ℕ → State TF
  bottom : ℕ → State BF
  qDot : HeatTransferRate
  ua : ℝ
  minDeltaT : MinDeltaT

/-- `core::solve::solve`: resolution, discretization, second-law check,
metrics.  The `N ≥ 2` compile-time assertion becomes a hypothesis of the
theorems below. -/
noncomputable def solve {TF BF : Type} (arr : DiscArrangement) (n : ℕ)
    (known : Known TF BF) (given : Given)
    (thermoTop : ThermoModel TF) (thermoBottom : ThermoModel BF) :
    Except SolveError (Results TF BF) := do
  let resolved ← Resolved.new known given thermoTop thermoBottom
  let nodes ← Nodes.new arr n resolved thermoTop thermoBottom
  let mdt := computeMinDeltaT arr n nodes
  let _ ← checkSecondLaw resolved mdt
  let ua ← computeUa arr resolved.top.mDot resolved.bottom.mDot resolved.qDot n nodes
  .ok ⟨nodes.top, nodes.bottom, resolved.qDot, ua, mdt⟩

/-- `core::given_ua::GivenUaError` (the bisection-collaborator error variant
is not needed by the claims and is folded into `maxIters`-style data). -/
inductive GivenUaError where
  | solveFailed (e : SolveError)
  | maxIters (residual : ℝ) (iters : ℕ)

/-- `core::given_ua::given_ua`.  `target_ua` arrives as
`Constrained<_, NonNegative>` (non-negativity is a hypothesis where needed).
The non-zero branch runs the external bisection collaborator over inner
solves; that collaborator is out of scope and is passed in as the
`runBisection` result, exactly as the source only reaches it when
`target_ua != 0`. -/
noncomputable def givenUa {TF BF : Type} (arr : DiscArrangement) (n : ℕ)
    (known : Known TF BF) (targetUa : ℝ)
    (thermoTop : ThermoModel TF) (thermoBottom : ThermoModel BF)
    (runBisection : Except GivenUaError (Results TF BF)) :
    Except GivenUaError (Results TF BF) :=
  if targetUa = 0 then
    (solve arr n known (.heatTransferRate .none) thermoTop thermoBottom).mapError
      .solveFailed
  else runBisection

/-- `core::test_support::TestThermoModel` generalized over its constants:
constant pressure, constant density, enthalpy `cp * (T - 0)` relative to the
0 K reference, and `(P, h)`-inversion `T = 0 + h / cp`.  This is the
spec's canonical constant-property model. -/
noncomputable def constPropertyModel (cp p rho : ℝ) : ThermoModel Unit :=
  { pressure := fun _ => .ok p
    enthalpy := fun s => .ok (cp * (s.temperature - 0))
    stateFromTP := fun f t _ => .ok ⟨t, rho, f⟩
    stateFromPH := fun f _ h => .ok ⟨0 + h / cp, rho, f⟩ }

/-- The node-state array produced by `build_states` under the
constant-property model: endpoints are the given states, interior nodes are
`(P, h)`-inversions `T = 0 + h / cp`. -/
noncomputable def constStatesFun (cp rho : ℝ) (n : ℕ) (inlet outlet : State Unit)
    (enthalpies : ℕ → ℝ) (inletAtStart : Bool) : ℕ → State Unit :=
  fun i =>
    if i = (if inletAtStart then 0 else n - 1) then inlet
    else if i = (if inletAtStart then n - 1 else 0) then outlet
    else ⟨0 + enthalpies i / cp, rho, ()⟩

/-- Top-node temperature of a solve outcome, for stating concrete
instances of the endpoint and outlet-temperature claims. -/
noncomputable def resultsTopTempAt {TF BF : Type}
    (e : Except SolveError (Results TF BF)) (i : ℕ) : Except SolveError ℝ :=
  e.map fun r => (r.top i).temperature

/-- Bottom-node temperature of a solve outcome. -/
noncomputable def resultsBottomTempAt {TF BF : Type}
    (e : Except SolveError (Results TF BF)) (i : ℕ) : Except SolveError ℝ :=
  e.map fun r => (r.bottom i).temperature

/-!
## Exact-value model of `f64` special values

A few claims hinge on IEEE special values (`±inf`, NaN), which the real
embedding cannot express.  `FP` carries a finite value exactly (no rounding
is modelled; every operation in the instances evaluated below is exact in
`f64`) together with the three special values.  Zero is treated as `+0`:
each zero denominator in the evaluated instances arises as `1 - 1` or
`x - x`, which IEEE produces as `+0`.
-/

/-- An `f64` value: a finite real (exact), `+inf`, `-inf`, or NaN. -/
inductive FP where
  | fin (x : ℝ)
  | inf
  | ninf
  | nan

/-- IEEE negation. -/
noncomputable def FP.neg : FP → FP
  | .fin x => .fin (-x)
  | .inf => .ninf
  | .ninf => .inf
  | .nan => .nan

/-- IEEE addition on exact values; `inf + (-inf)` is NaN. -/
noncomputable def FP.add : FP → FP → FP
  | .nan, _ => .nan
  | _, .nan => .nan
  | .fin x, .fin y => .fin (x + y)
  | .inf, .ninf => .nan
  | .ninf, .inf => .nan
  | .inf, _ => .inf
  | _, .inf => .inf
  | .ninf, _ => .ninf
  | _, .ninf => .ninf

/-- IEEE subtraction, `a - b = a + (-b)`. -/
noncomputable def FP.sub (a b : FP) : FP :=
  a.add b.neg

/-- IEEE multiplication on exact values; `0 * inf` is NaN. -/
noncomputable def FP.mul : FP → FP → FP
  | .nan, _ => .nan
  | _, .nan => .nan
  | .fin x, .fin y => .fin (x * y)
  | .fin x, .inf => if x = 0 then .nan else if 0 < x then .inf else .ninf
  | .inf, .fin x => if x = 0 then .nan else if 0 < x then .inf else .ninf
  | .fin x, .ninf => if x = 0 then .nan else if 0 < x then .ninf else .inf
  | .ninf, .fin x => if x = 0 then .nan else if 0 < x then .ninf else .inf
  | .inf, .inf => .inf
  | .inf, .ninf => .ninf
  | .ninf, .inf => .ninf
  | .ninf, .ninf => .inf

/-- IEEE division on exact values; `x / +0` is `±inf` for `x ≠ 0`, `0 / 0`
and `inf / inf` are NaN. -/
noncomputable def FP.div : FP → FP → FP
  | .nan, _ => .nan
  | _, .nan => .nan
  | .fin x, .fin y =>
    if y = 0 then (if x = 0 then .nan else if 0 < x then .inf else .ninf)
    else .fin (x / y)
  | .fin _, .inf => .fin 0
  | .fin _, .ninf => .fin 0
  | .inf, .fin y => if 0 ≤ y then .inf else .ninf
  | .ninf, .fin y => if 0 ≤ y then .ninf else .inf
  | .inf, .inf => .nan
  | .inf, .ninf => .nan
  | .ninf, .inf => .nan
  | .ninf, .ninf => .nan

/-- IEEE `exp` (overflow of large finite arguments to `inf` is not modelled;
it is not reached in the evaluated instances). -/
noncomputable def FP.exp : FP → FP
  | .fin x => .fin (Real.exp x)
  | .inf => .inf
  | .ninf => .fin 0
  | .nan => .nan

/-- IEEE `ln`: `ln 0 = -inf`, `ln` of a negative value is NaN. -/
noncomputable def FP.log : FP → FP
  | .fin x => if x = 0 then .ninf else if x < 0 then .nan else .fin (Real.log x)
  | .inf => .inf
  | .ninf => .nan
  | .nan => .nan

/-- IEEE `sqrt`: NaN on negative arguments. -/
noncomputable def FP.sqrt : FP → FP
  | .fin x => if x < 0 then .nan else .fin (Real.sqrt x)
  | .inf => .inf
  | .ninf => .nan
  | .nan => .nan

/-- The `cr == 0.0` test of `effectiveness_via` / `ntu_via` on an `f64`
value (NaN and infinities compare unequal to zero). -/
noncomputable def FP.eqZero : FP → Bool
  | .fin x => decide (x = 0)
  | _ => false

/-- `UnitInterval::check` on an `f64` value (`Effectiveness::new`):
`partial_cmp` against `0` or `1` returns `None` exactly on NaN. -/
noncomputable def unitIntervalNewFP : FP → Except ConstraintError FP
  | .nan => .error .notANumber
  | .fin x =>
    if x < 0 then .error .belowMinimum
    else if 1 < x then .error .aboveMaximum
    else .ok (.fin x)
  | .inf => .error .aboveMaximum
  | .ninf => .error .belowMinimum

/-- `NonNegative::check` on an `f64` value (`Ntu::new`). -/
noncomputable def nonNegativeNewFP : FP → Except ConstraintError FP
  | .nan => .error .notANumber
  | .fin x => if 0 ≤ x then .ok (.fin x) else .error .negative
  | .inf => .ok .inf
  | .ninf => .error .negative

/-- `effectiveness_via` over `f64` values, factored over the capacity
ratio.  An `Err` result is the `expect` panic branch of the source. -/
noncomputable def effectivenessViaCrFP (ntu cr : FP) (fnRaw : FP → FP → FP) :
    Except ConstraintError FP :=
  if cr.eqZero then unitIntervalNewFP ((FP.fin 1).sub ntu.neg.exp)
  else unitIntervalNewFP (fnRaw ntu cr)

/-- `ntu_via` over `f64` values, factored over the capacity ratio. -/
noncomputable def ntuViaCrFP (eff cr : FP) (fnRaw : FP → FP → FP) :
    Except ConstraintError FP :=
  if cr.eqZero then nonNegativeNewFP (((FP.fin 1).sub eff).log).neg
  else nonNegativeNewFP (fnRaw eff cr)

/-- The `CrossFlow<Mixed, Mixed>` raw effectiveness closure over `f64`
values: `1 / (1/(1 - exp(-ntu)) + cr/(1 - exp(-cr*ntu)) - 1/ntu)`. -/
noncomputable def crossFlowMixedMixedEffRawFP (ntu cr : FP) : FP :=
  (FP.fin 1).div
    ((((FP.fin 1).div ((FP.fin 1).sub ntu.neg.exp)).add
      (cr.div ((FP.fin 1).sub ((cr.neg.mul ntu).exp)))).sub
      ((FP.fin 1).div ntu))

/-- The shell-and-tube `eff_1` closure over `f64` values. -/
noncomputable def shellAndTubeEff1RawFP (ntu1 cr : FP) : FP :=
  (FP.fin 2).div
    (((FP.fin 1).add cr).add
      ((((FP.fin 1).add (cr.mul cr)).sqrt.mul
          ((FP.fin 1).add ((ntu1.neg.mul ((FP.fin 1).add (cr.mul cr)).sqrt).exp))).div
        ((FP.fin 1).sub ((ntu1.neg.mul ((FP.fin 1).add (cr.mul cr)).sqrt).exp))))

/-- The shell-and-tube `ntu_1` closure over `f64` values. -/
noncomputable def shellAndTubeNtu1RawFP (eff1 cr : FP) : FP :=
  let e := ((FP.fin 2).sub (eff1.mul ((FP.fin 1).add cr))).div
    (eff1.mul ((FP.fin 1).add (cr.mul cr)).sqrt)
  ((e.add (FP.fin 1)).div (e.sub (FP.fin 1))).log.div
    ((FP.fin 1).add (cr.mul cr)).sqrt

/-- `HeatTransferRate` over `f64` values. -/
inductive HeatTransferRateFP where
  | topToBottom (q : FP)
  | bottomToTop (q : FP)
  | none

/-- `HeatTransferRate::from_signed_top_to_bottom` over `f64` values:
`partial_cmp` against zero yields `None` exactly on NaN, which maps to
`ConstraintError::NotANumber`. -/
noncomputable def fromSignedTopToBottomFP : FP → Except ConstraintError HeatTransferRateFP
  | .nan => .error .notANumber
  | .fin x =>
    if 0 < x then .ok (.topToBottom (.fin x))
    else if x < 0 then .ok (.bottomToTop (.fin (-x)))
    else .ok .none
  | .inf => .ok (.topToBottom .inf)
  | .ninf => .ok (.bottomToTop .inf)


/-- The forward-then-inverse composition exercised by the arrangement
round-trip tests, at the capacity-ratio level. -/
noncomputable def roundtripCr (ntu cr : ℝ) (fE fN : ℝ → ℝ → ℝ) : Except ConstraintError ℝ :=
  (effectivenessViaCr ntu cr fE).bind fun eff => ntuViaCr eff cr fN

/-- The forward-then-inverse composition at the capacitance-rate level, as
the round-trip tests call it (`arr.effectiveness` then `arr.ntu`). -/
noncomputable def roundtripVia (ntu c1 c2 : ℝ) (fE fN : ℝ → ℝ → ℝ) : Except ConstraintError ℝ :=
  (effectivenessVia ntu c1 c2 fE).bind fun eff => ntuVia eff c1 c2 fN

/-- Round trip for `CrossFlow<Mixed, Unmixed>` (branch chosen by the rates). -/
noncomputable def crossFlowMixedUnmixedRoundtrip (ntu c1 c2 : ℝ) : Except ConstraintError ℝ :=
  (crossFlowMixedUnmixedEffectiveness ntu c1 c2).bind fun eff =>
    crossFlowMixedUnmixedNtu eff c1 c2

/-- Round trip for `CrossFlow<Unmixed, Mixed>`. -/
noncomputable def crossFlowUnmixedMixedRoundtrip (ntu c1 c2 : ℝ) : Except ConstraintError ℝ :=
  (crossFlowUnmixedMixedEffectiveness ntu c1 c2).bind fun eff =>
    crossFlowUnmixedMixedNtu eff c1 c2

theorem roundtripCr_zero (ntu : ℝ) (hn : 0 ≤ ntu) (fE fN : ℝ → ℝ → ℝ) :
    roundtripCr ntu 0 fE fN = .ok ntu := by
  have hE1 : Real.exp (-ntu) ≤ 1 := Real.exp_le_one_iff.mpr (by linarith)
  have hE0 : 0 < Real.exp (-ntu) := Real.exp_pos _
  have hA : ¬ (1 - Real.exp (-ntu) < 0) := by linarith
  have hB : ¬ ((1 : ℝ) < 1 - Real.exp (-ntu)) := by linarith
  have hkey : 1 - (1 - Real.exp (-ntu)) = Real.exp (-ntu) := by ring
  simp only [roundtripCr, effectivenessViaCr, unitIntervalNew, if_pos rfl, if_neg hA,
    if_neg hB, if_true, eq_self_iff_true, Except.bind, ntuViaCr, nonNegativeNew, hkey,
    Real.log_exp, neg_neg, if_pos hn]

theorem counterFlow_roundtripCr (ntu cr : ℝ) (hn : 0 ≤ ntu) (h0 : 0 < cr) (h1 : cr ≤ 1) :
    roundtripCr ntu cr counterFlowEffRaw counterFlowNtuRaw = .ok ntu := by
  have hcr0 : cr ≠ 0 := ne_of_gt h0
  rcases lt_or_eq_of_le h1 with hlt | heq
  · -- cr < 1
    set E := Real.exp (-ntu * (1 - cr)) with hE
    have hE0 : 0 < E := Real.exp_pos _
    have hE1 : E ≤ 1 := Real.exp_le_one_iff.mpr (by nlinarith)
    have hden : 0 < 1 - cr * E := by nlinarith
    have heff_le : (1 - E) / (1 - cr * E) ≤ 1 := by
      rw [div_le_one hden]; nlinarith
    have heff_nonneg : 0 ≤ (1 - E) / (1 - cr * E) :=
      div_nonneg (by linarith) (le_of_lt hden)
    have hA : ¬ ((1 - E) / (1 - cr * E) < 0) := not_lt.mpr heff_nonneg
    have hB : ¬ ((1 : ℝ) < (1 - E) / (1 - cr * E)) := not_lt.mpr heff_le
    have hnum : 1 - (1 - E) / (1 - cr * E) * cr = (1 - cr) / (1 - cr * E) := by
      field_simp; ring
    have hden2 : 1 - (1 - E) / (1 - cr * E) = E * (1 - cr) / (1 - cr * E) := by
      field_simp; ring
    have hlog : Real.log ((1 - (1 - E) / (1 - cr * E) * cr) / (1 - (1 - E) / (1 - cr * E)))
        = ntu * (1 - cr) := by
      rw [hnum, hden2]
      have hstep : (1 - cr) / (1 - cr * E) / (E * (1 - cr) / (1 - cr * E)) = 1 / E := by
        rw [div_div_div_cancel_right₀, mul_comm E (1 - cr),
          div_mul_cancel_left₀ (by linarith : (1 : ℝ) - cr ≠ 0), one_div]
        exact ne_of_gt hden
      rw [hstep, one_div, Real.log_inv, hE, Real.log_exp]
      ring
    simp only [roundtripCr, effectivenessViaCr, if_neg hcr0, counterFlowEffRaw,
      if_pos hlt, ← hE, unitIntervalNew, if_neg hA, if_neg hB, Except.bind,
      ntuViaCr, counterFlowNtuRaw, nonNegativeNew, hlog]
    rw [mul_div_assoc, div_self (by linarith : (1 : ℝ) - cr ≠ 0), mul_one, if_pos hn]
  · -- cr = 1
    subst heq
    have hpos : (0 : ℝ) < 1 + ntu := by linarith
    have hne : (1 : ℝ) + ntu ≠ 0 := ne_of_gt hpos
    have heff_le : ntu / (1 + ntu) ≤ 1 := by rw [div_le_one hpos]; linarith
    have heff_nonneg : 0 ≤ ntu / (1 + ntu) := div_nonneg hn (le_of_lt hpos)
    have hA : ¬ (ntu / (1 + ntu) < 0) := not_lt.mpr heff_nonneg
    have hB : ¬ ((1 : ℝ) < ntu / (1 + ntu)) := not_lt.mpr heff_le
    have hinv : ntu / (1 + ntu) / (1 - ntu / (1 + ntu)) = ntu := by
      have h2 : 1 - ntu / (1 + ntu) = 1 / (1 + ntu) := by field_simp
      rw [h2]
      field_simp
    have hlt1 : ¬ ((1 : ℝ) < 1) := lt_irrefl 1
    simp only [roundtripCr, effectivenessViaCr, if_neg (one_ne_zero (α := ℝ)),
      counterFlowEffRaw, if_neg hlt1, unitIntervalNew, if_neg hA, if_neg hB,
      Except.bind, ntuViaCr, counterFlowNtuRaw, nonNegativeNew, hinv, if_pos hn]


theorem parallelFlow_roundtripCr (ntu cr : ℝ) (hn : 0 ≤ ntu) (h0 : 0 < cr) (h1 : cr ≤ 1) :
    roundtripCr ntu cr parallelFlowEffRaw parallelFlowNtuRaw = .ok ntu := by
  have hcr0 : cr ≠ 0 := ne_of_gt h0
  set E := Real.exp (-ntu * (1 + cr)) with hE
  have hE0 : 0 < E := Real.exp_pos _
  have hE1 : E ≤ 1 := Real.exp_le_one_iff.mpr (by nlinarith)
  have hden : (0 : ℝ) < 1 + cr := by linarith
  have heff_nonneg : 0 ≤ (1 - E) / (1 + cr) := div_nonneg (by linarith) (le_of_lt hden)
  have heff_le : (1 - E) / (1 + cr) ≤ 1 := by rw [div_le_one hden]; nlinarith
  have hA : ¬ ((1 - E) / (1 + cr) < 0) := not_lt.mpr heff_nonneg
  have hB : ¬ ((1 : ℝ) < (1 - E) / (1 + cr)) := not_lt.mpr heff_le
  have hkey : 1 - (1 - E) / (1 + cr) * (1 + cr) = E := by field_simp
  have hfinal : -Real.log E / (1 + cr) = ntu := by
    rw [hE, Real.log_exp]; field_simp
  simp only [roundtripCr, effectivenessViaCr, if_neg hcr0, parallelFlowEffRaw, ← hE,
    unitIntervalNew, if_neg hA, if_neg hB, Except.bind, ntuViaCr, parallelFlowNtuRaw,
    nonNegativeNew, hkey, hfinal, if_pos hn]

theorem crossFlowMax_roundtripCr (ntu cr : ℝ) (hn : 0 ≤ ntu) (h0 : 0 < cr) (h1 : cr ≤ 1) :
    roundtripCr ntu cr crossFlowMixedUnmixedEffRawMax crossFlowMixedUnmixedNtuRawMax
      = .ok ntu := by
  have hcr0 : cr ≠ 0 := ne_of_gt h0
  set E := Real.exp (-ntu) with hE
  have hE0 : 0 < E := Real.exp_pos _
  have hE1 : E ≤ 1 := Real.exp_le_one_iff.mpr (by linarith)
  set G := Real.exp (cr * (E - 1)) with hG
  have hG0 : 0 < G := Real.exp_pos _
  have hG1 : G ≤ 1 := Real.exp_le_one_iff.mpr (by nlinarith)
  have hGlow : 1 - cr ≤ G := by
    calc 1 - cr = 1 + (-cr) := by ring
    _ ≤ Real.exp (-cr) := by linarith [Real.add_one_le_exp (-cr)]
    _ ≤ G := by
        rw [hG]
        exact Real.exp_le_exp.mpr (by nlinarith)
  have heff_nonneg : 0 ≤ (1 - G) / cr := div_nonneg (by linarith) (le_of_lt h0)
  have heff_le : (1 - G) / cr ≤ 1 := by rw [div_le_one h0]; linarith
  have hA : ¬ ((1 - G) / cr < 0) := not_lt.mpr heff_nonneg
  have hB : ¬ ((1 : ℝ) < (1 - G) / cr) := not_lt.mpr heff_le
  have hkey : 1 - (1 - G) / cr * cr = G := by field_simp
  have hfinal : -Real.log (1 + Real.log G / cr) = ntu := by
    rw [hG, Real.log_exp, mul_comm, mul_div_assoc, div_self hcr0, mul_one]
    have : 1 + (E - 1) = E := by ring
    rw [this, hE, Real.log_exp, neg_neg]
  simp only [roundtripCr, effectivenessViaCr, if_neg hcr0,
    crossFlowMixedUnmixedEffRawMax, ← hE, ← hG, unitIntervalNew, if_neg hA, if_neg hB,
    Except.bind, ntuViaCr, crossFlowMixedUnmixedNtuRawMax, nonNegativeNew, hkey,
    hfinal, if_pos hn]

theorem crossFlowMin_roundtripCr (ntu cr : ℝ) (hn : 0 ≤ ntu) (h0 : 0 < cr) (h1 : cr ≤ 1) :
    roundtripCr ntu cr crossFlowMixedUnmixedEffRawMin crossFlowMixedUnmixedNtuRawMin
      = .ok ntu := by
  have hcr0 : cr ≠ 0 := ne_of_gt h0
  set E := Real.exp (-cr * ntu) with hE
  have hE0 : 0 < E := Real.exp_pos _
  have hE1 : E ≤ 1 := Real.exp_le_one_iff.mpr (by nlinarith)
  set G := Real.exp (-((1 - E) / cr)) with hG
  have hG0 : 0 < G := Real.exp_pos _
  have hdivnn : 0 ≤ (1 - E) / cr := div_nonneg (by linarith) (le_of_lt h0)
  have hG1 : G ≤ 1 := Real.exp_le_one_iff.mpr (by linarith)
  have heff_nonneg : 0 ≤ 1 - G := by linarith
  have heff_le : 1 - G ≤ 1 := by linarith
  have hA : ¬ ((1 : ℝ) - G < 0) := not_lt.mpr heff_nonneg
  have hB : ¬ ((1 : ℝ) < 1 - G) := not_lt.mpr heff_le
  have hkey : cr * Real.log (1 - (1 - G)) + 1 = E := by
    have hsimp : (1 : ℝ) - (1 - G) = G := by ring
    rw [hsimp, hG, Real.log_exp]
    field_simp
  have hfinal : -Real.log E / cr = ntu := by
    rw [hE, Real.log_exp]
    field_simp
  simp only [roundtripCr, effectivenessViaCr, if_neg hcr0,
    crossFlowMixedUnmixedEffRawMin, ← hE, ← hG, unitIntervalNew, if_neg hA, if_neg hB,
    Except.bind, ntuViaCr, crossFlowMixedUnmixedNtuRawMin, nonNegativeNew, hkey,
    hfinal, if_pos hn]


theorem shellAndTubeEff1_facts (ntu cr : ℝ) (hn : 0 < ntu) (h0 : 0 < cr) :
    0 < shellAndTubeEff1Raw ntu cr ∧ shellAndTubeEff1Raw ntu cr < 1 ∧
    shellAndTubeNtu1Raw (shellAndTubeEff1Raw ntu cr) cr = ntu := by
  have hcr0 : cr ≠ 0 := ne_of_gt h0
  simp only [shellAndTubeEff1Raw, shellAndTubeNtu1Raw]
  set s := Real.sqrt (1 + cr ^ 2) with hs
  have hs0 : 0 < s := Real.sqrt_pos.mpr (by positivity)
  have hssq : s ^ 2 = 1 + cr ^ 2 := Real.sq_sqrt (by positivity)
  have hs1 : 1 ≤ s := by nlinarith
  set E := Real.exp (-ntu * s) with hE
  have hE0 : 0 < E := Real.exp_pos _
  have hE1 : E < 1 := by
    rw [hE]
    apply Real.exp_lt_one_iff.mpr
    nlinarith
  have h1mE : 0 < 1 - E := by linarith
  have hF1 : 1 < s * (1 + E) / (1 - E) := by
    rw [lt_div_iff h1mE]
    nlinarith
  set D := 1 + cr + s * (1 + E) / (1 - E) with hD
  have hD2 : 2 < D := by rw [hD]; linarith
  have hD0 : D ≠ 0 := by linarith
  have heff_pos : 0 < 2 / D := by positivity
  have heff_lt : 2 / D < 1 := by rw [div_lt_one (by linarith)]; linarith
  refine ⟨heff_pos, heff_lt, ?_⟩
  have he : (2 - 2 / D * (1 + cr)) / (2 / D * s) = (1 + E) / (1 - E) := by
    rw [hD]
    field_simp
    ring
  rw [he]
  have hlog : ((1 + E) / (1 - E) + 1) / ((1 + E) / (1 - E) - 1) = 1 / E := by
    have hnum : (1 + E) / (1 - E) + 1 = 2 / (1 - E) := by
      field_simp
      ring
    have hden : (1 + E) / (1 - E) - 1 = 2 * E / (1 - E) := by
      field_simp
      ring
    rw [hnum, hden, div_div_div_cancel_right₀, div_mul_cancel_left₀ two_ne_zero,
      one_div]
    exact ne_of_gt h1mE
  rw [hlog, one_div, Real.log_inv, hE, Real.log_exp]
  field_simp

theorem shellAndTube_roundtripCr (S : ℕ) (hS : 1 ≤ S) (ntu cr : ℝ)
    (hn : 0 < ntu) (h0 : 0 < cr) (h1 : cr ≤ 1) :
    roundtripCr ntu cr (shellAndTubeEffRaw S) (shellAndTubeNtuRaw S) = .ok ntu := by
  have hcr0 : cr ≠ 0 := ne_of_gt h0
  obtain ⟨he1pos, he1lt, hback⟩ := shellAndTubeEff1_facts ntu cr hn h0
  by_cases hS1 : S = 1
  · subst hS1
    simp only [roundtripCr, effectivenessViaCr, if_neg hcr0, shellAndTubeEffRaw,
      if_pos rfl, eq_self_iff_true, if_true]
    rw [unitIntervalNew, if_neg (not_lt.mpr he1pos.le), if_neg (not_lt.mpr he1lt.le)]
    simp only [Except.bind, ntuViaCr, if_neg hcr0, shellAndTubeNtuRaw, if_pos rfl,
      eq_self_iff_true, if_true]
    rw [hback, nonNegativeNew, if_pos (le_of_lt hn)]
  · have hS2 : 2 ≤ S := by omega
    have hSr : (2 : ℝ) ≤ (S : ℝ) := by exact_mod_cast hS2
    have hSne : (S : ℝ) ≠ 0 := Nat.cast_ne_zero.mpr (by omega)
    set e1 := shellAndTubeEff1Raw ntu cr with he1def
    have h1me1 : 0 < 1 - e1 := by linarith
    by_cases hcrlt : cr < 1
    · -- S ≥ 2, cr < 1
      set R := (1 - e1 * cr) / (1 - e1) with hR
      have hR1 : 1 < R := by
        rw [hR, lt_div_iff h1me1]
        nlinarith
      have hR0 : 0 < R := by linarith
      set X := R ^ S with hX
      have hX1 : 1 < X := one_lt_pow hR1 (by omega)
      have hXcr : 0 < X - cr := by linarith
      have heffpos : 0 ≤ (X - 1) / (X - cr) := div_nonneg (by linarith) (le_of_lt hXcr)
      have hefflt : (X - 1) / (X - cr) < 1 := by
        rw [div_lt_one hXcr]
        linarith
      have hA : ¬ ((X - 1) / (X - cr) < 0) := not_lt.mpr heffpos
      have hB : ¬ ((1 : ℝ) < (X - 1) / (X - cr)) := not_lt.mpr (le_of_lt hefflt)
      simp only [roundtripCr, effectivenessViaCr, if_neg hcr0, shellAndTubeEffRaw,
        if_neg hS1, if_pos hcrlt, ← he1def, ← hR, ← hX, unitIntervalNew,
        if_neg hA, if_neg hB, Except.bind, ntuViaCr, shellAndTubeNtuRaw]
      have hXcrne : X - cr ≠ 0 := ne_of_gt hXcr
      have hcr1ne : cr - 1 ≠ 0 := by linarith
      have hratio : ((X - 1) / (X - cr) * cr - 1) / ((X - 1) / (X - cr) - 1) = X := by
        have hnum : (X - 1) / (X - cr) * cr - 1 = X * (cr - 1) / (X - cr) := by
          field_simp
          ring
        have hden2 : (X - 1) / (X - cr) - 1 = (cr - 1) / (X - cr) := by
          field_simp
        rw [hnum, hden2, div_div_div_cancel_right₀, mul_div_assoc,
          div_self hcr1ne, mul_one]
        exact hXcrne
      have hrpow : X ^ ((1 : ℝ) / (S : ℝ)) = R := by
        rw [hX, ← Real.rpow_natCast R S, ← Real.rpow_mul (le_of_lt hR0),
          mul_one_div, div_self hSne, Real.rpow_one]
      have h1me1ne : (1 : ℝ) - e1 ≠ 0 := ne_of_gt h1me1
      have hbackR : (R - 1) / (R - cr) = e1 := by
        have hnumR : R - 1 = e1 * (1 - cr) / (1 - e1) := by
          rw [hR]
          field_simp
          ring
        have hdenR : R - cr = (1 - cr) / (1 - e1) := by
          rw [hR]
          field_simp
          ring
        rw [hnumR, hdenR, div_div_div_cancel_right₀, mul_div_assoc,
          div_self (by linarith : 1 - cr ≠ 0), mul_one]
        exact h1me1ne
      rw [hratio, hrpow, hbackR, hback, nonNegativeNew, if_pos (le_of_lt hn)]
    · -- S ≥ 2, cr = 1
      have hcr1 : cr = 1 := le_antisymm h1 (not_lt.mp hcrlt)
      subst hcr1
      have hden : 0 < 1 + e1 * ((S : ℝ) - 1) := by nlinarith
      have heffpos : 0 ≤ (S : ℝ) * e1 / (1 + e1 * ((S : ℝ) - 1)) := by positivity
      have hefflt : (S : ℝ) * e1 / (1 + e1 * ((S : ℝ) - 1)) < 1 := by
        rw [div_lt_one hden]
        nlinarith
      have hA : ¬ ((S : ℝ) * e1 / (1 + e1 * ((S : ℝ) - 1)) < 0) := not_lt.mpr heffpos
      have hB : ¬ ((1 : ℝ) < (S : ℝ) * e1 / (1 + e1 * ((S : ℝ) - 1))) :=
        not_lt.mpr (le_of_lt hefflt)
      simp only [roundtripCr, effectivenessViaCr, if_neg hcr0, shellAndTubeEffRaw,
        if_neg hS1, if_neg hcrlt, ← he1def, unitIntervalNew, if_neg hA, if_neg hB,
        Except.bind, ntuViaCr, shellAndTubeNtuRaw]
      have hdenne : (1 : ℝ) + e1 * ((S : ℝ) - 1) ≠ 0 := ne_of_gt hden
      have hbackS : (S : ℝ) * e1 / (1 + e1 * ((S : ℝ) - 1))
          / ((S : ℝ) - (S : ℝ) * e1 / (1 + e1 * ((S : ℝ) - 1)) * ((S : ℝ) - 1)) = e1 := by
        have hstep : (S : ℝ) - (S : ℝ) * e1 / (1 + e1 * ((S : ℝ) - 1)) * ((S : ℝ) - 1)
            = (S : ℝ) / (1 + e1 * ((S : ℝ) - 1)) := by
          field_simp
          ring
        rw [hstep, div_div_div_cancel_right₀, mul_comm (S : ℝ) e1, mul_div_assoc,
          div_self hSne, mul_one]
        exact hdenne
      rw [hbackS, hback, nonNegativeNew, if_pos (le_of_lt hn)]

/-- C1: the claim that `effectiveness(ntu, capacitance_rates)` never reaches
the `expect` failure branch for any NTU ≥ 0 fails on the code: for
`CrossFlow<Mixed, Mixed>` at NTU = 0 with equal rates (capacity ratio 1,
realized by rates `[1, 1]` W/K), the raw formula evaluates in `f64` to
`1 / (1/0 + 1/0 - 1/0) = 1 / (∞ - ∞) = NaN`, so `Effectiveness::new` fails
and the `expect` panics.  The spec (and the code's own `expect` message)
intend no runtime panic, so this is a bug in the code at this input. -/
theorem claim_C1_mixedMixed_effectiveness_panics_at_ntu_zero :
    capacityRatioFromRates 1 1 = 1 ∧
    crossFlowMixedMixedEffRawFP (FP.fin 0) (FP.fin 1) = FP.nan ∧
    effectivenessViaCrFP (FP.fin 0) (FP.fin 1) crossFlowMixedMixedEffRawFP
      = .error .notANumber := by
  refine ⟨by norm_num [capacityRatioFromRates], ?_, ?_⟩
  · simp [crossFlowMixedMixedEffRawFP, FP.div, FP.add, FP.sub, FP.neg, FP.mul, FP.exp]
  · simp [effectivenessViaCrFP, FP.eqZero, crossFlowMixedMixedEffRawFP, FP.div, FP.add,
      FP.sub, FP.neg, FP.mul, FP.exp, unitIntervalNewFP]

/-- C2 (counterexample): at the grid point NTU = 0, Cr = 0.25 (rates
`[1, 4]` W/K) the shell-and-tube round trip does not recover NTU: the
forward relation yields effectiveness 0 (in `f64`, via `2 / ∞ = 0`), and the
inverse relation then computes `ln(∞ / ∞) = NaN`, so `Ntu::new` fails inside
`ntu_via` and its `expect` panics instead of returning an NTU.  (The
repository's own shell-and-tube round-trip test omits NTU = 0.) -/
theorem claim_C2_counterexample_shellAndTube_ntu_zero :
    capacityRatioFromRates 1 4 = 1 / 4 ∧
    effectivenessViaCrFP (FP.fin 0) (FP.fin (1 / 4)) shellAndTubeEff1RawFP
      = .ok (FP.fin 0) ∧
    ntuViaCrFP (FP.fin 0) (FP.fin (1 / 4)) shellAndTubeNtu1RawFP
      = .error .notANumber := by
  refine ⟨by norm_num [capacityRatioFromRates], ?_, ?_⟩
  · norm_num [effectivenessViaCrFP, FP.eqZero, shellAndTubeEff1RawFP, FP.div, FP.add,
      FP.sub, FP.neg, FP.mul, FP.exp, FP.sqrt, unitIntervalNewFP, Real.sqrt_pos]
  · norm_num [ntuViaCrFP, FP.eqZero, shellAndTubeNtu1RawFP, FP.div, FP.add,
      FP.sub, FP.neg, FP.mul, FP.exp, FP.sqrt, FP.log, nonNegativeNewFP, Real.sqrt_pos]

/-- C2 (amended): over exact real arithmetic, for every NTU in
`{0, 0.1, 0.5, 1, 5}`: the `Cr = 0` branch round trip is exact for every
arrangement; and for every pair of strictly positive capacitance rates
realizing `Cr ∈ {0.25, 0.5, 1}`, the counter-flow, parallel-flow, and both
asymmetric cross-flow round trips are exact, and the shell-and-tube round
trip (any `S ≥ 1` shell passes) is exact for NTU ≠ 0.  Exact recovery
implies recovery within relative tolerance `1e-12`. -/
theorem claim_C2_roundtrips_amended :
    ∀ ntu ∈ ([0, 0.1, 0.5, 1, 5] : List ℝ),
      (∀ fE fN : ℝ → ℝ → ℝ, roundtripCr ntu 0 fE fN = .ok ntu) ∧
      ∀ c1 c2 : ℝ, 0 < c1 → 0 < c2 →
        capacityRatioFromRates c1 c2 ∈ ([0.25, 0.5, 1] : List ℝ) →
          roundtripVia ntu c1 c2 counterFlowEffRaw counterFlowNtuRaw = .ok ntu ∧
          roundtripVia ntu c1 c2 parallelFlowEffRaw parallelFlowNtuRaw = .ok ntu ∧
          crossFlowMixedUnmixedRoundtrip ntu c1 c2 = .ok ntu ∧
          crossFlowUnmixedMixedRoundtrip ntu c1 c2 = .ok ntu ∧
          (∀ S : ℕ, 1 ≤ S → ntu ≠ 0 →
            roundtripVia ntu c1 c2 (shellAndTubeEffRaw S) (shellAndTubeNtuRaw S)
              = .ok ntu) := by
  intro ntu hmem
  have hn : 0 ≤ ntu := by
    simp only [List.mem_cons, List.not_mem_nil, or_false] at hmem
    rcases hmem with h | h | h | h | h <;> subst h <;> norm_num
  refine ⟨fun fE fN => roundtripCr_zero ntu hn fE fN, ?_⟩
  intro c1 c2 hc1 hc2 _
  have hcr0 : 0 < capacityRatioFromRates c1 c2 := by
    apply div_pos (lt_min hc1 hc2) (lt_max_of_lt_left hc1)
  have hcr1 : capacityRatioFromRates c1 c2 ≤ 1 := by
    apply div_le_one_of_le (min_le_max) (le_of_lt (lt_max_of_lt_left hc1))
  have hsym : capacityRatioFromRates c2 c1 = capacityRatioFromRates c1 c2 := by
    rw [capacityRatioFromRates, capacityRatioFromRates, min_comm, max_comm]
  refine ⟨counterFlow_roundtripCr ntu _ hn hcr0 hcr1,
    parallelFlow_roundtripCr ntu _ hn hcr0 hcr1, ?_, ?_, ?_⟩
  · by_cases hbr : c1 ≥ c2
    · simp only [crossFlowMixedUnmixedRoundtrip, crossFlowMixedUnmixedEffectiveness,
        crossFlowMixedUnmixedNtu, if_pos hbr]
      exact crossFlowMax_roundtripCr ntu _ hn hcr0 hcr1
    · simp only [crossFlowMixedUnmixedRoundtrip, crossFlowMixedUnmixedEffectiveness,
        crossFlowMixedUnmixedNtu, if_neg hbr]
      exact crossFlowMin_roundtripCr ntu _ hn hcr0 hcr1
  · by_cases hbr : c2 ≥ c1
    · simp only [crossFlowUnmixedMixedRoundtrip, crossFlowUnmixedMixedEffectiveness,
        crossFlowUnmixedMixedNtu, crossFlowMixedUnmixedEffectiveness,
        crossFlowMixedUnmixedNtu, if_pos hbr]
      have := crossFlowMax_roundtripCr ntu (capacityRatioFromRates c2 c1) hn
        (hsym ▸ hcr0) (hsym ▸ hcr1)
      exact this
    · simp only [crossFlowUnmixedMixedRoundtrip, crossFlowUnmixedMixedEffectiveness,
        crossFlowUnmixedMixedNtu, crossFlowMixedUnmixedEffectiveness,
        crossFlowMixedUnmixedNtu, if_neg hbr]
      have := crossFlowMin_roundtripCr ntu (capacityRatioFromRates c2 c1) hn
        (hsym ▸ hcr0) (hsym ▸ hcr1)
      exact this
  · intro S hS hne
    exact shellAndTube_roundtripCr S hS ntu _ (lt_of_le_of_ne hn (Ne.symm hne)) hcr0 hcr1

/-- Witness for C2 at NTU = 1 with rates `(1, 2)` W/K (Cr = 0.5) and one
shell pass. -/
theorem claim_C2_roundtrips_amended_witness :
    roundtripVia 1 1 2 counterFlowEffRaw counterFlowNtuRaw = .ok 1 ∧
    roundtripVia 1 1 2 parallelFlowEffRaw parallelFlowNtuRaw = .ok 1 ∧
    crossFlowMixedUnmixedRoundtrip 1 1 2 = .ok 1 ∧
    crossFlowUnmixedMixedRoundtrip 1 1 2 = .ok 1 ∧
    roundtripVia 1 1 2 (shellAndTubeEffRaw 1) (shellAndTubeNtuRaw 1) = .ok 1 := by
  have hmem : (1 : ℝ) ∈ ([0, 0.1, 0.5, 1, 5] : List ℝ) := by norm_num
  have hcrmem : capacityRatioFromRates 1 2 ∈ ([0.25, 0.5, 1] : List ℝ) := by
    norm_num [capacityRatioFromRates]
  obtain ⟨-, h⟩ := claim_C2_roundtrips_amended 1 hmem
  obtain ⟨h1, h2, h3, h4, h5⟩ := h 1 2 (by norm_num) (by norm_num) hcrmem
  exact ⟨h1, h2, h3, h4, h5 1 le_rfl one_ne_zero⟩


/-- C7: in `known_conditions_and_inlets`, when the maximum possible heat
flow is zero (equal inlet temperatures, strictly positive capacitance
rates): a nonzero actual heat flow fails with the `AboveMaximum` constraint
error, and a zero actual heat flow succeeds with `UA = 0` and `NTU = 0`. -/
theorem claim_C7_zero_max_heat_flow (f : ℝ → ℝ → ℝ) (s0 : StreamInlet) (s1 : Stream)
    (hc0 : 0 < s0.capacitanceRate) (hc1 : 0 < s1.capacitanceRate)
    (heq : s0.temperature = s1.inletTemperature) :
    (s1.heatFlow.signed ≠ 0 →
      knownConditionsAndInlets f s0 s1 = .error .aboveMaximum) ∧
    (s1.heatFlow.signed = 0 →
      ∃ r, knownConditionsAndInlets f s0 s1 = .ok r ∧ r.ua = 0 ∧ r.ntu = 0) := by
  have hdiff : s0.temperature - s1.toInlet.temperature = 0 := by
    simp [Stream.toInlet, heq]
  have hmax : calculateMaxHeatFlow s0 s1.toInlet
      = (s0.withHeatFlow .none, (s1.toInlet).withHeatFlow .none) := by
    rw [calculateMaxHeatFlow]
    simp [hdiff]
  have hsig : (s0.withHeatFlow HeatFlow.none).heatFlow.signed = 0 := by
    simp [StreamInlet.withHeatFlow, Stream.newFromHeatFlow, HeatFlow.signed]
  constructor
  · intro hne
    have habs : ¬ (|s1.heatFlow.signed| = 0) := abs_ne_zero.mpr hne
    simp only [knownConditionsAndInlets, hmax, hsig, abs_zero, if_pos rfl, ne_eq,
      habs, not_false_iff, if_true]
  · intro hzero
    refine ⟨{ stream0 := s0.withHeatFlow .none, stream1 := s1, ua := 0, ntu := 0 },
      ?_, rfl, rfl⟩
    simp only [knownConditionsAndInlets, hmax, hsig, abs_zero, if_pos rfl, hzero,
      ne_eq, not_true, if_false, if_true]

/-- C8: `ShellAndTube::<S, T>::new` validation outcomes and ordering:
`S = 0` fails `ZeroShellPasses` first (for any `T`); then `S > u16::MAX / 2`
fails `ShellPassOverflow`; then `T < 2S` fails `InsufficientTubePasses`
(e.g. `<3, 4>`); then `T` not a multiple of `2S` fails
`TubePassesNotMultiple` (e.g. `<3, 8>`); otherwise construction succeeds
(e.g. `<1, 2>`). -/
theorem claim_C8_shellAndTube_validation :
    (∀ t : ℕ, shellAndTubeValidate 0 t = .error .zeroShellPasses) ∧
    shellAndTubeValidate 3 4 = .error .insufficientTubePasses ∧
    shellAndTubeValidate 3 8 = .error .tubePassesNotMultiple ∧
    shellAndTubeValidate 1 2 = .ok () ∧
    (∀ s t : ℕ, s ≠ 0 → 32767 < s →
      shellAndTubeValidate s t = .error .shellPassOverflow) ∧
    (∀ s t : ℕ, s ≠ 0 → s ≤ 32767 → t < 2 * s →
      shellAndTubeValidate s t = .error .insufficientTubePasses) ∧
    (∀ s t : ℕ, s ≠ 0 → s ≤ 32767 → 2 * s ≤ t → ¬ (2 * s ∣ t) →
      shellAndTubeValidate s t = .error .tubePassesNotMultiple) ∧
    (∀ s t : ℕ, s ≠ 0 → s ≤ 32767 → 2 * s ≤ t → 2 * s ∣ t →
      shellAndTubeValidate s t = .ok ()) := by
  refine ⟨fun t => rfl, rfl, rfl, rfl, ?_, ?_, ?_, ?_⟩
  · intro s t hs hover
    rw [shellAndTubeValidate, if_neg hs, if_pos (by omega)]
  · intro s t hs hsle hlt
    rw [shellAndTubeValidate, if_neg hs, if_neg (by omega), if_pos hlt]
  · intro s t hs hsle hge hndvd
    rw [shellAndTubeValidate, if_neg hs, if_neg (by omega), if_neg (by omega),
      if_pos hndvd]
  · intro s t hs hsle hge hdvd
    rw [shellAndTubeValidate, if_neg hs, if_neg (by omega), if_neg (by omega),
      if_neg (by simpa using hdvd)]

/-- Witness for C8 covering each general branch at a concrete input. -/
theorem claim_C8_shellAndTube_validation_witness :
    shellAndTubeValidate 0 2 = .error .zeroShellPasses ∧
    shellAndTubeValidate 40000 2 = .error .shellPassOverflow ∧
    shellAndTubeValidate 3 4 = .error .insufficientTubePasses ∧
    shellAndTubeValidate 3 8 = .error .tubePassesNotMultiple ∧
    shellAndTubeValidate 2 8 = .ok () := by
  obtain ⟨h0, h34, h38, h12, hover, hins, hmul, hok⟩ := claim_C8_shellAndTube_validation
  exact ⟨h0 2, hover 40000 2 (by norm_num) (by norm_num), h34, h38,
    hok 2 8 (by norm_num) (by norm_num) (by norm_num) (by norm_num)⟩

/-- C9: `HeatTransferRate::from_signed_top_to_bottom` maps positive powers
to `TopToBottom`, negative powers to `BottomToTop` of the positive
magnitude, zero to `None`, and NaN to the `NotANumber` constraint error;
`signed_top_to_bottom` inverts it on well-formed values. -/
theorem claim_C9_heatTransferRate_signed :
    (∀ p : ℝ, 0 < p →
      HeatTransferRate.fromSignedTopToBottom p = .topToBottom p ∧
      (HeatTransferRate.topToBottom p).signedTopToBottom = p) ∧
    (∀ p : ℝ, p < 0 →
      HeatTransferRate.fromSignedTopToBottom p = .bottomToTop (-p) ∧
      (HeatTransferRate.bottomToTop (-p)).signedTopToBottom = p) ∧
    HeatTransferRate.fromSignedTopToBottom 0 = .none ∧
    HeatTransferRate.signedTopToBottom .none = 0 ∧
    fromSignedTopToBottomFP FP.nan = .error .notANumber ∧
    (∀ q : HeatTransferRate, q.wf →
      HeatTransferRate.fromSignedTopToBottom q.signedTopToBottom = q) := by
  refine ⟨?_, ?_, ?_, rfl, rfl, ?_⟩
  · intro p hp
    exact ⟨by rw [HeatTransferRate.fromSignedTopToBottom, if_pos hp], rfl⟩
  · intro p hp
    refine ⟨?_, by simp [HeatTransferRate.signedTopToBottom]⟩
    rw [HeatTransferRate.fromSignedTopToBottom, if_neg (by linarith), if_pos hp]
  · rw [HeatTransferRate.fromSignedTopToBottom, if_neg (lt_irrefl 0),
      if_neg (lt_irrefl 0)]
  · intro q hq
    cases q with
    | topToBottom p =>
      have hp : (0 : ℝ) < p := hq
      simp only [HeatTransferRate.signedTopToBottom,
        HeatTransferRate.fromSignedTopToBottom]
      rw [if_pos hp]
    | bottomToTop p =>
      have hp : (0 : ℝ) < p := hq
      simp only [HeatTransferRate.signedTopToBottom,
        HeatTransferRate.fromSignedTopToBottom]
      rw [if_neg (by linarith), if_pos (by linarith)]
      simp
    | none =>
      simp only [HeatTransferRate.signedTopToBottom,
        HeatTransferRate.fromSignedTopToBottom]
      rw [if_neg (lt_irrefl 0), if_neg (lt_irrefl 0)]

/-- Witness for C9 at `p = 2` and `p = -3`. -/
theorem claim_C9_heatTransferRate_signed_witness :
    HeatTransferRate.fromSignedTopToBottom 2 = .topToBottom 2 ∧
    HeatTransferRate.fromSignedTopToBottom (-3) = .bottomToTop 3 ∧
    HeatTransferRate.fromSignedTopToBottom
      (HeatTransferRate.signedTopToBottom (.bottomToTop 5)) = .bottomToTop 5 := by
  obtain ⟨hpos, hneg, -, -, -, hinv⟩ := claim_C9_heatTransferRate_signed
  refine ⟨(hpos 2 (by norm_num)).1, ?_, hinv (.bottomToTop 5) (by norm_num [HeatTransferRate.wf])⟩
  have h := (hneg (-3) (by norm_num)).1
  simpa using h


theorem except_bind_ok {ε α β : Type} {e : Except ε α} {f : α → Except ε β} {b : β}
    (h : e >>= f = .ok b) : ∃ a, e = .ok a ∧ f a = .ok b := by
  cases e with
  | error err => simp [Bind.bind, Except.bind] at h
  | ok a => exact ⟨a, rfl, by simpa [Bind.bind, Except.bind] using h⟩

theorem except_mapError_ok {ε ε' α : Type} {e : Except ε α} {g : ε → ε'} {a : α}
    (h : e.mapError g = .ok a) : e = .ok a := by
  cases e with
  | error err => simp [Except.mapError] at h
  | ok a' => simpa [Except.mapError] using h

theorem strictlyPositiveNew_ok {x y : ℝ} (h : strictlyPositiveNew x = .ok y) :
    0 < x ∧ y = x := by
  rw [strictlyPositiveNew] at h
  by_cases hx : 0 < x
  · rw [if_pos hx] at h
    exact ⟨hx, (Except.ok.injEq _ _ ▸ h).symm⟩
  · rw [if_neg hx] at h
    split at h <;> cases h

/-- Decomposition of a successful `solve` into its pipeline stages. -/
theorem solve_ok_elim {TF BF : Type} {arr : DiscArrangement} {n : ℕ}
    {known : Known TF BF} {given : Given} {tt : ThermoModel TF}
    {tb : ThermoModel BF} {r : Results TF BF}
    (h : solve arr n known given tt tb = .ok r) :
    ∃ resolved nodes,
      Resolved.new known given tt tb = .ok resolved ∧
      Nodes.new arr n resolved tt tb = .ok nodes ∧
      checkSecondLaw resolved (computeMinDeltaT arr n nodes) = .ok () ∧
      computeUa arr resolved.top.mDot resolved.bottom.mDot resolved.qDot n nodes
        = .ok r.ua ∧
      r.top = nodes.top ∧ r.bottom = nodes.bottom ∧ r.qDot = resolved.qDot ∧
      r.minDeltaT = computeMinDeltaT arr n nodes := by
  rw [solve] at h
  obtain ⟨resolved, hres, h⟩ := except_bind_ok h
  obtain ⟨nodes, hnodes, h⟩ := except_bind_ok h
  obtain ⟨u, hcheck, h⟩ := except_bind_ok h
  obtain ⟨ua, hua, h⟩ := except_bind_ok h
  cases h
  exact ⟨resolved, nodes, hres, hnodes, by rw [hcheck], hua, rfl, rfl, rfl, rfl⟩


theorem buildStates_ok_endpoints {F : Type} {thermo : ThermoModel F} {side : String}
    {n : ℕ} {inlet outlet : State F} {pressures enthalpies : ℕ → ℝ}
    {inletAtStart : Bool} {f : ℕ → State F}
    (h : buildStates thermo side n inlet outlet pressures enthalpies inletAtStart = .ok f)
    (hn : 2 ≤ n) :
    f (if inletAtStart then 0 else n - 1) = inlet ∧
    f (if inletAtStart then n - 1 else 0) = outlet := by
  rw [buildStates] at h
  split at h
  · cases h
  · cases h
    have hne : n - 1 ≠ 0 := by omega
    cases inletAtStart with
    | true => exact ⟨by simp, by simp [hne]⟩
    | false => exact ⟨by simp, by simp [hne, Ne.symm hne]⟩

/-- Endpoints of a successful discretization are the resolved endpoint
states. -/
theorem nodes_endpoints {TF BF : Type} {arr : DiscArrangement} {n : ℕ}
    {resolved : Resolved TF BF} {tt : ThermoModel TF} {tb : ThermoModel BF}
    {nodes : Nodes TF BF}
    (h : Nodes.new arr n resolved tt tb = .ok nodes) (hn : 2 ≤ n) :
    nodes.top 0 = resolved.top.inlet ∧
    nodes.top (n - 1) = resolved.top.outlet ∧
    nodes.bottom (arr.bottomSelect 0 (n - 1)) = resolved.bottom.inlet ∧
    nodes.bottom (arr.bottomSelect (n - 1) 0) = resolved.bottom.outlet := by
  rw [Nodes.new] at h
  obtain ⟨ftop, htop, h⟩ := except_bind_ok h
  obtain ⟨fbot, hbot, h⟩ := except_bind_ok h
  cases h
  obtain ⟨ht1, ht2⟩ := buildStates_ok_endpoints htop hn
  simp only [if_true] at ht1 ht2
  cases harr : arr.bottomFlowsLeftToRight with
  | false =>
    simp only [DiscArrangement.bottomSelect, harr, Bool.false_eq_true, if_false] at hbot ⊢
    obtain ⟨hb1, hb2⟩ := buildStates_ok_endpoints hbot hn
    simp only [Bool.false_eq_true, if_false] at hb1 hb2
    exact ⟨ht1, ht2, hb1, hb2⟩
  | true =>
    simp only [DiscArrangement.bottomSelect, harr, if_true] at hbot ⊢
    obtain ⟨hb1, hb2⟩ := buildStates_ok_endpoints hbot hn
    simp only [if_true] at hb1 hb2
    exact ⟨ht1, ht2, hb1, hb2⟩

/-- C4: for every successful solve with `N ≥ 2` nodes, `top[0]` is the
resolved top inlet state and `top[N-1]` the resolved top outlet state; the
bottom endpoints sit at `N-1`/`0` for counterflow (bottom flows right to
left) and at `0`/`N-1` for parallel flow — exactly the resolved states, not
recomputed from `(P, h)` inversion. -/
theorem claim_C4_endpoint_identity {TF BF : Type} {arr : DiscArrangement} {n : ℕ}
    {known : Known TF BF} {given : Given} {tt : ThermoModel TF}
    {tb : ThermoModel BF} {r : Results TF BF} {resolved : Resolved TF BF}
    (hn : 2 ≤ n)
    (hres : Resolved.new known given tt tb = .ok resolved)
    (hsolve : solve arr n known given tt tb = .ok r) :
    r.top 0 = resolved.top.inlet ∧
    r.top (n - 1) = resolved.top.outlet ∧
    (arr.bottomFlowsLeftToRight = false →
      r.bottom (n - 1) = resolved.bottom.inlet ∧
      r.bottom 0 = resolved.bottom.outlet) ∧
    (arr.bottomFlowsLeftToRight = true →
      r.bottom 0 = resolved.bottom.inlet ∧
      r.bottom (n - 1) = resolved.bottom.outlet) := by
  obtain ⟨resolved', nodes, hres', hnodes, -, -, hrtop, hrbot, -, -⟩ :=
    solve_ok_elim hsolve
  rw [hres] at hres'
  cases hres'
  obtain ⟨h1, h2, h3, h4⟩ := nodes_endpoints hnodes hn
  rw [hrtop, hrbot]
  refine ⟨h1, h2, ?_, ?_⟩ <;> intro harr <;>
    simp only [DiscArrangement.bottomSelect, harr, Bool.false_eq_true, if_false,
      if_true] at h3 h4 <;> exact ⟨h3, h4⟩


theorem resolvedConst_heatRate (cp p rho : ℝ) (known : Known Unit Unit)
    (qd : HeatTransferRate) :
    Resolved.new known (.heatTransferRate qd) (constPropertyModel cp p rho)
      (constPropertyModel cp p rho) = .ok
      { top := { inlet := known.inlets.top
                 outlet := ⟨0 + (cp * (known.inlets.top.temperature - 0)
                   - qd.signedTopToBottom / known.mDot.top) / cp, rho, ()⟩
                 hIn := cp * (known.inlets.top.temperature - 0)
                 pIn := p
                 pOut := p - known.dp.top
                 mDot := known.mDot.top }
        bottom := { inlet := known.inlets.bottom
                    outlet := ⟨0 + (cp * (known.inlets.bottom.temperature - 0)
                      + qd.signedTopToBottom / known.mDot.bottom) / cp, rho, ()⟩
                    hIn := cp * (known.inlets.bottom.temperature - 0)
                    pIn := p
                    pOut := p - known.dp.bottom
                    mDot := known.mDot.bottom }
        qDot := qd } := rfl

theorem buildStates_const (cp p rho : ℝ) (side : String) (n : ℕ)
    (inlet outlet : State Unit) (pressures enthalpies : ℕ → ℝ)
    (inletAtStart : Bool) :
    buildStates (constPropertyModel cp p rho) side n inlet outlet pressures
      enthalpies inletAtStart
      = .ok (constStatesFun cp rho n inlet outlet enthalpies inletAtStart) := by
  rw [buildStates]
  simp only [constPropertyModel, ite_self]
  rw [List.findSome?_eq_none.mpr (fun x _ => rfl)]
  rfl

theorem nodesConst (arr : DiscArrangement) (cp p rho : ℝ) (n : ℕ)
    (resolved : Resolved Unit Unit) :
    Nodes.new arr n resolved (constPropertyModel cp p rho) (constPropertyModel cp p rho)
      = .ok
        { top := constStatesFun cp rho n resolved.top.inlet resolved.top.outlet
            (computeNodeArrays arr n resolved resolved.qDot.signedTopToBottom).topEnthalpies
            true
          bottom := constStatesFun cp rho n resolved.bottom.inlet resolved.bottom.outlet
            (computeNodeArrays arr n resolved resolved.qDot.signedTopToBottom).bottomEnthalpies
            (arr.bottomSelect true false)
          topEnthalpies :=
            (computeNodeArrays arr n resolved resolved.qDot.signedTopToBottom).topEnthalpies
          bottomEnthalpies :=
            (computeNodeArrays arr n resolved resolved.qDot.signedTopToBottom).bottomEnthalpies } := by
  rw [Nodes.new, buildStates_const, buildStates_const]
  rfl


theorem minFold_bounds (delta : ℕ → ℝ) (l : List ℕ) (acc : MinDeltaT) :
    (l.foldl (fun a i => if delta i < a.value then ⟨delta i, i⟩ else a) acc).value
      ≤ acc.value ∧
    ∀ i ∈ l,
      (l.foldl (fun a i => if delta i < a.value then ⟨delta i, i⟩ else a) acc).value
        ≤ delta i := by
  induction l generalizing acc with
  | nil => exact ⟨le_rfl, fun i hi => absurd hi (List.not_mem_nil i)⟩
  | cons x xs ih =>
    simp only [List.foldl_cons]
    set acc' : MinDeltaT := if delta x < acc.value then ⟨delta x, x⟩ else acc with hacc'
    have hle : acc'.value ≤ acc.value := by
      rw [hacc']
      split
      · next hlt => exact le_of_lt hlt
      · exact le_rfl
    have hlex : acc'.value ≤ delta x := by
      rw [hacc']
      split
      · exact le_rfl
      · next hlt => exact not_lt.mp hlt
    obtain ⟨h1, h2⟩ := ih acc'
    refine ⟨le_trans h1 hle, fun i hi => ?_⟩
    rcases List.mem_cons.mp hi with hx | hxs
    · subst hx
      exact le_trans h1 hlex
    · exact h2 i hxs

theorem minFold_lb (delta : ℕ → ℝ) (l : List ℕ) (acc : MinDeltaT) (b : ℝ)
    (hacc : b < acc.value) (h : ∀ i ∈ l, b < delta i) :
    b < (l.foldl (fun a i => if delta i < a.value then ⟨delta i, i⟩ else a) acc).value := by
  induction l generalizing acc with
  | nil => exact hacc
  | cons x xs ih =>
    simp only [List.foldl_cons]
    apply ih
    · split
      · exact h x (List.mem_cons_self x xs)
      · exact hacc
    · exact fun i hi => h i (List.mem_cons_of_mem x hi)

theorem mem_drop_one_range {n i : ℕ} (h1 : 1 ≤ i) (h2 : i < n) :
    i ∈ (List.range n).drop 1 := by
  obtain ⟨m, rfl⟩ : ∃ m, n = m + 1 := ⟨n - 1, by omega⟩
  rw [List.range_succ_eq_map, List.drop_succ_cons, List.drop_zero, List.mem_map]
  exact ⟨i - 1, by rw [List.mem_range]; omega, by omega⟩


theorem ok_bind {ε α β : Type} (a : α) (f : α → Except ε β) :
    (Except.ok a >>= f) = f a := rfl

theorem error_bind {ε α β : Type} (e : ε) (f : α → Except ε β) :
    ((Except.error e : Except ε α) >>= f) = .error e := rfl

theorem checkSecondLaw_mismatch_topToBottom {TF BF : Type}
    {resolved : Resolved TF BF} {mdt : MinDeltaT} {q : ℝ}
    (hq : resolved.qDot = .topToBottom q)
    (hnothot : ¬ (resolved.bottom.inlet.temperature ≤ resolved.top.inlet.temperature)) :
    checkSecondLaw resolved mdt = .error (.secondLawViolation
      (some resolved.top.outlet.temperature) (some resolved.bottom.outlet.temperature)
      q mdt.value (some mdt.node)) := by
  rw [checkSecondLaw, hq]
  simp only [decide_eq_false hnothot, Bool.not_false, Bool.true_or, if_true,
    HeatTransferRate.signedTopToBottom]

theorem checkSecondLaw_mismatch_bottomToTop {TF BF : Type}
    {resolved : Resolved TF BF} {mdt : MinDeltaT} {q : ℝ}
    (hq : resolved.qDot = .bottomToTop q)
    (hhot : resolved.bottom.inlet.temperature ≤ resolved.top.inlet.temperature) :
    checkSecondLaw resolved mdt = .error (.secondLawViolation
      (some resolved.top.outlet.temperature) (some resolved.bottom.outlet.temperature)
      (-q) mdt.value (some mdt.node)) := by
  rw [checkSecondLaw, hq]
  simp only [decide_eq_true_eq, hhot, decide_eq_true, Bool.true_or, if_true,
    HeatTransferRate.signedTopToBottom]

theorem checkSecondLaw_topToBottom_hot {TF BF : Type}
    {resolved : Resolved TF BF} {mdt : MinDeltaT} {q : ℝ}
    (hq : resolved.qDot = .topToBottom q)
    (hhot : resolved.bottom.inlet.temperature ≤ resolved.top.inlet.temperature) :
    checkSecondLaw resolved mdt
      = if mdt.value < 0 then
          .error (.secondLawViolation
            (some resolved.top.outlet.temperature)
            (some resolved.bottom.outlet.temperature)
            q mdt.value (some mdt.node))
        else .ok () := by
  rw [checkSecondLaw, hq]
  simp only [hhot, decide_eq_true, Bool.not_true, Bool.false_or,
    HeatTransferRate.signedTopToBottom]
  by_cases hv : mdt.value < 0
  · simp only [hv, decide_eq_true, if_pos, if_true]
  · simp only [decide_eq_false hv, Bool.false_eq_true, if_false]
    rw [if_neg hv]


theorem constStatesFun_zero_true (cp rho : ℝ) (n : ℕ) (inlet outlet : State Unit)
    (e : ℕ → ℝ) : constStatesFun cp rho n inlet outlet e true 0 = inlet := by
  simp [constStatesFun]

theorem constStatesFun_last_true (cp rho : ℝ) (n : ℕ) (hn : 2 ≤ n)
    (inlet outlet : State Unit) (e : ℕ → ℝ) :
    constStatesFun cp rho n inlet outlet e true (n - 1) = outlet := by
  simp only [constStatesFun, if_true]
  rw [if_neg (by omega : ¬ (n - 1 = 0))]

theorem constStatesFun_last_false (cp rho : ℝ) (n : ℕ) (inlet outlet : State Unit)
    (e : ℕ → ℝ) :
    constStatesFun cp rho n inlet outlet e false (n - 1) = inlet := by
  simp [constStatesFun]

theorem constStatesFun_zero_false (cp rho : ℝ) (n : ℕ) (hn : 2 ≤ n)
    (inlet outlet : State Unit) (e : ℕ → ℝ) :
    constStatesFun cp rho n inlet outlet e false 0 = outlet := by
  simp only [constStatesFun, Bool.false_eq_true, if_false]
  rw [if_neg (by omega : ¬ (0 = n - 1))]
  simp

theorem constStatesFun_interior (cp rho : ℝ) (n : ℕ) (inlet outlet : State Unit)
    (e : ℕ → ℝ) (b : Bool) (i : ℕ) (h0 : i ≠ 0) (hlast : i ≠ n - 1) :
    constStatesFun cp rho n inlet outlet e b i = ⟨0 + e i / cp, rho, ()⟩ := by
  rw [constStatesFun]
  cases b <;> simp only [Bool.false_eq_true, if_false, if_true] <;>
    rw [if_neg (by omega), if_neg (by omega)]


theorem computeMinDeltaT_between {TF BF : Type} (arr : DiscArrangement) (n : ℕ)
    (nodes : Nodes TF BF) (hn0 : n ≠ 0) (b : ℝ)
    (hnothot : ¬ ((nodes.bottom (arr.bottomSelect 0 (n - 1))).temperature
      ≤ (nodes.top 0).temperature))
    (h : ∀ i, i < n →
      b < (nodes.bottom i).temperature - (nodes.top i).temperature) :
    b < (computeMinDeltaT arr n nodes).value := by
  rw [computeMinDeltaT, if_neg hn0]
  simp only [if_neg hnothot]
  apply minFold_lb
  · exact h 0 (by omega)
  · intro i hi
    have : i ∈ List.range n := List.mem_of_mem_drop hi
    exact h i (List.mem_range.mp this)

theorem computeMinDeltaT_le_hot {TF BF : Type} (arr : DiscArrangement) (n : ℕ)
    (nodes : Nodes TF BF) (hn0 : n ≠ 0)
    (hhot : (nodes.bottom (arr.bottomSelect 0 (n - 1))).temperature
      ≤ (nodes.top 0).temperature)
    (i : ℕ) (hi : i < n) :
    (computeMinDeltaT arr n nodes).value
      ≤ (nodes.top i).temperature - (nodes.bottom i).temperature := by
  rw [computeMinDeltaT, if_neg hn0]
  simp only [if_pos hhot]
  rcases Nat.eq_zero_or_pos i with h0 | hpos
  · subst h0
    exact (minFold_bounds _ _ _).1
  · exact (minFold_bounds _ _ _).2 i (mem_drop_one_range hpos hi)

theorem computeMinDeltaT_two {TF BF : Type} (arr : DiscArrangement)
    (nodes : Nodes TF BF)
    (hnothot : ¬ ((nodes.bottom (arr.bottomSelect 0 (2 - 1))).temperature
      ≤ (nodes.top 0).temperature))
    (hge : ¬ ((nodes.bottom 1).temperature - (nodes.top 1).temperature
      < (nodes.bottom 0).temperature - (nodes.top 0).temperature)) :
    computeMinDeltaT arr 2 nodes
      = ⟨(nodes.bottom 0).temperature - (nodes.top 0).temperature, 0⟩ := by
  rw [computeMinDeltaT, if_neg (by norm_num : (2 : ℕ) ≠ 0)]
  simp only [if_neg hnothot]
  have hl : ((List.range 2).drop 1) = [1] := rfl
  rw [hl, List.foldl_cons, List.foldl_nil]
  simp only []
  rw [if_neg hge]

/-- C3 (amended): requesting heat from the colder top inlet to the hotter
bottom inlet fails with a `SecondLawViolation` whose reported `q_dot` is the
requested signed rate and whose `min_delta_t` is the (positive) minimum of
the node-wise hot-to-cold differences of the discretized arrays — for
counterflow strictly greater than the raw inlet-to-inlet interval, which the
original claim said it carries. -/
theorem claim_C3_amended {arr : DiscArrangement} (cp p rho : ℝ) (n : ℕ)
    (known : Known Unit Unit) (q : ℝ)
    (hcp : 0 < cp) (hn : 2 ≤ n)
    (hmT : 0 < known.mDot.top) (hmB : 0 < known.mDot.bottom) (hq : 0 < q)
    (hcold : known.inlets.top.temperature < known.inlets.bottom.temperature) :
    ∃ v node,
      solve arr n known (.heatTransferRate (.topToBottom q))
          (constPropertyModel cp p rho) (constPropertyModel cp p rho)
        = .error (.secondLawViolation
            (some (0 + (cp * (known.inlets.top.temperature - 0)
              - q / known.mDot.top) / cp))
            (some (0 + (cp * (known.inlets.bottom.temperature - 0)
              + q / known.mDot.bottom) / cp))
            q v (some node)) ∧
      0 < v ∧
      (arr.bottomFlowsLeftToRight = false →
        known.inlets.bottom.temperature - known.inlets.top.temperature < v) := by
  have hcp' : cp ≠ 0 := ne_of_gt hcp
  have hn0 : n ≠ 0 := by omega
  have hnR : (0 : ℝ) < (n : ℝ) - 1 := by
    have h2 : (2 : ℝ) ≤ (n : ℝ) := by exact_mod_cast hn
    linarith
  have hcast : ((n - 1 : ℕ) : ℝ) = (n : ℝ) - 1 := by
    have h1 : 1 ≤ n := by omega
    push_cast [h1]
    ring
  have hres := resolvedConst_heatRate cp p rho known (.topToBottom q)
  have hnodes := nodesConst arr cp p rho n
    { top := { inlet := known.inlets.top
               outlet := ⟨0 + (cp * (known.inlets.top.temperature - 0)
                 - (HeatTransferRate.topToBottom q).signedTopToBottom / known.mDot.top) / cp,
                 rho, ()⟩
               hIn := cp * (known.inlets.top.temperature - 0)
               pIn := p
               pOut := p - known.dp.top
               mDot := known.mDot.top }
      bottom := { inlet := known.inlets.bottom
                  outlet := ⟨0 + (cp * (known.inlets.bottom.temperature - 0)
                    + (HeatTransferRate.topToBottom q).signedTopToBottom / known.mDot.bottom) / cp,
                    rho, ()⟩
                  hIn := cp * (known.inlets.bottom.temperature - 0)
                  pIn := p
                  pOut := p - known.dp.bottom
                  mDot := known.mDot.bottom }
      qDot := .topToBottom q }
  simp only [HeatTransferRate.signedTopToBottom] at hres hnodes
  simp only [computeNodeArrays] at hnodes
  have htopT : ∀ i : ℕ, i < n →
      (constStatesFun cp rho n known.inlets.top
        ⟨0 + (cp * (known.inlets.top.temperature - 0) - q / known.mDot.top) / cp, rho, ()⟩
        (linearArray n (cp * (known.inlets.top.temperature - 0))
          (cp * (known.inlets.top.temperature - 0) - q / known.mDot.top)) true i).temperature
      = known.inlets.top.temperature
        - q / known.mDot.top * ((i : ℝ) / ((n : ℝ) - 1)) / cp := by
    intro i hi
    by_cases hl : i = n - 1
    · subst hl
      rw [constStatesFun_last_true cp rho n hn]
      rw [hcast, div_self (ne_of_gt hnR), mul_one]
      show 0 + (cp * (known.inlets.top.temperature - 0) - q / known.mDot.top) / cp = _
      field_simp
      ring
    · by_cases h0 : i = 0
      · subst h0
        rw [constStatesFun_zero_true]
        simp
      · rw [constStatesFun_interior cp rho n _ _ _ true i h0 hl]
        show 0 + linearArray n (cp * (known.inlets.top.temperature - 0))
          (cp * (known.inlets.top.temperature - 0) - q / known.mDot.top) i / cp = _
        rw [linearArray]
        field_simp
        ring
  cases hflag : arr.bottomFlowsLeftToRight with
  | false =>
    simp only [DiscArrangement.bottomSelect, hflag, Bool.false_eq_true, if_false] at hnodes
    have hbotT : ∀ i : ℕ, i < n →
        (constStatesFun cp rho n known.inlets.bottom
          ⟨0 + (cp * (known.inlets.bottom.temperature - 0) + q / known.mDot.bottom) / cp, rho, ()⟩
          (linearArray n (cp * (known.inlets.bottom.temperature - 0) + q / known.mDot.bottom)
            (cp * (known.inlets.bottom.temperature - 0))) false i).temperature
        = known.inlets.bottom.temperature
          + q / known.mDot.bottom * (((n : ℝ) - 1 - (i : ℝ)) / ((n : ℝ) - 1)) / cp := by
      intro i hi
      by_cases hl : i = n - 1
      · subst hl
        rw [constStatesFun_last_false]
        rw [hcast]
        simp
      · by_cases h0 : i = 0
        · subst h0
          rw [constStatesFun_zero_false cp rho n hn]
          show 0 + (cp * (known.inlets.bottom.temperature - 0) + q / known.mDot.bottom) / cp = _
          rw [Nat.cast_zero]
          field_simp
          ring
        · rw [constStatesFun_interior cp rho n _ _ _ false i h0 hl]
          show 0 + linearArray n
            (cp * (known.inlets.bottom.temperature - 0) + q / known.mDot.bottom)
            (cp * (known.inlets.bottom.temperature - 0)) i / cp = _
          rw [linearArray]
          field_simp
          ring
    have hextra : ∀ i : ℕ, i < n →
        0 < q / known.mDot.bottom * (((n : ℝ) - 1 - (i : ℝ)) / ((n : ℝ) - 1)) / cp
          + q / known.mDot.top * ((i : ℝ) / ((n : ℝ) - 1)) / cp := by
      intro i hi
      have hile : (i : ℝ) ≤ (n : ℝ) - 1 := by
        have h1 : i ≤ n - 1 := by omega
        calc (i : ℝ) ≤ ((n - 1 : ℕ) : ℝ) := by exact_mod_cast h1
        _ = (n : ℝ) - 1 := hcast
      rcases Nat.eq_zero_or_pos i with h0 | hpos
      · subst h0
        rw [Nat.cast_zero, sub_zero, div_self (ne_of_gt hnR), mul_one,
          zero_div, mul_zero, zero_div, add_zero]
        positivity
      · have hsp : (0 : ℝ) < (i : ℝ) := by exact_mod_cast hpos
        have t1 : 0 ≤ q / known.mDot.bottom * (((n : ℝ) - 1 - (i : ℝ)) / ((n : ℝ) - 1)) / cp := by
          apply div_nonneg (mul_nonneg (le_of_lt (div_pos hq hmB))
            (div_nonneg (by linarith) (le_of_lt hnR))) (le_of_lt hcp)
        have t2 : 0 < q / known.mDot.top * ((i : ℝ) / ((n : ℝ) - 1)) / cp :=
          div_pos (mul_pos (div_pos hq hmT) (div_pos hsp hnR)) hcp
        linarith
    have hmdtlb : known.inlets.bottom.temperature - known.inlets.top.temperature
        < (computeMinDeltaT arr n
            ((⟨constStatesFun cp rho n known.inlets.top
                ⟨0 + (cp * (known.inlets.top.temperature - 0) - q / known.mDot.top) / cp, rho, ()⟩
                (linearArray n (cp * (known.inlets.top.temperature - 0))
                  (cp * (known.inlets.top.temperature - 0) - q / known.mDot.top)) true,
              constStatesFun cp rho n known.inlets.bottom
                ⟨0 + (cp * (known.inlets.bottom.temperature - 0) + q / known.mDot.bottom) / cp, rho, ()⟩
                (linearArray n (cp * (known.inlets.bottom.temperature - 0) + q / known.mDot.bottom)
                  (cp * (known.inlets.bottom.temperature - 0))) false,
              linearArray n (cp * (known.inlets.top.temperature - 0))
                (cp * (known.inlets.top.temperature - 0) - q / known.mDot.top),
              linearArray n (cp * (known.inlets.bottom.temperature - 0) + q / known.mDot.bottom)
                (cp * (known.inlets.bottom.temperature - 0))⟩ : Nodes Unit Unit))).value := by
      apply computeMinDeltaT_between arr n _ hn0
      · simp only [DiscArrangement.bottomSelect, hflag, Bool.false_eq_true, if_false]
        rw [hbotT (n - 1) (by omega), htopT 0 (by omega), hcast]
        rw [Nat.cast_zero]
        norm_num
        linarith
      · intro i hi
        simp only []
        rw [hbotT i hi, htopT i hi]
        have := hextra i hi
        linarith
    refine ⟨_, (computeMinDeltaT arr n
            ((⟨constStatesFun cp rho n known.inlets.top
                ⟨0 + (cp * (known.inlets.top.temperature - 0) - q / known.mDot.top) / cp, rho, ()⟩
                (linearArray n (cp * (known.inlets.top.temperature - 0))
                  (cp * (known.inlets.top.temperature - 0) - q / known.mDot.top)) true,
              constStatesFun cp rho n known.inlets.bottom
                ⟨0 + (cp * (known.inlets.bottom.temperature - 0) + q / known.mDot.bottom) / cp, rho, ()⟩
                (linearArray n (cp * (known.inlets.bottom.temperature - 0) + q / known.mDot.bottom)
                  (cp * (known.inlets.bottom.temperature - 0))) false,
              linearArray n (cp * (known.inlets.top.temperature - 0))
                (cp * (known.inlets.top.temperature - 0) - q / known.mDot.top),
              linearArray n (cp * (known.inlets.bottom.temperature - 0) + q / known.mDot.bottom)
                (cp * (known.inlets.bottom.temperature - 0))⟩ : Nodes Unit Unit))).node, ?_, ?_, fun _ => hmdtlb⟩
    · rw [solve, hres, ok_bind, hnodes, ok_bind]
      simp only []
      rw [checkSecondLaw_mismatch_topToBottom rfl (not_le.mpr hcold), error_bind]
    · linarith
  | true =>
    simp only [DiscArrangement.bottomSelect, hflag, eq_self_iff_true, if_true] at hnodes
    have hbotT : ∀ i : ℕ, i < n →
        (constStatesFun cp rho n known.inlets.bottom
          ⟨0 + (cp * (known.inlets.bottom.temperature - 0) + q / known.mDot.bottom) / cp, rho, ()⟩
          (linearArray n (cp * (known.inlets.bottom.temperature - 0))
            (cp * (known.inlets.bottom.temperature - 0) + q / known.mDot.bottom)) true i).temperature
        = known.inlets.bottom.temperature
          + q / known.mDot.bottom * ((i : ℝ) / ((n : ℝ) - 1)) / cp := by
      intro i hi
      by_cases hl : i = n - 1
      · subst hl
        rw [constStatesFun_last_true cp rho n hn]
        rw [hcast, div_self (ne_of_gt hnR), mul_one]
        show 0 + (cp * (known.inlets.bottom.temperature - 0) + q / known.mDot.bottom) / cp = _
        field_simp
        ring
      · by_cases h0 : i = 0
        · subst h0
          rw [constStatesFun_zero_true]
          simp
        · rw [constStatesFun_interior cp rho n _ _ _ true i h0 hl]
          show 0 + linearArray n (cp * (known.inlets.bottom.temperature - 0))
            (cp * (known.inlets.bottom.temperature - 0) + q / known.mDot.bottom) i / cp = _
          rw [linearArray]
          field_simp
          ring
    have hmdt0 : (0 : ℝ) < (computeMinDeltaT arr n
            ((⟨constStatesFun cp rho n known.inlets.top
                ⟨0 + (cp * (known.inlets.top.temperature - 0) - q / known.mDot.top) / cp, rho, ()⟩
                (linearArray n (cp * (known.inlets.top.temperature - 0))
                  (cp * (known.inlets.top.temperature - 0) - q / known.mDot.top)) true,
              constStatesFun cp rho n known.inlets.bottom
                ⟨0 + (cp * (known.inlets.bottom.temperature - 0) + q / known.mDot.bottom) / cp, rho, ()⟩
                (linearArray n (cp * (known.inlets.bottom.temperature - 0))
                  (cp * (known.inlets.bottom.temperature - 0) + q / known.mDot.bottom)) true,
              linearArray n (cp * (known.inlets.top.temperature - 0))
                (cp * (known.inlets.top.temperature - 0) - q / known.mDot.top),
              linearArray n (cp * (known.inlets.bottom.temperature - 0))
                (cp * (known.inlets.bottom.temperature - 0) + q / known.mDot.bottom)⟩ : Nodes Unit Unit))).value := by
      apply computeMinDeltaT_between arr n _ hn0
      · simp only [DiscArrangement.bottomSelect, hflag, eq_self_iff_true, if_true]
        rw [hbotT 0 (by omega), htopT 0 (by omega), Nat.cast_zero]
        norm_num
        linarith
      · intro i hi
        simp only []
        rw [hbotT i hi, htopT i hi]
        have hir : (0 : ℝ) ≤ (i : ℝ) / ((n : ℝ) - 1) :=
          div_nonneg (Nat.cast_nonneg i) (le_of_lt hnR)
        have t1 : 0 ≤ q / known.mDot.bottom * ((i : ℝ) / ((n : ℝ) - 1)) / cp :=
          div_nonneg (mul_nonneg (le_of_lt (div_pos hq hmB)) hir) (le_of_lt hcp)
        have t2 : 0 ≤ q / known.mDot.top * ((i : ℝ) / ((n : ℝ) - 1)) / cp :=
          div_nonneg (mul_nonneg (le_of_lt (div_pos hq hmT)) hir) (le_of_lt hcp)
        linarith
    refine ⟨_, (computeMinDeltaT arr n
            ((⟨constStatesFun cp rho n known.inlets.top
                ⟨0 + (cp * (known.inlets.top.temperature - 0) - q / known.mDot.top) / cp, rho, ()⟩
                (linearArray n (cp * (known.inlets.top.temperature - 0))
                  (cp * (known.inlets.top.temperature - 0) - q / known.mDot.top)) true,
              constStatesFun cp rho n known.inlets.bottom
                ⟨0 + (cp * (known.inlets.bottom.temperature - 0) + q / known.mDot.bottom) / cp, rho, ()⟩
                (linearArray n (cp * (known.inlets.bottom.temperature - 0))
                  (cp * (known.inlets.bottom.temperature - 0) + q / known.mDot.bottom)) true,
              linearArray n (cp * (known.inlets.top.temperature - 0))
                (cp * (known.inlets.top.temperature - 0) - q / known.mDot.top),
              linearArray n (cp * (known.inlets.bottom.temperature - 0))
                (cp * (known.inlets.bottom.temperature - 0) + q / known.mDot.bottom)⟩ : Nodes Unit Unit))).node, ?_, hmdt0,
      fun hfalse => Bool.noConfusion hfalse⟩
    rw [solve, hres, ok_bind, hnodes, ok_bind]
    simp only []
    rw [checkSecondLaw_mismatch_topToBottom rfl (not_le.mpr hcold), error_bind]

/-- C3 counterexample: the worked example of the spec (top inlet 300 K, bottom
inlet 400 K, both streams 1 kg/s with cp = 1000, requesting 10 kW top-to-bottom
over 2 nodes in counterflow) is rejected with a `SecondLawViolation` whose
`min_delta_t` is 110 K, which differs from the raw inlet-to-inlet interval
(±100 K) that the claim says it carries. -/
theorem claim_C3_counterexample :
    solve counterFlowArrangement 2
        (⟨⟨⟨300, 1, ()⟩, ⟨400, 1, ()⟩⟩, ⟨1, 1⟩, ⟨0, 0⟩⟩ : Known Unit Unit)
        (.heatTransferRate (.topToBottom 10000))
        (constPropertyModel 1000 101325 1) (constPropertyModel 1000 101325 1)
      = .error (.secondLawViolation (some 290) (some 410) 10000 110 (some 0))
    ∧ (110 : ℝ) ≠ 400 - 300 ∧ (110 : ℝ) ≠ 300 - 400 := by
  refine ⟨?_, by norm_num, by norm_num⟩
  rw [solve, resolvedConst_heatRate, ok_bind, nodesConst, ok_bind]
  simp only []
  rw [checkSecondLaw_mismatch_topToBottom rfl
    (by show ¬ ((400 : ℝ) ≤ 300); norm_num), error_bind]
  rw [computeMinDeltaT_two counterFlowArrangement _
    (by show ¬ ((400 : ℝ) ≤ 300); norm_num)
    (by show ¬ ((400 : ℝ) - (0 + (1000 * ((300 : ℝ) - 0) - 10000 / 1) / 1000)
          < (0 + (1000 * ((400 : ℝ) - 0) + 10000 / 1) / 1000) - 300)
        norm_num)]
  norm_num [constStatesFun, computeNodeArrays, DiscArrangement.bottomSelect,
    counterFlowArrangement, linearArray, HeatTransferRate.signedTopToBottom,
    Except.error.injEq, SolveError.secondLawViolation.injEq, Option.some.injEq]

/-- Witness for the amended C3 theorem at the spec's worked example. -/
theorem claim_C3_amended_witness :
    ∃ v node,
      solve counterFlowArrangement 2
          (⟨⟨⟨300, 1, ()⟩, ⟨400, 1, ()⟩⟩, ⟨1, 1⟩, ⟨0, 0⟩⟩ : Known Unit Unit)
          (.heatTransferRate (.topToBottom 10000))
          (constPropertyModel 1000 101325 1) (constPropertyModel 1000 101325 1)
        = .error (.secondLawViolation
            (some (0 + (1000 * ((300 : ℝ) - 0) - 10000 / 1) / 1000))
            (some (0 + (1000 * ((400 : ℝ) - 0) + 10000 / 1) / 1000))
            10000 v (some node)) ∧
      0 < v ∧
      (counterFlowArrangement.bottomFlowsLeftToRight = false →
        (400 : ℝ) - 300 < v) :=
  claim_C3_amended 1000 101325 1 2
    (⟨⟨⟨300, 1, ()⟩, ⟨400, 1, ()⟩⟩, ⟨1, 1⟩, ⟨0, 0⟩⟩ : Known Unit Unit) 10000
    (by norm_num) (le_refl 2)
    (by show (0 : ℝ) < 1; norm_num) (by show (0 : ℝ) < 1; norm_num)
    (by norm_num) (by show (300 : ℝ) < 400; norm_num)

/-- C5: with `target_ua = 0`, `given_ua` is exactly the solve with
`Given = HeatTransferRate(None)` (no bisection is consulted); under the
constant-property model that solve succeeds with `q_dot = None`, `ua = 0`,
and outlet temperatures exactly equal to the inlet temperatures. -/
theorem claim_C5_givenUa_zero {TF BF : Type} (arr : DiscArrangement) (n : ℕ)
    (known : Known TF BF) (tt : ThermoModel TF) (tb : ThermoModel BF)
    (rb : Except GivenUaError (Results TF BF))
    (cp p rho : ℝ) (nU : ℕ) (arrU : DiscArrangement) (knownU : Known Unit Unit)
    (rbU : Except GivenUaError (Results Unit Unit))
    (hcp : cp ≠ 0) (hnU : 2 ≤ nU) :
    givenUa arr n known 0 tt tb rb
      = (solve arr n known (.heatTransferRate .none) tt tb).mapError .solveFailed ∧
    ∃ r : Results Unit Unit,
      givenUa arrU nU knownU 0 (constPropertyModel cp p rho)
          (constPropertyModel cp p rho) rbU = .ok r ∧
      r.qDot = .none ∧ r.ua = 0 ∧
      (r.top 0).temperature = knownU.inlets.top.temperature ∧
      (r.top (nU - 1)).temperature = knownU.inlets.top.temperature ∧
      (r.bottom (arrU.bottomSelect 0 (nU - 1))).temperature
        = knownU.inlets.bottom.temperature ∧
      (r.bottom (arrU.bottomSelect (nU - 1) 0)).temperature
        = knownU.inlets.bottom.temperature := by
  refine ⟨by rw [givenUa, if_pos rfl], ?_⟩
  have hres := resolvedConst_heatRate cp p rho knownU .none
  have hnodes := nodesConst arrU cp p rho nU { top := { inlet := knownU.inlets.top, outlet := ⟨0 + (cp * (knownU.inlets.top.temperature - 0) - (HeatTransferRate.none).signedTopToBottom / knownU.mDot.top) / cp, rho, ()⟩, hIn := cp * (knownU.inlets.top.temperature - 0), pIn := p, pOut := p - knownU.dp.top, mDot := knownU.mDot.top }, bottom := { inlet := knownU.inlets.bottom, outlet := ⟨0 + (cp * (knownU.inlets.bottom.temperature - 0) + (HeatTransferRate.none).signedTopToBottom / knownU.mDot.bottom) / cp, rho, ()⟩, hIn := cp * (knownU.inlets.bottom.temperature - 0), pIn := p, pOut := p - knownU.dp.bottom, mDot := knownU.mDot.bottom }, qDot := HeatTransferRate.none }
  simp only [HeatTransferRate.signedTopToBottom] at hres hnodes
  refine ⟨⟨((⟨constStatesFun cp rho nU knownU.inlets.top ⟨0 + (cp * (knownU.inlets.top.temperature - 0) - 0 / knownU.mDot.top) / cp, rho, ()⟩ (computeNodeArrays arrU nU { top := { inlet := knownU.inlets.top, outlet := ⟨0 + (cp * (knownU.inlets.top.temperature - 0) - 0 / knownU.mDot.top) / cp, rho, ()⟩, hIn := cp * (knownU.inlets.top.temperature - 0), pIn := p, pOut := p - knownU.dp.top, mDot := knownU.mDot.top }, bottom := { inlet := knownU.inlets.bottom, outlet := ⟨0 + (cp * (knownU.inlets.bottom.temperature - 0) + 0 / knownU.mDot.bottom) / cp, rho, ()⟩, hIn := cp * (knownU.inlets.bottom.temperature - 0), pIn := p, pOut := p - knownU.dp.bottom, mDot := knownU.mDot.bottom }, qDot := HeatTransferRate.none } 0).topEnthalpies true, constStatesFun cp rho nU knownU.inlets.bottom ⟨0 + (cp * (knownU.inlets.bottom.temperature - 0) + 0 / knownU.mDot.bottom) / cp, rho, ()⟩ (computeNodeArrays arrU nU { top := { inlet := knownU.inlets.top, outlet := ⟨0 + (cp * (knownU.inlets.top.temperature - 0) - 0 / knownU.mDot.top) / cp, rho, ()⟩, hIn := cp * (knownU.inlets.top.temperature - 0), pIn := p, pOut := p - knownU.dp.top, mDot := knownU.mDot.top }, bottom := { inlet := knownU.inlets.bottom, outlet := ⟨0 + (cp * (knownU.inlets.bottom.temperature - 0) + 0 / knownU.mDot.bottom) / cp, rho, ()⟩, hIn := cp * (knownU.inlets.bottom.temperature - 0), pIn := p, pOut := p - knownU.dp.bottom, mDot := knownU.mDot.bottom }, qDot := HeatTransferRate.none } 0).bottomEnthalpies (arrU.bottomSelect true false), (computeNodeArrays arrU nU { top := { inlet := knownU.inlets.top, outlet := ⟨0 + (cp * (knownU.inlets.top.temperature - 0) - 0 / knownU.mDot.top) / cp, rho, ()⟩, hIn := cp * (knownU.inlets.top.temperature - 0), pIn := p, pOut := p - knownU.dp.top, mDot := knownU.mDot.top }, bottom := { inlet := knownU.inlets.bottom, outlet := ⟨0 + (cp * (knownU.inlets.bottom.temperature - 0) + 0 / knownU.mDot.bottom) / cp, rho, ()⟩, hIn := cp * (knownU.inlets.bottom.temperature - 0), pIn := p, pOut := p - knownU.dp.bottom, mDot := knownU.mDot.bottom }, qDot := HeatTransferRate.none } 0).topEnthalpies, (computeNodeArrays arrU nU { top := { inlet := knownU.inlets.top, outlet := ⟨0 + (cp * (knownU.inlets.top.temperature - 0) - 0 / knownU.mDot.top) / cp, rho, ()⟩, hIn := cp * (knownU.inlets.top.temperature - 0), pIn := p, pOut := p - knownU.dp.top, mDot := knownU.mDot.top }, bottom := { inlet := knownU.inlets.bottom, outlet := ⟨0 + (cp * (knownU.inlets.bottom.temperature - 0) + 0 / knownU.mDot.bottom) / cp, rho, ()⟩, hIn := cp * (knownU.inlets.bottom.temperature - 0), pIn := p, pOut := p - knownU.dp.bottom, mDot := knownU.mDot.bottom }, qDot := HeatTransferRate.none } 0).bottomEnthalpies⟩ : Nodes Unit Unit)).top, ((⟨constStatesFun cp rho nU knownU.inlets.top ⟨0 + (cp * (knownU.inlets.top.temperature - 0) - 0 / knownU.mDot.top) / cp, rho, ()⟩ (computeNodeArrays arrU nU { top := { inlet := knownU.inlets.top, outlet := ⟨0 + (cp * (knownU.inlets.top.temperature - 0) - 0 / knownU.mDot.top) / cp, rho, ()⟩, hIn := cp * (knownU.inlets.top.temperature - 0), pIn := p, pOut := p - knownU.dp.top, mDot := knownU.mDot.top }, bottom := { inlet := knownU.inlets.bottom, outlet := ⟨0 + (cp * (knownU.inlets.bottom.temperature - 0) + 0 / knownU.mDot.bottom) / cp, rho, ()⟩, hIn := cp * (knownU.inlets.bottom.temperature - 0), pIn := p, pOut := p - knownU.dp.bottom, mDot := knownU.mDot.bottom }, qDot := HeatTransferRate.none } 0).topEnthalpies true, constStatesFun cp rho nU knownU.inlets.bottom ⟨0 + (cp * (knownU.inlets.bottom.temperature - 0) + 0 / knownU.mDot.bottom) / cp, rho, ()⟩ (computeNodeArrays arrU nU { top := { inlet := knownU.inlets.top, outlet := ⟨0 + (cp * (knownU.inlets.top.temperature - 0) - 0 / knownU.mDot.top) / cp, rho, ()⟩, hIn := cp * (knownU.inlets.top.temperature - 0), pIn := p, pOut := p - knownU.dp.top, mDot := knownU.mDot.top }, bottom := { inlet := knownU.inlets.bottom, outlet := ⟨0 + (cp * (knownU.inlets.bottom.temperature - 0) + 0 / knownU.mDot.bottom) / cp, rho, ()⟩, hIn := cp * (knownU.inlets.bottom.temperature - 0), pIn := p, pOut := p - knownU.dp.bottom, mDot := knownU.mDot.bottom }, qDot := HeatTransferRate.none } 0).bottomEnthalpies (arrU.bottomSelect true false), (computeNodeArrays arrU nU { top := { inlet := knownU.inlets.top, outlet := ⟨0 + (cp * (knownU.inlets.top.temperature - 0) - 0 / knownU.mDot.top) / cp, rho, ()⟩, hIn := cp * (knownU.inlets.top.temperature - 0), pIn := p, pOut := p - knownU.dp.top, mDot := knownU.mDot.top }, bottom := { inlet := knownU.inlets.bottom, outlet := ⟨0 + (cp * (knownU.inlets.bottom.temperature - 0) + 0 / knownU.mDot.bottom) / cp, rho, ()⟩, hIn := cp * (knownU.inlets.bottom.temperature - 0), pIn := p, pOut := p - knownU.dp.bottom, mDot := knownU.mDot.bottom }, qDot := HeatTransferRate.none } 0).topEnthalpies, (computeNodeArrays arrU nU { top := { inlet := knownU.inlets.top, outlet := ⟨0 + (cp * (knownU.inlets.top.temperature - 0) - 0 / knownU.mDot.top) / cp, rho, ()⟩, hIn := cp * (knownU.inlets.top.temperature - 0), pIn := p, pOut := p - knownU.dp.top, mDot := knownU.mDot.top }, bottom := { inlet := knownU.inlets.bottom, outlet := ⟨0 + (cp * (knownU.inlets.bottom.temperature - 0) + 0 / knownU.mDot.bottom) / cp, rho, ()⟩, hIn := cp * (knownU.inlets.bottom.temperature - 0), pIn := p, pOut := p - knownU.dp.bottom, mDot := knownU.mDot.bottom }, qDot := HeatTransferRate.none } 0).bottomEnthalpies⟩ : Nodes Unit Unit)).bottom, HeatTransferRate.none, 0, computeMinDeltaT arrU nU (⟨constStatesFun cp rho nU knownU.inlets.top ⟨0 + (cp * (knownU.inlets.top.temperature - 0) - 0 / knownU.mDot.top) / cp, rho, ()⟩ (computeNodeArrays arrU nU { top := { inlet := knownU.inlets.top, outlet := ⟨0 + (cp * (knownU.inlets.top.temperature - 0) - 0 / knownU.mDot.top) / cp, rho, ()⟩, hIn := cp * (knownU.inlets.top.temperature - 0), pIn := p, pOut := p - knownU.dp.top, mDot := knownU.mDot.top }, bottom := { inlet := knownU.inlets.bottom, outlet := ⟨0 + (cp * (knownU.inlets.bottom.temperature - 0) + 0 / knownU.mDot.bottom) / cp, rho, ()⟩, hIn := cp * (knownU.inlets.bottom.temperature - 0), pIn := p, pOut := p - knownU.dp.bottom, mDot := knownU.mDot.bottom }, qDot := HeatTransferRate.none } 0).topEnthalpies true, constStatesFun cp rho nU knownU.inlets.bottom ⟨0 + (cp * (knownU.inlets.bottom.temperature - 0) + 0 / knownU.mDot.bottom) / cp, rho, ()⟩ (computeNodeArrays arrU nU { top := { inlet := knownU.inlets.top, outlet := ⟨0 + (cp * (knownU.inlets.top.temperature - 0) - 0 / knownU.mDot.top) / cp, rho, ()⟩, hIn := cp * (knownU.inlets.top.temperature - 0), pIn := p, pOut := p - knownU.dp.top, mDot := knownU.mDot.top }, bottom := { inlet := knownU.inlets.bottom, outlet := ⟨0 + (cp * (knownU.inlets.bottom.temperature - 0) + 0 / knownU.mDot.bottom) / cp, rho, ()⟩, hIn := cp * (knownU.inlets.bottom.temperature - 0), pIn := p, pOut := p - knownU.dp.bottom, mDot := knownU.mDot.bottom }, qDot := HeatTransferRate.none } 0).bottomEnthalpies (arrU.bottomSelect true false), (computeNodeArrays arrU nU { top := { inlet := knownU.inlets.top, outlet := ⟨0 + (cp * (knownU.inlets.top.temperature - 0) - 0 / knownU.mDot.top) / cp, rho, ()⟩, hIn := cp * (knownU.inlets.top.temperature - 0), pIn := p, pOut := p - knownU.dp.top, mDot := knownU.mDot.top }, bottom := { inlet := knownU.inlets.bottom, outlet := ⟨0 + (cp * (knownU.inlets.bottom.temperature - 0) + 0 / knownU.mDot.bottom) / cp, rho, ()⟩, hIn := cp * (knownU.inlets.bottom.temperature - 0), pIn := p, pOut := p - knownU.dp.bottom, mDot := knownU.mDot.bottom }, qDot := HeatTransferRate.none } 0).topEnthalpies, (computeNodeArrays arrU nU { top := { inlet := knownU.inlets.top, outlet := ⟨0 + (cp * (knownU.inlets.top.temperature - 0) - 0 / knownU.mDot.top) / cp, rho, ()⟩, hIn := cp * (knownU.inlets.top.temperature - 0), pIn := p, pOut := p - knownU.dp.top, mDot := knownU.mDot.top }, bottom := { inlet := knownU.inlets.bottom, outlet := ⟨0 + (cp * (knownU.inlets.bottom.temperature - 0) + 0 / knownU.mDot.bottom) / cp, rho, ()⟩, hIn := cp * (knownU.inlets.bottom.temperature - 0), pIn := p, pOut := p - knownU.dp.bottom, mDot := knownU.mDot.bottom }, qDot := HeatTransferRate.none } 0).bottomEnthalpies⟩ : Nodes Unit Unit)⟩, ?_, rfl, rfl, ?_, ?_, ?_, ?_⟩
  · rw [givenUa, if_pos rfl, solve, hres, ok_bind, hnodes, ok_bind]
    rfl
  · simp only []
    rw [constStatesFun_zero_true]
  · simp only []
    rw [constStatesFun_last_true cp rho nU hnU]
    simp only []
    field_simp
  · cases harr : arrU.bottomFlowsLeftToRight with
    | false =>
      simp only [DiscArrangement.bottomSelect, harr, Bool.false_eq_true, if_false]
      rw [constStatesFun_last_false]
    | true =>
      simp only [DiscArrangement.bottomSelect, harr, eq_self_iff_true, if_true]
      rw [constStatesFun_zero_true]
  · cases harr : arrU.bottomFlowsLeftToRight with
    | false =>
      simp only [DiscArrangement.bottomSelect, harr, Bool.false_eq_true, if_false]
      rw [constStatesFun_zero_false cp rho nU hnU]
      simp only []
      field_simp
    | true =>
      simp only [DiscArrangement.bottomSelect, harr, eq_self_iff_true, if_true]
      rw [constStatesFun_last_true cp rho nU hnU]
      simp only []
      field_simp

/-- Witness for C5 at a concrete constant-property configuration. -/
theorem claim_C5_givenUa_zero_witness :
    (givenUa counterFlowArrangement 2
        (⟨⟨⟨300, 1, ()⟩, ⟨400, 1, ()⟩⟩, ⟨1, 1⟩, ⟨0, 0⟩⟩ : Known Unit Unit) 0
        (constPropertyModel 1000 101325 1) (constPropertyModel 1000 101325 1)
        (.error (.maxIters 0 0))
      = (solve counterFlowArrangement 2
          (⟨⟨⟨300, 1, ()⟩, ⟨400, 1, ()⟩⟩, ⟨1, 1⟩, ⟨0, 0⟩⟩ : Known Unit Unit)
          (.heatTransferRate .none)
          (constPropertyModel 1000 101325 1)
          (constPropertyModel 1000 101325 1)).mapError .solveFailed) ∧
    ∃ r : Results Unit Unit,
      givenUa counterFlowArrangement 2
          (⟨⟨⟨300, 1, ()⟩, ⟨400, 1, ()⟩⟩, ⟨1, 1⟩, ⟨0, 0⟩⟩ : Known Unit Unit) 0
          (constPropertyModel 1000 101325 1) (constPropertyModel 1000 101325 1)
          (.error (.maxIters 0 0)) = .ok r ∧
      r.qDot = .none ∧ r.ua = 0 ∧
      (r.top 0).temperature = (300 : ℝ) ∧
      (r.top (2 - 1)).temperature = (300 : ℝ) ∧
      (r.bottom (counterFlowArrangement.bottomSelect 0 (2 - 1))).temperature
        = (400 : ℝ) ∧
      (r.bottom (counterFlowArrangement.bottomSelect (2 - 1) 0)).temperature
        = (400 : ℝ) :=
  claim_C5_givenUa_zero counterFlowArrangement 2
    (⟨⟨⟨300, 1, ()⟩, ⟨400, 1, ()⟩⟩, ⟨1, 1⟩, ⟨0, 0⟩⟩ : Known Unit Unit)
    (constPropertyModel 1000 101325 1) (constPropertyModel 1000 101325 1)
    (.error (.maxIters 0 0)) 1000 101325 1 2 counterFlowArrangement
    (⟨⟨⟨300, 1, ()⟩, ⟨400, 1, ()⟩⟩, ⟨1, 1⟩, ⟨0, 0⟩⟩ : Known Unit Unit)
    (.error (.maxIters 0 0)) (by norm_num) (le_refl 2)

/-- Witness for C4: a concrete two-node counterflow solve under the
constant-property model, with the resolved endpoint states spelled out. -/
theorem claim_C4_endpoint_identity_witness :
    ∃ r : Results Unit Unit,
      solve counterFlowArrangement 2
          (⟨⟨⟨300, 1, ()⟩, ⟨320, 1, ()⟩⟩, ⟨1, 1⟩, ⟨0, 0⟩⟩ : Known Unit Unit)
          (.heatTransferRate .none)
          (constPropertyModel 1000 101325 1) (constPropertyModel 1000 101325 1)
        = .ok r ∧
      (r.top 0 = (⟨300, 1, ()⟩ : State Unit) ∧
       r.top (2 - 1) = (⟨0 + (1000 * ((300 : ℝ) - 0) - 0 / 1) / 1000, 1, ()⟩ : State Unit) ∧
       (counterFlowArrangement.bottomFlowsLeftToRight = false →
         r.bottom (2 - 1) = (⟨320, 1, ()⟩ : State Unit) ∧
         r.bottom 0 = (⟨0 + (1000 * ((320 : ℝ) - 0) + 0 / 1) / 1000, 1, ()⟩ : State Unit)) ∧
       (counterFlowArrangement.bottomFlowsLeftToRight = true →
         r.bottom 0 = (⟨320, 1, ()⟩ : State Unit) ∧
         r.bottom (2 - 1) = (⟨0 + (1000 * ((320 : ℝ) - 0) + 0 / 1) / 1000, 1, ()⟩ : State Unit))) :=
  by
  refine ⟨_, rfl, ?_⟩
  exact claim_C4_endpoint_identity (le_refl 2)
    (resolvedConst_heatRate 1000 101325 1
      (⟨⟨⟨300, 1, ()⟩, ⟨320, 1, ()⟩⟩, ⟨1, 1⟩, ⟨0, 0⟩⟩ : Known Unit Unit) .none) rfl

theorem fromSigned_wf (q : ℝ) : (HeatTransferRate.fromSignedTopToBottom q).wf := by
  rw [HeatTransferRate.fromSignedTopToBottom]
  by_cases h1 : 0 < q
  · rw [if_pos h1]
    exact h1
  · rw [if_neg h1]
    by_cases h2 : q < 0
    · rw [if_pos h2]
      show 0 < -q
      linarith
    · rw [if_neg h2]
      trivial

theorem resolvedNew_basic {TF BF : Type} {known : Known TF BF} {given : Given}
    {tt : ThermoModel TF} {tb : ThermoModel BF} {resolved : Resolved TF BF}
    (h : Resolved.new known given tt tb = .ok resolved) (hgw : given.wf) :
    resolved.top.inlet = known.inlets.top ∧
    resolved.bottom.inlet = known.inlets.bottom ∧
    resolved.top.mDot = known.mDot.top ∧
    resolved.bottom.mDot = known.mDot.bottom ∧
    resolved.qDot.wf := by
  rw [Resolved.new] at h
  obtain ⟨pT, hpT, h⟩ := except_bind_ok h
  obtain ⟨pB, hpB, h⟩ := except_bind_ok h
  obtain ⟨hT, hhT, h⟩ := except_bind_ok h
  obtain ⟨hB, hhB, h⟩ := except_bind_ok h
  cases given with
  | topOutletTemp tOut =>
    obtain ⟨tS, htS, h⟩ := except_bind_ok h
    obtain ⟨hTO, hhTO, h⟩ := except_bind_ok h
    obtain ⟨qd, hqd, h⟩ := except_bind_ok h
    obtain ⟨bO, hbO, h⟩ := except_bind_ok h
    cases h
    refine ⟨rfl, rfl, rfl, rfl, ?_⟩
    rw [heatTransferRateFromSignedChecked] at hqd
    cases hqd
    exact fromSigned_wf _
  | bottomOutletTemp tOut =>
    obtain ⟨bS, hbS, h⟩ := except_bind_ok h
    obtain ⟨hBO, hhBO, h⟩ := except_bind_ok h
    obtain ⟨qd, hqd, h⟩ := except_bind_ok h
    obtain ⟨tO, htO, h⟩ := except_bind_ok h
    cases h
    refine ⟨rfl, rfl, rfl, rfl, ?_⟩
    rw [heatTransferRateFromSignedChecked] at hqd
    cases hqd
    exact fromSigned_wf _
  | heatTransferRate qd =>
    obtain ⟨tO, htO, h⟩ := except_bind_ok h
    obtain ⟨bO, hbO, h⟩ := except_bind_ok h
    cases h
    exact ⟨rfl, rfl, rfl, rfl, hgw⟩

theorem checkSecondLaw_ok_elim {TF BF : Type} {resolved : Resolved TF BF}
    {mdt : MinDeltaT} (h : checkSecondLaw resolved mdt = .ok ())
    (hne : resolved.qDot ≠ .none) :
    (∀ q, resolved.qDot = .topToBottom q →
      resolved.bottom.inlet.temperature ≤ resolved.top.inlet.temperature) ∧
    (∀ q, resolved.qDot = .bottomToTop q →
      resolved.top.inlet.temperature < resolved.bottom.inlet.temperature) ∧
    0 ≤ mdt.value := by
  rw [checkSecondLaw] at h
  cases hq : resolved.qDot with
  | none => exact absurd hq hne
  | topToBottom q =>
    rw [hq] at h
    simp only [] at h
    split at h
    · exact Except.noConfusion h
    · next hcond =>
      simp only [Bool.or_eq_true, Bool.not_eq_true', not_or, decide_eq_false_iff_not,
        decide_eq_true_eq, not_lt] at hcond
      refine ⟨fun q' _ => ?_, fun q' hq' => ?_, hcond.2⟩
      · exact not_not.mp hcond.1
      · exact HeatTransferRate.noConfusion hq'
  | bottomToTop q =>
    rw [hq] at h
    simp only [] at h
    split at h
    · exact Except.noConfusion h
    · next hcond =>
      simp only [Bool.or_eq_true, not_or, decide_eq_false_iff_not,
        decide_eq_true_eq, not_lt] at hcond
      refine ⟨fun q' hq' => ?_, fun q' _ => ?_, hcond.2⟩
      · exact HeatTransferRate.noConfusion hq'
      · exact not_le.mp hcond.1

theorem computeUa_ok_uaLoop {TF BF : Type} {arr : DiscArrangement} {mT mB : ℝ}
    {qd : HeatTransferRate} {n : ℕ} {nodes : Nodes TF BF} {ua : ℝ}
    (h : computeUa arr mT mB qd n nodes = .ok ua) (hne : qd ≠ .none) :
    uaLoop arr mT mB qd n nodes (List.range (n - 1)) 0 = .ok ua := by
  cases qd with
  | none => exact absurd rfl hne
  | topToBottom q => exact h
  | bottomToTop q => exact h

theorem uaLoop_ok_mem {TF BF : Type} {arr : DiscArrangement} {mT mB : ℝ}
    {qd : HeatTransferRate} {n : ℕ} {nodes : Nodes TF BF} :
    ∀ (l : List ℕ) (acc v : ℝ),
      uaLoop arr mT mB qd n nodes l acc = .ok v →
      ∀ i ∈ l, ∃ u, segmentUa arr mT mB qd n nodes i = .ok u
  | [], _, _, _, i, hi => absurd hi (List.not_mem_nil i)
  | x :: xs, acc, v, h, i, hi => by
    rw [uaLoop] at h
    rcases hseg : segmentUa arr mT mB qd n nodes x with e | u
    · rw [hseg] at h
      exact Except.noConfusion h
    · rw [hseg] at h
      rcases List.mem_cons.mp hi with rfl | hxs
      · exact ⟨u, hseg⟩
      · exact uaLoop_ok_mem xs (acc + u) v h i hxs

theorem segmentUa_ok_parts {TF BF : Type} {arr : DiscArrangement} {mT mB : ℝ}
    {qd : HeatTransferRate} {n : ℕ} {nodes : Nodes TF BF} {i : ℕ} {u : ℝ}
    (h : segmentUa arr mT mB qd n nodes i = .ok u) :
    ∃ cT cB res,
      capacitanceRateFromQuantity
          (mT * (nodes.topEnthalpies (i + 1) - nodes.topEnthalpies i)
            / ((nodes.top (i + 1)).temperature - (nodes.top i).temperature)) = .ok cT ∧
      capacitanceRateFromQuantity
          (mB * (arr.bottomSelect (nodes.bottomEnthalpies (i + 1)) (nodes.bottomEnthalpies i)
              - arr.bottomSelect (nodes.bottomEnthalpies i) (nodes.bottomEnthalpies (i + 1)))
            / ((arr.bottomSelect (nodes.bottom (i + 1)) (nodes.bottom i)).temperature
              - (arr.bottomSelect (nodes.bottom i) (nodes.bottom (i + 1))).temperature))
        = .ok cB ∧
      knownConditionsAndInlets arr.ntuRaw ⟨cT, (nodes.top i).temperature⟩
        (Stream.newFromOutletTemperature cB
          (arr.bottomSelect (nodes.bottom i) (nodes.bottom (i + 1))).temperature
          (arr.bottomSelect (nodes.bottom (i + 1)) (nodes.bottom i)).temperature)
        = .ok res := by
  obtain ⟨cT, hcT, h⟩ := except_bind_ok h
  obtain ⟨cB, hcB, h⟩ := except_bind_ok h
  obtain ⟨res, hres, h⟩ := except_bind_ok h
  exact ⟨cT, cB, res, except_mapError_ok hcT, except_mapError_ok hcB,
    except_mapError_ok hres⟩

theorem knownConditions_equal_signed_zero {f : ℝ → ℝ → ℝ} {s0 : StreamInlet}
    {s1 : Stream} {r : KnownConditionsResult}
    (heq : s0.temperature = s1.inletTemperature)
    (h : knownConditionsAndInlets f s0 s1 = .ok r) :
    s1.heatFlow.signed = 0 := by
  have hdiff : s0.temperature - s1.toInlet.temperature = 0 := by
    simp [Stream.toInlet, heq]
  have hmax : calculateMaxHeatFlow s0 s1.toInlet
      = (s0.withHeatFlow .none, (s1.toInlet).withHeatFlow .none) := by
    rw [calculateMaxHeatFlow]
    simp [hdiff]
  have hsig : (s0.withHeatFlow HeatFlow.none).heatFlow.signed = 0 := by
    simp [StreamInlet.withHeatFlow, Stream.newFromHeatFlow, HeatFlow.signed]
  by_cases hs : |s1.heatFlow.signed| = 0
  · exact abs_eq_zero.mp hs
  · exfalso
    simp only [knownConditionsAndInlets, hmax, hsig, abs_zero, if_pos rfl, ne_eq,
      hs, not_false_iff, if_true] at h
    exact Except.noConfusion h

theorem newFromOutletTemperature_signed_ne {c tin tout : ℝ} (hc : 0 < c)
    (hne : tin ≠ tout) :
    (Stream.newFromOutletTemperature c tin tout).heatFlow.signed ≠ 0 := by
  rw [Stream.newFromOutletTemperature]
  rcases lt_trichotomy tin tout with hlt | heq | hgt
  · simp only [if_pos hlt, HeatFlow.signed]
    have : 0 < c * |tin - tout| :=
      mul_pos hc (abs_pos.mpr (sub_ne_zero.mpr hne))
    exact ne_of_gt this
  · exact absurd heq hne
  · simp only [if_neg (not_lt.mpr (le_of_lt hgt)), if_neg hne, HeatFlow.signed]
    have : 0 < c * |tin - tout| :=
      mul_pos hc (abs_pos.mpr (sub_ne_zero.mpr hne))
    intro hz
    linarith [neg_eq_zero.mp hz]

theorem chain_lt (f : ℕ → ℝ) :
    ∀ m : ℕ, 1 ≤ m → (∀ i, i < m → f (i + 1) < f i) → f m < f 0
  | 1, _, h => h 0 (by omega)
  | m + 2, _, h =>
    lt_trans (h (m + 1) (by omega))
      (chain_lt f (m + 1) (by omega) (fun i hi => h i (by omega)))

theorem linearArray_step (n : ℕ) (a b : ℝ) (i : ℕ) :
    linearArray n a b i - linearArray n a b (i + 1)
      = -((b - a) / ((n : ℝ) - 1)) := by
  simp only [linearArray]
  push_cast
  ring

theorem nodes_arrays {TF BF : Type} {arr : DiscArrangement} {n : ℕ}
    {resolved : Resolved TF BF} {tt : ThermoModel TF} {tb : ThermoModel BF}
    {nodes : Nodes TF BF}
    (h : Nodes.new arr n resolved tt tb = .ok nodes) :
    nodes.topEnthalpies
      = (computeNodeArrays arr n resolved resolved.qDot.signedTopToBottom).topEnthalpies ∧
    nodes.bottomEnthalpies
      = (computeNodeArrays arr n resolved
          resolved.qDot.signedTopToBottom).bottomEnthalpies := by
  rw [Nodes.new] at h
  obtain ⟨ft, hft, h⟩ := except_bind_ok h
  obtain ⟨fb, hfb, h⟩ := except_bind_ok h
  cases h
  exact ⟨rfl, rfl⟩

theorem capacitanceRate_ok {x y : ℝ} (h : capacitanceRateFromQuantity x = .ok y) :
    0 < x ∧ y = x :=
  strictlyPositiveNew_ok h

/-- C6: for every successful solve with a nonzero heat transfer rate, the
sign of `q_dot.signed_top_to_bottom()` matches `sgn(T_top_in − T_bot_in)`;
in particular the two inlet temperatures cannot be equal. -/
theorem claim_C6_heat_flow_direction {TF BF : Type} {arr : DiscArrangement}
    {n : ℕ} {known : Known TF BF} {given : Given} {tt : ThermoModel TF}
    {tb : ThermoModel BF} {r : Results TF BF}
    (hn : 2 ≤ n) (hmT : 0 < known.mDot.top) (hmB : 0 < known.mDot.bottom)
    (hgw : given.wf) (hsolve : solve arr n known given tt tb = .ok r)
    (hne : r.qDot ≠ .none) :
    r.qDot.signedTopToBottom ≠ 0 ∧
    known.inlets.top.temperature ≠ known.inlets.bottom.temperature ∧
    (0 < r.qDot.signedTopToBottom ↔
      known.inlets.bottom.temperature < known.inlets.top.temperature) ∧
    (r.qDot.signedTopToBottom < 0 ↔
      known.inlets.top.temperature < known.inlets.bottom.temperature) := by
  obtain ⟨resolved, nodes, hres, hnodes, hcheck, hua, hrtop, hrbot, hrq, hrm⟩ :=
    solve_ok_elim hsolve
  obtain ⟨hti, hbi, htm, hbm, hqwf⟩ := resolvedNew_basic hres hgw
  rw [hrq] at hne ⊢
  obtain ⟨hdirT, hdirB, hmdt⟩ := checkSecondLaw_ok_elim hcheck hne
  have hbm' : 0 < resolved.bottom.mDot := by rw [hbm]; exact hmB
  have hneq : known.inlets.top.temperature ≠ known.inlets.bottom.temperature := by
    intro heq
    cases hq : resolved.qDot with
    | none => exact hne hq
    | bottomToTop q =>
      have hlt := hdirB q hq
      rw [hti, hbi] at hlt
      linarith
    | topToBottom q =>
      have hqpos : 0 < q := by
        rw [hq] at hqwf
        exact hqwf
      obtain ⟨heT, heB⟩ := nodes_arrays hnodes
      obtain ⟨htop0, htopN, hbin, hbout⟩ := nodes_endpoints hnodes hn
      have hloop := computeUa_ok_uaLoop hua hne
      have hsegs := uaLoop_ok_mem _ _ _ hloop
      cases hflag : arr.bottomFlowsLeftToRight with
      | true =>
        obtain ⟨u, hu⟩ := hsegs 0 (by rw [List.mem_range]; omega)
        obtain ⟨cT, cB, res, hcT, hcB, hres0⟩ := segmentUa_ok_parts hu
        simp only [DiscArrangement.bottomSelect, hflag, eq_self_iff_true, if_true]
          at hcB hres0 hbin
        obtain ⟨hposB, hcBval⟩ := capacitanceRate_ok hcB
        have hdne : (nodes.bottom (0 + 1)).temperature
            - (nodes.bottom 0).temperature ≠ 0 := by
          intro h0
          rw [h0, div_zero] at hposB
          exact lt_irrefl 0 hposB
        have hcBpos : 0 < cB := by
          rw [hcBval]
          exact hposB
        have hs0 : (nodes.top 0).temperature = (nodes.bottom 0).temperature := by
          rw [htop0, hbin, hti, hbi, heq]
        have hsz := knownConditions_equal_signed_zero
          (show ((⟨cT, (nodes.top 0).temperature⟩ : StreamInlet)).temperature
            = (Stream.newFromOutletTemperature cB (nodes.bottom 0).temperature
                (nodes.bottom (0 + 1)).temperature).inletTemperature from hs0) hres0
        exact newFromOutletTemperature_signed_ne hcBpos
          (fun hteq => hdne (by rw [hteq, sub_self])) hsz
      | false =>
        simp only [DiscArrangement.bottomSelect, hflag, Bool.false_eq_true, if_false]
          at hbin
        simp only [computeNodeArrays, DiscArrangement.bottomSelect, hflag,
          Bool.false_eq_true, if_false, hq, HeatTransferRate.signedTopToBottom] at heB
        have hn1 : (0 : ℝ) < (n : ℝ) - 1 := by
          have h2 : (2 : ℝ) ≤ (n : ℝ) := by exact_mod_cast hn
          linarith
        have hstep : ∀ i, i < n - 1 →
            (nodes.bottom (i + 1)).temperature < (nodes.bottom i).temperature := by
          intro i hi
          obtain ⟨u, hu⟩ := hsegs i (by rw [List.mem_range]; omega)
          obtain ⟨cT, cB, res, hcT, hcB, -⟩ := segmentUa_ok_parts hu
          simp only [DiscArrangement.bottomSelect, hflag, Bool.false_eq_true, if_false]
            at hcB
          obtain ⟨hposB, -⟩ := capacitanceRate_ok hcB
          have hnum : 0 < resolved.bottom.mDot *
              (nodes.bottomEnthalpies i - nodes.bottomEnthalpies (i + 1)) := by
            rw [heB, linearArray_step]
            have hrew : -((resolved.bottom.hIn
                  - (resolved.bottom.hIn + q / resolved.bottom.mDot)) / ((n : ℝ) - 1))
                = (q / resolved.bottom.mDot) / ((n : ℝ) - 1) := by
              ring
            rw [hrew]
            exact mul_pos hbm' (div_pos (div_pos hqpos hbm') hn1)
          by_contra hnot
          push_neg at hnot
          have hden : (nodes.bottom i).temperature
              - (nodes.bottom (i + 1)).temperature ≤ 0 := by linarith
          rcases eq_or_lt_of_le hden with hz | hlt
          · rw [hz, div_zero] at hposB
            exact lt_irrefl 0 hposB
          · have hneg := div_neg_of_pos_of_neg hnum hlt
            linarith
        have hchain := chain_lt (fun j => (nodes.bottom j).temperature) (n - 1)
          (by omega) (fun i hi => hstep i hi)
        simp only [] at hchain
        have hbN : (nodes.bottom (n - 1)).temperature
            = known.inlets.bottom.temperature := by rw [hbin, hbi]
        have hhot : (nodes.bottom (arr.bottomSelect 0 (n - 1))).temperature
            ≤ (nodes.top 0).temperature := by
          simp only [DiscArrangement.bottomSelect, hflag, Bool.false_eq_true, if_false]
          rw [hbin, hbi, htop0, hti, heq]
        have hle := computeMinDeltaT_le_hot arr n nodes (by omega) hhot 0 (by omega)
        have h0t : (nodes.top 0).temperature = known.inlets.top.temperature := by
          rw [htop0, hti]
        rw [hbN] at hchain
        rw [h0t] at hle
        linarith
  refine ⟨?_, hneq, ⟨fun hpos => ?_, fun hlt => ?_⟩, ⟨fun hneg => ?_, fun hlt => ?_⟩⟩
  · cases hq : resolved.qDot with
    | none => exact absurd hq hne
    | topToBottom q =>
      rw [hq] at hqwf
      simp only [HeatTransferRate.signedTopToBottom]
      exact ne_of_gt hqwf
    | bottomToTop q =>
      rw [hq] at hqwf
      simp only [HeatTransferRate.signedTopToBottom]
      have : (0 : ℝ) < q := hqwf
      intro hz
      linarith [neg_eq_zero.mp hz]
  · cases hq : resolved.qDot with
    | none => exact absurd hq hne
    | topToBottom q =>
      have hle := hdirT q hq
      rw [hti, hbi] at hle
      exact lt_of_le_of_ne hle (Ne.symm hneq)
    | bottomToTop q =>
      rw [hq] at hpos hqwf
      simp only [HeatTransferRate.signedTopToBottom] at hpos
      have : (0 : ℝ) < q := hqwf
      linarith
  · cases hq : resolved.qDot with
    | none => exact absurd hq hne
    | topToBottom q =>
      simp only [HeatTransferRate.signedTopToBottom]
      rw [hq] at hqwf
      exact hqwf
    | bottomToTop q =>
      have hgt := hdirB q hq
      rw [hti, hbi] at hgt
      linarith
  · cases hq : resolved.qDot with
    | none => exact absurd hq hne
    | topToBottom q =>
      rw [hq] at hneg hqwf
      simp only [HeatTransferRate.signedTopToBottom] at hneg
      have : (0 : ℝ) < q := hqwf
      linarith
    | bottomToTop q =>
      have hgt := hdirB q hq
      rw [hti, hbi] at hgt
      exact hgt
  · cases hq : resolved.qDot with
    | none => exact absurd hq hne
    | topToBottom q =>
      have hle := hdirT q hq
      rw [hti, hbi] at hle
      linarith
    | bottomToTop q =>
      simp only [HeatTransferRate.signedTopToBottom]
      rw [hq] at hqwf
      have : (0 : ℝ) < q := hqwf
      linarith

theorem ok_mapError {ε ε' α : Type} (a : α) (g : ε → ε') :
    (Except.ok a : Except ε α).mapError g = .ok a := rfl

theorem counterFlow_bottomSelect {α : Type} (a b : α) :
    counterFlowArrangement.bottomSelect a b = b := rfl

theorem counterFlow_ntuRaw : counterFlowArrangement.ntuRaw = counterFlowNtuRaw := rfl

theorem checkSecondLaw_pass_topToBottom {TF BF : Type} {resolved : Resolved TF BF}
    {mdt : MinDeltaT} {q : ℝ} (hq : resolved.qDot = .topToBottom q)
    (hhot : resolved.bottom.inlet.temperature ≤ resolved.top.inlet.temperature)
    (hmdt : 0 ≤ mdt.value) :
    checkSecondLaw resolved mdt = .ok () := by
  rw [checkSecondLaw, hq]
  simp only [decide_eq_true hhot, Bool.not_true, Bool.false_or,
    decide_eq_false (not_lt.mpr hmdt), Bool.false_eq_true, if_false]

theorem computeMinDeltaT_two_hot {TF BF : Type} (arr : DiscArrangement)
    (nodes : Nodes TF BF)
    (hhot : (nodes.bottom (arr.bottomSelect 0 (2 - 1))).temperature
      ≤ (nodes.top 0).temperature)
    (hge : ¬ ((nodes.top 1).temperature - (nodes.bottom 1).temperature
      < (nodes.top 0).temperature - (nodes.bottom 0).temperature)) :
    computeMinDeltaT arr 2 nodes
      = ⟨(nodes.top 0).temperature - (nodes.bottom 0).temperature, 0⟩ := by
  rw [computeMinDeltaT, if_neg (by norm_num : (2 : ℕ) ≠ 0)]
  simp only [if_pos hhot]
  have hl : ((List.range 2).drop 1) = [1] := rfl
  rw [hl, List.foldl_cons, List.foldl_nil]
  simp only []
  rw [if_neg hge]

theorem segmentUa_eval_topToBottom {TF BF : Type} (arr : DiscArrangement)
    (mT mB q : ℝ) (n : ℕ) (nodes : Nodes TF BF) (i : ℕ)
    (cT cB : ℝ) (res : KnownConditionsResult)
    (hcT : capacitanceRateFromQuantity
        (mT * (nodes.topEnthalpies (i + 1) - nodes.topEnthalpies i)
          / ((nodes.top (i + 1)).temperature - (nodes.top i).temperature)) = .ok cT)
    (hcB : capacitanceRateFromQuantity
        (mB * (arr.bottomSelect (nodes.bottomEnthalpies (i + 1)) (nodes.bottomEnthalpies i)
            - arr.bottomSelect (nodes.bottomEnthalpies i) (nodes.bottomEnthalpies (i + 1)))
          / ((arr.bottomSelect (nodes.bottom (i + 1)) (nodes.bottom i)).temperature
            - (arr.bottomSelect (nodes.bottom i) (nodes.bottom (i + 1))).temperature))
        = .ok cB)
    (hres : knownConditionsAndInlets arr.ntuRaw ⟨cT, (nodes.top i).temperature⟩
        (Stream.newFromOutletTemperature cB
          (arr.bottomSelect (nodes.bottom i) (nodes.bottom (i + 1))).temperature
          (arr.bottomSelect (nodes.bottom (i + 1)) (nodes.bottom i)).temperature)
        = .ok res) :
    segmentUa arr mT mB (.topToBottom q) n nodes i = .ok res.ua := by
  simp only [segmentUa]
  rw [hcT, ok_mapError, ok_bind, hcB, ok_mapError, ok_bind, hres, ok_mapError, ok_bind]

/-- Witness for C6: a concrete successful counterflow solve with a nonzero
top-to-bottom heat transfer rate. -/
theorem claim_C6_heat_flow_direction_witness :
    ∃ r : Results Unit Unit,
      solve counterFlowArrangement 2
          (⟨⟨⟨400, 1, ()⟩, ⟨300, 1, ()⟩⟩, ⟨1, 1⟩, ⟨0, 0⟩⟩ : Known Unit Unit)
          (.heatTransferRate (.topToBottom 10000))
          (constPropertyModel 1000 101325 1) (constPropertyModel 1000 101325 1)
        = .ok r ∧
      (r.qDot.signedTopToBottom ≠ 0 ∧
       (400 : ℝ) ≠ 300 ∧
       (0 < r.qDot.signedTopToBottom ↔ (300 : ℝ) < 400) ∧
       (r.qDot.signedTopToBottom < 0 ↔ (400 : ℝ) < 300)) := by
  have harg1 : (1 : ℝ) * ((((⟨constStatesFun 1000 1 2 (⟨400, 1, ()⟩ : State Unit) (⟨0 + (1000 * (400 - 0) - 10000 / 1) / 1000, 1, ()⟩ : State Unit) (linearArray 2 (1000 * (400 - 0)) (1000 * (400 - 0) - 10000 / 1)) true, constStatesFun 1000 1 2 (⟨300, 1, ()⟩ : State Unit) (⟨0 + (1000 * (300 - 0) + 10000 / 1) / 1000, 1, ()⟩ : State Unit) (linearArray 2 (1000 * (300 - 0) + 10000 / 1) (1000 * (300 - 0))) false, linearArray 2 (1000 * (400 - 0)) (1000 * (400 - 0) - 10000 / 1), linearArray 2 (1000 * (300 - 0) + 10000 / 1) (1000 * (300 - 0))⟩ : Nodes Unit Unit)).topEnthalpies 1)
        - (((⟨constStatesFun 1000 1 2 (⟨400, 1, ()⟩ : State Unit) (⟨0 + (1000 * (400 - 0) - 10000 / 1) / 1000, 1, ()⟩ : State Unit) (linearArray 2 (1000 * (400 - 0)) (1000 * (400 - 0) - 10000 / 1)) true, constStatesFun 1000 1 2 (⟨300, 1, ()⟩ : State Unit) (⟨0 + (1000 * (300 - 0) + 10000 / 1) / 1000, 1, ()⟩ : State Unit) (linearArray 2 (1000 * (300 - 0) + 10000 / 1) (1000 * (300 - 0))) false, linearArray 2 (1000 * (400 - 0)) (1000 * (400 - 0) - 10000 / 1), linearArray 2 (1000 * (300 - 0) + 10000 / 1) (1000 * (300 - 0))⟩ : Nodes Unit Unit)).topEnthalpies 0))
      / ((((⟨constStatesFun 1000 1 2 (⟨400, 1, ()⟩ : State Unit) (⟨0 + (1000 * (400 - 0) - 10000 / 1) / 1000, 1, ()⟩ : State Unit) (linearArray 2 (1000 * (400 - 0)) (1000 * (400 - 0) - 10000 / 1)) true, constStatesFun 1000 1 2 (⟨300, 1, ()⟩ : State Unit) (⟨0 + (1000 * (300 - 0) + 10000 / 1) / 1000, 1, ()⟩ : State Unit) (linearArray 2 (1000 * (300 - 0) + 10000 / 1) (1000 * (300 - 0))) false, linearArray 2 (1000 * (400 - 0)) (1000 * (400 - 0) - 10000 / 1), linearArray 2 (1000 * (300 - 0) + 10000 / 1) (1000 * (300 - 0))⟩ : Nodes Unit Unit)).top 1).temperature
        - (((⟨constStatesFun 1000 1 2 (⟨400, 1, ()⟩ : State Unit) (⟨0 + (1000 * (400 - 0) - 10000 / 1) / 1000, 1, ()⟩ : State Unit) (linearArray 2 (1000 * (400 - 0)) (1000 * (400 - 0) - 10000 / 1)) true, constStatesFun 1000 1 2 (⟨300, 1, ()⟩ : State Unit) (⟨0 + (1000 * (300 - 0) + 10000 / 1) / 1000, 1, ()⟩ : State Unit) (linearArray 2 (1000 * (300 - 0) + 10000 / 1) (1000 * (300 - 0))) false, linearArray 2 (1000 * (400 - 0)) (1000 * (400 - 0) - 10000 / 1), linearArray 2 (1000 * (300 - 0) + 10000 / 1) (1000 * (300 - 0))⟩ : Nodes Unit Unit)).top 0).temperature) = 1000 := by
    norm_num [constStatesFun, linearArray]
  have hcT : capacitanceRateFromQuantity
      ((1 : ℝ) * ((((⟨constStatesFun 1000 1 2 (⟨400, 1, ()⟩ : State Unit) (⟨0 + (1000 * (400 - 0) - 10000 / 1) / 1000, 1, ()⟩ : State Unit) (linearArray 2 (1000 * (400 - 0)) (1000 * (400 - 0) - 10000 / 1)) true, constStatesFun 1000 1 2 (⟨300, 1, ()⟩ : State Unit) (⟨0 + (1000 * (300 - 0) + 10000 / 1) / 1000, 1, ()⟩ : State Unit) (linearArray 2 (1000 * (300 - 0) + 10000 / 1) (1000 * (300 - 0))) false, linearArray 2 (1000 * (400 - 0)) (1000 * (400 - 0) - 10000 / 1), linearArray 2 (1000 * (300 - 0) + 10000 / 1) (1000 * (300 - 0))⟩ : Nodes Unit Unit)).topEnthalpies 1)
        - (((⟨constStatesFun 1000 1 2 (⟨400, 1, ()⟩ : State Unit) (⟨0 + (1000 * (400 - 0) - 10000 / 1) / 1000, 1, ()⟩ : State Unit) (linearArray 2 (1000 * (400 - 0)) (1000 * (400 - 0) - 10000 / 1)) true, constStatesFun 1000 1 2 (⟨300, 1, ()⟩ : State Unit) (⟨0 + (1000 * (300 - 0) + 10000 / 1) / 1000, 1, ()⟩ : State Unit) (linearArray 2 (1000 * (300 - 0) + 10000 / 1) (1000 * (300 - 0))) false, linearArray 2 (1000 * (400 - 0)) (1000 * (400 - 0) - 10000 / 1), linearArray 2 (1000 * (300 - 0) + 10000 / 1) (1000 * (300 - 0))⟩ : Nodes Unit Unit)).topEnthalpies 0))
      / ((((⟨constStatesFun 1000 1 2 (⟨400, 1, ()⟩ : State Unit) (⟨0 + (1000 * (400 - 0) - 10000 / 1) / 1000, 1, ()⟩ : State Unit) (linearArray 2 (1000 * (400 - 0)) (1000 * (400 - 0) - 10000 / 1)) true, constStatesFun 1000 1 2 (⟨300, 1, ()⟩ : State Unit) (⟨0 + (1000 * (300 - 0) + 10000 / 1) / 1000, 1, ()⟩ : State Unit) (linearArray 2 (1000 * (300 - 0) + 10000 / 1) (1000 * (300 - 0))) false, linearArray 2 (1000 * (400 - 0)) (1000 * (400 - 0) - 10000 / 1), linearArray 2 (1000 * (300 - 0) + 10000 / 1) (1000 * (300 - 0))⟩ : Nodes Unit Unit)).top 1).temperature
        - (((⟨constStatesFun 1000 1 2 (⟨400, 1, ()⟩ : State Unit) (⟨0 + (1000 * (400 - 0) - 10000 / 1) / 1000, 1, ()⟩ : State Unit) (linearArray 2 (1000 * (400 - 0)) (1000 * (400 - 0) - 10000 / 1)) true, constStatesFun 1000 1 2 (⟨300, 1, ()⟩ : State Unit) (⟨0 + (1000 * (300 - 0) + 10000 / 1) / 1000, 1, ()⟩ : State Unit) (linearArray 2 (1000 * (300 - 0) + 10000 / 1) (1000 * (300 - 0))) false, linearArray 2 (1000 * (400 - 0)) (1000 * (400 - 0) - 10000 / 1), linearArray 2 (1000 * (300 - 0) + 10000 / 1) (1000 * (300 - 0))⟩ : Nodes Unit Unit)).top 0).temperature)) = .ok 1000 := by
    rw [harg1, capacitanceRateFromQuantity, strictlyPositiveNew,
      if_pos (by norm_num : (0 : ℝ) < 1000)]
  have harg2 : (1 : ℝ) * ((counterFlowArrangement.bottomSelect
          (((⟨constStatesFun 1000 1 2 (⟨400, 1, ()⟩ : State Unit) (⟨0 + (1000 * (400 - 0) - 10000 / 1) / 1000, 1, ()⟩ : State Unit) (linearArray 2 (1000 * (400 - 0)) (1000 * (400 - 0) - 10000 / 1)) true, constStatesFun 1000 1 2 (⟨300, 1, ()⟩ : State Unit) (⟨0 + (1000 * (300 - 0) + 10000 / 1) / 1000, 1, ()⟩ : State Unit) (linearArray 2 (1000 * (300 - 0) + 10000 / 1) (1000 * (300 - 0))) false, linearArray 2 (1000 * (400 - 0)) (1000 * (400 - 0) - 10000 / 1), linearArray 2 (1000 * (300 - 0) + 10000 / 1) (1000 * (300 - 0))⟩ : Nodes Unit Unit)).bottomEnthalpies 1) (((⟨constStatesFun 1000 1 2 (⟨400, 1, ()⟩ : State Unit) (⟨0 + (1000 * (400 - 0) - 10000 / 1) / 1000, 1, ()⟩ : State Unit) (linearArray 2 (1000 * (400 - 0)) (1000 * (400 - 0) - 10000 / 1)) true, constStatesFun 1000 1 2 (⟨300, 1, ()⟩ : State Unit) (⟨0 + (1000 * (300 - 0) + 10000 / 1) / 1000, 1, ()⟩ : State Unit) (linearArray 2 (1000 * (300 - 0) + 10000 / 1) (1000 * (300 - 0))) false, linearArray 2 (1000 * (400 - 0)) (1000 * (400 - 0) - 10000 / 1), linearArray 2 (1000 * (300 - 0) + 10000 / 1) (1000 * (300 - 0))⟩ : Nodes Unit Unit)).bottomEnthalpies 0))
        - (counterFlowArrangement.bottomSelect
          (((⟨constStatesFun 1000 1 2 (⟨400, 1, ()⟩ : State Unit) (⟨0 + (1000 * (400 - 0) - 10000 / 1) / 1000, 1, ()⟩ : State Unit) (linearArray 2 (1000 * (400 - 0)) (1000 * (400 - 0) - 10000 / 1)) true, constStatesFun 1000 1 2 (⟨300, 1, ()⟩ : State Unit) (⟨0 + (1000 * (300 - 0) + 10000 / 1) / 1000, 1, ()⟩ : State Unit) (linearArray 2 (1000 * (300 - 0) + 10000 / 1) (1000 * (300 - 0))) false, linearArray 2 (1000 * (400 - 0)) (1000 * (400 - 0) - 10000 / 1), linearArray 2 (1000 * (300 - 0) + 10000 / 1) (1000 * (300 - 0))⟩ : Nodes Unit Unit)).bottomEnthalpies 0) (((⟨constStatesFun 1000 1 2 (⟨400, 1, ()⟩ : State Unit) (⟨0 + (1000 * (400 - 0) - 10000 / 1) / 1000, 1, ()⟩ : State Unit) (linearArray 2 (1000 * (400 - 0)) (1000 * (400 - 0) - 10000 / 1)) true, constStatesFun 1000 1 2 (⟨300, 1, ()⟩ : State Unit) (⟨0 + (1000 * (300 - 0) + 10000 / 1) / 1000, 1, ()⟩ : State Unit) (linearArray 2 (1000 * (300 - 0) + 10000 / 1) (1000 * (300 - 0))) false, linearArray 2 (1000 * (400 - 0)) (1000 * (400 - 0) - 10000 / 1), linearArray 2 (1000 * (300 - 0) + 10000 / 1) (1000 * (300 - 0))⟩ : Nodes Unit Unit)).bottomEnthalpies 1)))
      / ((counterFlowArrangement.bottomSelect
          (((⟨constStatesFun 1000 1 2 (⟨400, 1, ()⟩ : State Unit) (⟨0 + (1000 * (400 - 0) - 10000 / 1) / 1000, 1, ()⟩ : State Unit) (linearArray 2 (1000 * (400 - 0)) (1000 * (400 - 0) - 10000 / 1)) true, constStatesFun 1000 1 2 (⟨300, 1, ()⟩ : State Unit) (⟨0 + (1000 * (300 - 0) + 10000 / 1) / 1000, 1, ()⟩ : State Unit) (linearArray 2 (1000 * (300 - 0) + 10000 / 1) (1000 * (300 - 0))) false, linearArray 2 (1000 * (400 - 0)) (1000 * (400 - 0) - 10000 / 1), linearArray 2 (1000 * (300 - 0) + 10000 / 1) (1000 * (300 - 0))⟩ : Nodes Unit Unit)).bottom 1) (((⟨constStatesFun 1000 1 2 (⟨400, 1, ()⟩ : State Unit) (⟨0 + (1000 * (400 - 0) - 10000 / 1) / 1000, 1, ()⟩ : State Unit) (linearArray 2 (1000 * (400 - 0)) (1000 * (400 - 0) - 10000 / 1)) true, constStatesFun 1000 1 2 (⟨300, 1, ()⟩ : State Unit) (⟨0 + (1000 * (300 - 0) + 10000 / 1) / 1000, 1, ()⟩ : State Unit) (linearArray 2 (1000 * (300 - 0) + 10000 / 1) (1000 * (300 - 0))) false, linearArray 2 (1000 * (400 - 0)) (1000 * (400 - 0) - 10000 / 1), linearArray 2 (1000 * (300 - 0) + 10000 / 1) (1000 * (300 - 0))⟩ : Nodes Unit Unit)).bottom 0)).temperature
        - (counterFlowArrangement.bottomSelect
          (((⟨constStatesFun 1000 1 2 (⟨400, 1, ()⟩ : State Unit) (⟨0 + (1000 * (400 - 0) - 10000 / 1) / 1000, 1, ()⟩ : State Unit) (linearArray 2 (1000 * (400 - 0)) (1000 * (400 - 0) - 10000 / 1)) true, constStatesFun 1000 1 2 (⟨300, 1, ()⟩ : State Unit) (⟨0 + (1000 * (300 - 0) + 10000 / 1) / 1000, 1, ()⟩ : State Unit) (linearArray 2 (1000 * (300 - 0) + 10000 / 1) (1000 * (300 - 0))) false, linearArray 2 (1000 * (400 - 0)) (1000 * (400 - 0) - 10000 / 1), linearArray 2 (1000 * (300 - 0) + 10000 / 1) (1000 * (300 - 0))⟩ : Nodes Unit Unit)).bottom 0) (((⟨constStatesFun 1000 1 2 (⟨400, 1, ()⟩ : State Unit) (⟨0 + (1000 * (400 - 0) - 10000 / 1) / 1000, 1, ()⟩ : State Unit) (linearArray 2 (1000 * (400 - 0)) (1000 * (400 - 0) - 10000 / 1)) true, constStatesFun 1000 1 2 (⟨300, 1, ()⟩ : State Unit) (⟨0 + (1000 * (300 - 0) + 10000 / 1) / 1000, 1, ()⟩ : State Unit) (linearArray 2 (1000 * (300 - 0) + 10000 / 1) (1000 * (300 - 0))) false, linearArray 2 (1000 * (400 - 0)) (1000 * (400 - 0) - 10000 / 1), linearArray 2 (1000 * (300 - 0) + 10000 / 1) (1000 * (300 - 0))⟩ : Nodes Unit Unit)).bottom 1)).temperature) = 1000 := by
    norm_num [counterFlow_bottomSelect, constStatesFun, linearArray]
  have hcB : capacitanceRateFromQuantity
      ((1 : ℝ) * ((counterFlowArrangement.bottomSelect
          (((⟨constStatesFun 1000 1 2 (⟨400, 1, ()⟩ : State Unit) (⟨0 + (1000 * (400 - 0) - 10000 / 1) / 1000, 1, ()⟩ : State Unit) (linearArray 2 (1000 * (400 - 0)) (1000 * (400 - 0) - 10000 / 1)) true, constStatesFun 1000 1 2 (⟨300, 1, ()⟩ : State Unit) (⟨0 + (1000 * (300 - 0) + 10000 / 1) / 1000, 1, ()⟩ : State Unit) (linearArray 2 (1000 * (300 - 0) + 10000 / 1) (1000 * (300 - 0))) false, linearArray 2 (1000 * (400 - 0)) (1000 * (400 - 0) - 10000 / 1), linearArray 2 (1000 * (300 - 0) + 10000 / 1) (1000 * (300 - 0))⟩ : Nodes Unit Unit)).bottomEnthalpies 1) (((⟨constStatesFun 1000 1 2 (⟨400, 1, ()⟩ : State Unit) (⟨0 + (1000 * (400 - 0) - 10000 / 1) / 1000, 1, ()⟩ : State Unit) (linearArray 2 (1000 * (400 - 0)) (1000 * (400 - 0) - 10000 / 1)) true, constStatesFun 1000 1 2 (⟨300, 1, ()⟩ : State Unit) (⟨0 + (1000 * (300 - 0) + 10000 / 1) / 1000, 1, ()⟩ : State Unit) (linearArray 2 (1000 * (300 - 0) + 10000 / 1) (1000 * (300 - 0))) false, linearArray 2 (1000 * (400 - 0)) (1000 * (400 - 0) - 10000 / 1), linearArray 2 (1000 * (300 - 0) + 10000 / 1) (1000 * (300 - 0))⟩ : Nodes Unit Unit)).bottomEnthalpies 0))
        - (counterFlowArrangement.bottomSelect
          (((⟨constStatesFun 1000 1 2 (⟨400, 1, ()⟩ : State Unit) (⟨0 + (1000 * (400 - 0) - 10000 / 1) / 1000, 1, ()⟩ : State Unit) (linearArray 2 (1000 * (400 - 0)) (1000 * (400 - 0) - 10000 / 1)) true, constStatesFun 1000 1 2 (⟨300, 1, ()⟩ : State Unit) (⟨0 + (1000 * (300 - 0) + 10000 / 1) / 1000, 1, ()⟩ : State Unit) (linearArray 2 (1000 * (300 - 0) + 10000 / 1) (1000 * (300 - 0))) false, linearArray 2 (1000 * (400 - 0)) (1000 * (400 - 0) - 10000 / 1), linearArray 2 (1000 * (300 - 0) + 10000 / 1) (1000 * (300 - 0))⟩ : Nodes Unit Unit)).bottomEnthalpies 0) (((⟨constStatesFun 1000 1 2 (⟨400, 1, ()⟩ : State Unit) (⟨0 + (1000 * (400 - 0) - 10000 / 1) / 1000, 1, ()⟩ : State Unit) (linearArray 2 (1000 * (400 - 0)) (1000 * (400 - 0) - 10000 / 1)) true, constStatesFun 1000 1 2 (⟨300, 1, ()⟩ : State Unit) (⟨0 + (1000 * (300 - 0) + 10000 / 1) / 1000, 1, ()⟩ : State Unit) (linearArray 2 (1000 * (300 - 0) + 10000 / 1) (1000 * (300 - 0))) false, linearArray 2 (1000 * (400 - 0)) (1000 * (400 - 0) - 10000 / 1), linearArray 2 (1000 * (300 - 0) + 10000 / 1) (1000 * (300 - 0))⟩ : Nodes Unit Unit)).bottomEnthalpies 1)))
      / ((counterFlowArrangement.bottomSelect
          (((⟨constStatesFun 1000 1 2 (⟨400, 1, ()⟩ : State Unit) (⟨0 + (1000 * (400 - 0) - 10000 / 1) / 1000, 1, ()⟩ : State Unit) (linearArray 2 (1000 * (400 - 0)) (1000 * (400 - 0) - 10000 / 1)) true, constStatesFun 1000 1 2 (⟨300, 1, ()⟩ : State Unit) (⟨0 + (1000 * (300 - 0) + 10000 / 1) / 1000, 1, ()⟩ : State Unit) (linearArray 2 (1000 * (300 - 0) + 10000 / 1) (1000 * (300 - 0))) false, linearArray 2 (1000 * (400 - 0)) (1000 * (400 - 0) - 10000 / 1), linearArray 2 (1000 * (300 - 0) + 10000 / 1) (1000 * (300 - 0))⟩ : Nodes Unit Unit)).bottom 1) (((⟨constStatesFun 1000 1 2 (⟨400, 1, ()⟩ : State Unit) (⟨0 + (1000 * (400 - 0) - 10000 / 1) / 1000, 1, ()⟩ : State Unit) (linearArray 2 (1000 * (400 - 0)) (1000 * (400 - 0) - 10000 / 1)) true, constStatesFun 1000 1 2 (⟨300, 1, ()⟩ : State Unit) (⟨0 + (1000 * (300 - 0) + 10000 / 1) / 1000, 1, ()⟩ : State Unit) (linearArray 2 (1000 * (300 - 0) + 10000 / 1) (1000 * (300 - 0))) false, linearArray 2 (1000 * (400 - 0)) (1000 * (400 - 0) - 10000 / 1), linearArray 2 (1000 * (300 - 0) + 10000 / 1) (1000 * (300 - 0))⟩ : Nodes Unit Unit)).bottom 0)).temperature
        - (counterFlowArrangement.bottomSelect
          (((⟨constStatesFun 1000 1 2 (⟨400, 1, ()⟩ : State Unit) (⟨0 + (1000 * (400 - 0) - 10000 / 1) / 1000, 1, ()⟩ : State Unit) (linearArray 2 (1000 * (400 - 0)) (1000 * (400 - 0) - 10000 / 1)) true, constStatesFun 1000 1 2 (⟨300, 1, ()⟩ : State Unit) (⟨0 + (1000 * (300 - 0) + 10000 / 1) / 1000, 1, ()⟩ : State Unit) (linearArray 2 (1000 * (300 - 0) + 10000 / 1) (1000 * (300 - 0))) false, linearArray 2 (1000 * (400 - 0)) (1000 * (400 - 0) - 10000 / 1), linearArray 2 (1000 * (300 - 0) + 10000 / 1) (1000 * (300 - 0))⟩ : Nodes Unit Unit)).bottom 0) (((⟨constStatesFun 1000 1 2 (⟨400, 1, ()⟩ : State Unit) (⟨0 + (1000 * (400 - 0) - 10000 / 1) / 1000, 1, ()⟩ : State Unit) (linearArray 2 (1000 * (400 - 0)) (1000 * (400 - 0) - 10000 / 1)) true, constStatesFun 1000 1 2 (⟨300, 1, ()⟩ : State Unit) (⟨0 + (1000 * (300 - 0) + 10000 / 1) / 1000, 1, ()⟩ : State Unit) (linearArray 2 (1000 * (300 - 0) + 10000 / 1) (1000 * (300 - 0))) false, linearArray 2 (1000 * (400 - 0)) (1000 * (400 - 0) - 10000 / 1), linearArray 2 (1000 * (300 - 0) + 10000 / 1) (1000 * (300 - 0))⟩ : Nodes Unit Unit)).bottom 1)).temperature))
      = .ok 1000 := by
    rw [harg2, capacitanceRateFromQuantity, strictlyPositiveNew,
      if_pos (by norm_num : (0 : ℝ) < 1000)]
  have hkc : ∃ res : KnownConditionsResult,
      knownConditionsAndInlets counterFlowArrangement.ntuRaw
        ⟨1000, (((⟨constStatesFun 1000 1 2 (⟨400, 1, ()⟩ : State Unit) (⟨0 + (1000 * (400 - 0) - 10000 / 1) / 1000, 1, ()⟩ : State Unit) (linearArray 2 (1000 * (400 - 0)) (1000 * (400 - 0) - 10000 / 1)) true, constStatesFun 1000 1 2 (⟨300, 1, ()⟩ : State Unit) (⟨0 + (1000 * (300 - 0) + 10000 / 1) / 1000, 1, ()⟩ : State Unit) (linearArray 2 (1000 * (300 - 0) + 10000 / 1) (1000 * (300 - 0))) false, linearArray 2 (1000 * (400 - 0)) (1000 * (400 - 0) - 10000 / 1), linearArray 2 (1000 * (300 - 0) + 10000 / 1) (1000 * (300 - 0))⟩ : Nodes Unit Unit)).top 0).temperature⟩
        (Stream.newFromOutletTemperature 1000
          (counterFlowArrangement.bottomSelect
            (((⟨constStatesFun 1000 1 2 (⟨400, 1, ()⟩ : State Unit) (⟨0 + (1000 * (400 - 0) - 10000 / 1) / 1000, 1, ()⟩ : State Unit) (linearArray 2 (1000 * (400 - 0)) (1000 * (400 - 0) - 10000 / 1)) true, constStatesFun 1000 1 2 (⟨300, 1, ()⟩ : State Unit) (⟨0 + (1000 * (300 - 0) + 10000 / 1) / 1000, 1, ()⟩ : State Unit) (linearArray 2 (1000 * (300 - 0) + 10000 / 1) (1000 * (300 - 0))) false, linearArray 2 (1000 * (400 - 0)) (1000 * (400 - 0) - 10000 / 1), linearArray 2 (1000 * (300 - 0) + 10000 / 1) (1000 * (300 - 0))⟩ : Nodes Unit Unit)).bottom 0) (((⟨constStatesFun 1000 1 2 (⟨400, 1, ()⟩ : State Unit) (⟨0 + (1000 * (400 - 0) - 10000 / 1) / 1000, 1, ()⟩ : State Unit) (linearArray 2 (1000 * (400 - 0)) (1000 * (400 - 0) - 10000 / 1)) true, constStatesFun 1000 1 2 (⟨300, 1, ()⟩ : State Unit) (⟨0 + (1000 * (300 - 0) + 10000 / 1) / 1000, 1, ()⟩ : State Unit) (linearArray 2 (1000 * (300 - 0) + 10000 / 1) (1000 * (300 - 0))) false, linearArray 2 (1000 * (400 - 0)) (1000 * (400 - 0) - 10000 / 1), linearArray 2 (1000 * (300 - 0) + 10000 / 1) (1000 * (300 - 0))⟩ : Nodes Unit Unit)).bottom 1)).temperature
          (counterFlowArrangement.bottomSelect
            (((⟨constStatesFun 1000 1 2 (⟨400, 1, ()⟩ : State Unit) (⟨0 + (1000 * (400 - 0) - 10000 / 1) / 1000, 1, ()⟩ : State Unit) (linearArray 2 (1000 * (400 - 0)) (1000 * (400 - 0) - 10000 / 1)) true, constStatesFun 1000 1 2 (⟨300, 1, ()⟩ : State Unit) (⟨0 + (1000 * (300 - 0) + 10000 / 1) / 1000, 1, ()⟩ : State Unit) (linearArray 2 (1000 * (300 - 0) + 10000 / 1) (1000 * (300 - 0))) false, linearArray 2 (1000 * (400 - 0)) (1000 * (400 - 0) - 10000 / 1), linearArray 2 (1000 * (300 - 0) + 10000 / 1) (1000 * (300 - 0))⟩ : Nodes Unit Unit)).bottom 1) (((⟨constStatesFun 1000 1 2 (⟨400, 1, ()⟩ : State Unit) (⟨0 + (1000 * (400 - 0) - 10000 / 1) / 1000, 1, ()⟩ : State Unit) (linearArray 2 (1000 * (400 - 0)) (1000 * (400 - 0) - 10000 / 1)) true, constStatesFun 1000 1 2 (⟨300, 1, ()⟩ : State Unit) (⟨0 + (1000 * (300 - 0) + 10000 / 1) / 1000, 1, ()⟩ : State Unit) (linearArray 2 (1000 * (300 - 0) + 10000 / 1) (1000 * (300 - 0))) false, linearArray 2 (1000 * (400 - 0)) (1000 * (400 - 0) - 10000 / 1), linearArray 2 (1000 * (300 - 0) + 10000 / 1) (1000 * (300 - 0))⟩ : Nodes Unit Unit)).bottom 0)).temperature)
        = .ok res := by
    rcases hk : knownConditionsAndInlets counterFlowArrangement.ntuRaw
        ⟨1000, (((⟨constStatesFun 1000 1 2 (⟨400, 1, ()⟩ : State Unit) (⟨0 + (1000 * (400 - 0) - 10000 / 1) / 1000, 1, ()⟩ : State Unit) (linearArray 2 (1000 * (400 - 0)) (1000 * (400 - 0) - 10000 / 1)) true, constStatesFun 1000 1 2 (⟨300, 1, ()⟩ : State Unit) (⟨0 + (1000 * (300 - 0) + 10000 / 1) / 1000, 1, ()⟩ : State Unit) (linearArray 2 (1000 * (300 - 0) + 10000 / 1) (1000 * (300 - 0))) false, linearArray 2 (1000 * (400 - 0)) (1000 * (400 - 0) - 10000 / 1), linearArray 2 (1000 * (300 - 0) + 10000 / 1) (1000 * (300 - 0))⟩ : Nodes Unit Unit)).top 0).temperature⟩
        (Stream.newFromOutletTemperature 1000
          (counterFlowArrangement.bottomSelect
            (((⟨constStatesFun 1000 1 2 (⟨400, 1, ()⟩ : State Unit) (⟨0 + (1000 * (400 - 0) - 10000 / 1) / 1000, 1, ()⟩ : State Unit) (linearArray 2 (1000 * (400 - 0)) (1000 * (400 - 0) - 10000 / 1)) true, constStatesFun 1000 1 2 (⟨300, 1, ()⟩ : State Unit) (⟨0 + (1000 * (300 - 0) + 10000 / 1) / 1000, 1, ()⟩ : State Unit) (linearArray 2 (1000 * (300 - 0) + 10000 / 1) (1000 * (300 - 0))) false, linearArray 2 (1000 * (400 - 0)) (1000 * (400 - 0) - 10000 / 1), linearArray 2 (1000 * (300 - 0) + 10000 / 1) (1000 * (300 - 0))⟩ : Nodes Unit Unit)).bottom 0) (((⟨constStatesFun 1000 1 2 (⟨400, 1, ()⟩ : State Unit) (⟨0 + (1000 * (400 - 0) - 10000 / 1) / 1000, 1, ()⟩ : State Unit) (linearArray 2 (1000 * (400 - 0)) (1000 * (400 - 0) - 10000 / 1)) true, constStatesFun 1000 1 2 (⟨300, 1, ()⟩ : State Unit) (⟨0 + (1000 * (300 - 0) + 10000 / 1) / 1000, 1, ()⟩ : State Unit) (linearArray 2 (1000 * (300 - 0) + 10000 / 1) (1000 * (300 - 0))) false, linearArray 2 (1000 * (400 - 0)) (1000 * (400 - 0) - 10000 / 1), linearArray 2 (1000 * (300 - 0) + 10000 / 1) (1000 * (300 - 0))⟩ : Nodes Unit Unit)).bottom 1)).temperature
          (counterFlowArrangement.bottomSelect
            (((⟨constStatesFun 1000 1 2 (⟨400, 1, ()⟩ : State Unit) (⟨0 + (1000 * (400 - 0) - 10000 / 1) / 1000, 1, ()⟩ : State Unit) (linearArray 2 (1000 * (400 - 0)) (1000 * (400 - 0) - 10000 / 1)) true, constStatesFun 1000 1 2 (⟨300, 1, ()⟩ : State Unit) (⟨0 + (1000 * (300 - 0) + 10000 / 1) / 1000, 1, ()⟩ : State Unit) (linearArray 2 (1000 * (300 - 0) + 10000 / 1) (1000 * (300 - 0))) false, linearArray 2 (1000 * (400 - 0)) (1000 * (400 - 0) - 10000 / 1), linearArray 2 (1000 * (300 - 0) + 10000 / 1) (1000 * (300 - 0))⟩ : Nodes Unit Unit)).bottom 1) (((⟨constStatesFun 1000 1 2 (⟨400, 1, ()⟩ : State Unit) (⟨0 + (1000 * (400 - 0) - 10000 / 1) / 1000, 1, ()⟩ : State Unit) (linearArray 2 (1000 * (400 - 0)) (1000 * (400 - 0) - 10000 / 1)) true, constStatesFun 1000 1 2 (⟨300, 1, ()⟩ : State Unit) (⟨0 + (1000 * (300 - 0) + 10000 / 1) / 1000, 1, ()⟩ : State Unit) (linearArray 2 (1000 * (300 - 0) + 10000 / 1) (1000 * (300 - 0))) false, linearArray 2 (1000 * (400 - 0)) (1000 * (400 - 0) - 10000 / 1), linearArray 2 (1000 * (300 - 0) + 10000 / 1) (1000 * (300 - 0))⟩ : Nodes Unit Unit)).bottom 0)).temperature)
      with e | res
    · exfalso
      norm_num [knownConditionsAndInlets, calculateMaxHeatFlow, Stream.toInlet,
        StreamInlet.withHeatFlow, Stream.newFromHeatFlow, Stream.newFromOutletTemperature,
        HeatFlow.signed, HeatFlow.fromSigned, unitIntervalNew, ntuVia, ntuViaCr,
        capacityRatioFromRates, counterFlow_ntuRaw, counterFlowNtuRaw,
        nonNegativeNew, counterFlow_bottomSelect, constStatesFun, linearArray,
        ok_bind] at hk
      exact Except.noConfusion hk
    · exact ⟨res, rfl⟩
  obtain ⟨res, hres⟩ := hkc
  have hseg := segmentUa_eval_topToBottom counterFlowArrangement 1 1 10000 2
    (⟨constStatesFun 1000 1 2 (⟨400, 1, ()⟩ : State Unit) (⟨0 + (1000 * (400 - 0) - 10000 / 1) / 1000, 1, ()⟩ : State Unit) (linearArray 2 (1000 * (400 - 0)) (1000 * (400 - 0) - 10000 / 1)) true, constStatesFun 1000 1 2 (⟨300, 1, ()⟩ : State Unit) (⟨0 + (1000 * (300 - 0) + 10000 / 1) / 1000, 1, ()⟩ : State Unit) (linearArray 2 (1000 * (300 - 0) + 10000 / 1) (1000 * (300 - 0))) false, linearArray 2 (1000 * (400 - 0)) (1000 * (400 - 0) - 10000 / 1), linearArray 2 (1000 * (300 - 0) + 10000 / 1) (1000 * (300 - 0))⟩ : Nodes Unit Unit) 0 1000 1000 res hcT hcB hres
  have hcua : computeUa counterFlowArrangement 1 1 (HeatTransferRate.topToBottom 10000) 2
      (⟨constStatesFun 1000 1 2 (⟨400, 1, ()⟩ : State Unit) (⟨0 + (1000 * (400 - 0) - 10000 / 1) / 1000, 1, ()⟩ : State Unit) (linearArray 2 (1000 * (400 - 0)) (1000 * (400 - 0) - 10000 / 1)) true, constStatesFun 1000 1 2 (⟨300, 1, ()⟩ : State Unit) (⟨0 + (1000 * (300 - 0) + 10000 / 1) / 1000, 1, ()⟩ : State Unit) (linearArray 2 (1000 * (300 - 0) + 10000 / 1) (1000 * (300 - 0))) false, linearArray 2 (1000 * (400 - 0)) (1000 * (400 - 0) - 10000 / 1), linearArray 2 (1000 * (300 - 0) + 10000 / 1) (1000 * (300 - 0))⟩ : Nodes Unit Unit) = .ok (0 + res.ua) := by
    show uaLoop counterFlowArrangement 1 1 (HeatTransferRate.topToBottom 10000) 2
      (⟨constStatesFun 1000 1 2 (⟨400, 1, ()⟩ : State Unit) (⟨0 + (1000 * (400 - 0) - 10000 / 1) / 1000, 1, ()⟩ : State Unit) (linearArray 2 (1000 * (400 - 0)) (1000 * (400 - 0) - 10000 / 1)) true, constStatesFun 1000 1 2 (⟨300, 1, ()⟩ : State Unit) (⟨0 + (1000 * (300 - 0) + 10000 / 1) / 1000, 1, ()⟩ : State Unit) (linearArray 2 (1000 * (300 - 0) + 10000 / 1) (1000 * (300 - 0))) false, linearArray 2 (1000 * (400 - 0)) (1000 * (400 - 0) - 10000 / 1), linearArray 2 (1000 * (300 - 0) + 10000 / 1) (1000 * (300 - 0))⟩ : Nodes Unit Unit) (List.range (2 - 1)) 0 = _
    rw [show List.range (2 - 1) = [0] from rfl, uaLoop, hseg]
    rfl
  have hsol : ∃ r : Results Unit Unit,
      solve counterFlowArrangement 2
          (⟨⟨⟨400, 1, ()⟩, ⟨300, 1, ()⟩⟩, ⟨1, 1⟩, ⟨0, 0⟩⟩ : Known Unit Unit)
          (.heatTransferRate (.topToBottom 10000))
          (constPropertyModel 1000 101325 1) (constPropertyModel 1000 101325 1)
        = .ok r ∧ r.qDot = .topToBottom 10000 := by
    rw [solve, resolvedConst_heatRate, ok_bind, nodesConst, ok_bind]
    simp only [HeatTransferRate.signedTopToBottom, computeNodeArrays,
      counterFlow_bottomSelect]
    rw [computeMinDeltaT_two_hot counterFlowArrangement _
      (by show (300 : ℝ) ≤ 400; norm_num)
      (by show ¬ ((0 + (1000 * ((400 : ℝ) - 0) - 10000 / 1) / 1000 - 300)
          < (400 - (0 + (1000 * ((300 : ℝ) - 0) + 10000 / 1) / 1000)))
          norm_num)]
    rw [checkSecondLaw_pass_topToBottom rfl (by show (300 : ℝ) ≤ 400; norm_num)
      (by show (0 : ℝ) ≤ 400 - (0 + (1000 * ((300 : ℝ) - 0) + 10000 / 1) / 1000)
          norm_num), ok_bind]
    rw [hcua, ok_bind]
    exact ⟨_, rfl, rfl⟩
  obtain ⟨r, hr, hq⟩ := hsol
  exact ⟨r, hr, claim_C6_heat_flow_direction (le_refl 2)
    (by show (0 : ℝ) < 1; norm_num) (by show (0 : ℝ) < 1; norm_num)
    (by show (0 : ℝ) < 10000; norm_num) hr
    (by rw [hq]; exact fun hc => HeatTransferRate.noConfusion hc)⟩

theorem resolvedNew_inlets {TF BF : Type} {known : Known TF BF} {given : Given}
    {tt : ThermoModel TF} {tb : ThermoModel BF} {resolved : Resolved TF BF}
    (h : Resolved.new known given tt tb = .ok resolved) :
    resolved.top.inlet = known.inlets.top ∧
    resolved.bottom.inlet = known.inlets.bottom := by
  rw [Resolved.new] at h
  obtain ⟨pT, hpT, h⟩ := except_bind_ok h
  obtain ⟨pB, hpB, h⟩ := except_bind_ok h
  obtain ⟨hT, hhT, h⟩ := except_bind_ok h
  obtain ⟨hB, hhB, h⟩ := except_bind_ok h
  cases given with
  | topOutletTemp tOut =>
    obtain ⟨tS, htS, h⟩ := except_bind_ok h
    obtain ⟨hTO, hhTO, h⟩ := except_bind_ok h
    obtain ⟨qd, hqd, h⟩ := except_bind_ok h
    obtain ⟨bO, hbO, h⟩ := except_bind_ok h
    cases h
    exact ⟨rfl, rfl⟩
  | bottomOutletTemp tOut =>
    obtain ⟨bS, hbS, h⟩ := except_bind_ok h
    obtain ⟨hBO, hhBO, h⟩ := except_bind_ok h
    obtain ⟨qd, hqd, h⟩ := except_bind_ok h
    obtain ⟨tO, htO, h⟩ := except_bind_ok h
    cases h
    exact ⟨rfl, rfl⟩
  | heatTransferRate qd =>
    obtain ⟨tO, htO, h⟩ := except_bind_ok h
    obtain ⟨bO, hbO, h⟩ := except_bind_ok h
    cases h
    exact ⟨rfl, rfl⟩

theorem resolvedNew_heatRate_qDot {TF BF : Type} {known : Known TF BF}
    {qd : HeatTransferRate} {tt : ThermoModel TF} {tb : ThermoModel BF}
    {resolved : Resolved TF BF}
    (h : Resolved.new known (.heatTransferRate qd) tt tb = .ok resolved) :
    resolved.qDot = qd := by
  rw [Resolved.new] at h
  obtain ⟨pT, hpT, h⟩ := except_bind_ok h
  obtain ⟨pB, hpB, h⟩ := except_bind_ok h
  obtain ⟨hT, hhT, h⟩ := except_bind_ok h
  obtain ⟨hB, hhB, h⟩ := except_bind_ok h
  obtain ⟨tO, htO, h⟩ := except_bind_ok h
  obtain ⟨bO, hbO, h⟩ := except_bind_ok h
  cases h
  rfl

/-- C10: at equal inlet temperatures the post-resolution direction check
classifies the top stream as hot (the comparison is non-strict), so a
`BottomToTop` rate is always rejected by `solve` as a direction-mismatch
`SecondLawViolation`, while a `TopToBottom` rate passes the direction check
and `check_second_law` can reject it only through the negative-min-delta-T
branch (later segment checks live in `compute_ua`). -/
theorem claim_C10_equal_inlet_tie_break {TF BF : Type} {arr : DiscArrangement}
    {n : ℕ} {known : Known TF BF} {tt : ThermoModel TF} {tb : ThermoModel BF}
    {resolvedB resolvedT : Resolved TF BF} {nodes : Nodes TF BF}
    (q : ℝ) (mdt : MinDeltaT)
    (heq : known.inlets.top.temperature = known.inlets.bottom.temperature) :
    (Resolved.new known (.heatTransferRate (.bottomToTop q)) tt tb = .ok resolvedB →
      Nodes.new arr n resolvedB tt tb = .ok nodes →
      solve arr n known (.heatTransferRate (.bottomToTop q)) tt tb
        = .error (.secondLawViolation (some resolvedB.top.outlet.temperature)
            (some resolvedB.bottom.outlet.temperature) (-q)
            (computeMinDeltaT arr n nodes).value
            (some (computeMinDeltaT arr n nodes).node))) ∧
    (Resolved.new known (.heatTransferRate (.topToBottom q)) tt tb = .ok resolvedT →
      checkSecondLaw resolvedT mdt
        = if mdt.value < 0 then
            .error (.secondLawViolation (some resolvedT.top.outlet.temperature)
              (some resolvedT.bottom.outlet.temperature) q mdt.value (some mdt.node))
          else .ok ()) := by
  constructor
  · intro hres hnodes
    have hq := resolvedNew_heatRate_qDot hres
    obtain ⟨hti, hbi⟩ := resolvedNew_inlets hres
    have hhot : resolvedB.bottom.inlet.temperature
        ≤ resolvedB.top.inlet.temperature := by
      rw [hti, hbi]
      exact le_of_eq heq.symm
    rw [solve, hres, ok_bind, hnodes, ok_bind]
    simp only []
    rw [checkSecondLaw_mismatch_bottomToTop hq hhot, error_bind]
  · intro hres
    have hq := resolvedNew_heatRate_qDot hres
    obtain ⟨hti, hbi⟩ := resolvedNew_inlets hres
    have hhot : resolvedT.bottom.inlet.temperature
        ≤ resolvedT.top.inlet.temperature := by
      rw [hti, hbi]
      exact le_of_eq heq.symm
    exact checkSecondLaw_topToBottom_hot hq hhot

/-- Witness for C10 at a concrete equal-inlet (300 K / 300 K) constant-property
configuration: the `BottomToTop 10 kW` solve really is rejected as a
direction-mismatch `SecondLawViolation`, and the resolved `TopToBottom 10 kW`
stream pair really passes `check_second_law` at a non-negative minimum
temperature difference. -/
theorem claim_C10_equal_inlet_tie_break_witness :
    (∃ v node,
      solve counterFlowArrangement 2 (⟨⟨⟨300, 1, ()⟩, ⟨300, 1, ()⟩⟩, ⟨1, 1⟩, ⟨0, 0⟩⟩ : Known Unit Unit)
          (.heatTransferRate (.bottomToTop 10000))
          (constPropertyModel 1000 101325 1) (constPropertyModel 1000 101325 1)
        = .error (.secondLawViolation
            (some (0 + (1000 * ((300 : ℝ) - 0) - -10000 / 1) / 1000))
            (some (0 + (1000 * ((300 : ℝ) - 0) + -10000 / 1) / 1000))
            (-10000) v (some node))) ∧
    checkSecondLaw ({ top := { inlet := ⟨300, 1, ()⟩, outlet := ⟨0 + (1000 * (300 - 0) - 10000 / 1) / 1000, 1, ()⟩, hIn := 1000 * (300 - 0), pIn := 101325, pOut := 101325 - 0, mDot := 1 }, bottom := { inlet := ⟨300, 1, ()⟩, outlet := ⟨0 + (1000 * (300 - 0) + 10000 / 1) / 1000, 1, ()⟩, hIn := 1000 * (300 - 0), pIn := 101325, pOut := 101325 - 0, mDot := 1 }, qDot := HeatTransferRate.topToBottom 10000 } : Resolved Unit Unit) ⟨1, 0⟩ = .ok () := by
  have h := @claim_C10_equal_inlet_tie_break Unit Unit counterFlowArrangement 2
    (⟨⟨⟨300, 1, ()⟩, ⟨300, 1, ()⟩⟩, ⟨1, 1⟩, ⟨0, 0⟩⟩ : Known Unit Unit) (constPropertyModel 1000 101325 1) (constPropertyModel 1000 101325 1)
    ({ top := { inlet := ⟨300, 1, ()⟩, outlet := ⟨0 + (1000 * (300 - 0) - -10000 / 1) / 1000, 1, ()⟩, hIn := 1000 * (300 - 0), pIn := 101325, pOut := 101325 - 0, mDot := 1 }, bottom := { inlet := ⟨300, 1, ()⟩, outlet := ⟨0 + (1000 * (300 - 0) + -10000 / 1) / 1000, 1, ()⟩, hIn := 1000 * (300 - 0), pIn := 101325, pOut := 101325 - 0, mDot := 1 }, qDot := HeatTransferRate.bottomToTop 10000 } : Resolved Unit Unit)
    ({ top := { inlet := ⟨300, 1, ()⟩, outlet := ⟨0 + (1000 * (300 - 0) - 10000 / 1) / 1000, 1, ()⟩, hIn := 1000 * (300 - 0), pIn := 101325, pOut := 101325 - 0, mDot := 1 }, bottom := { inlet := ⟨300, 1, ()⟩, outlet := ⟨0 + (1000 * (300 - 0) + 10000 / 1) / 1000, 1, ()⟩, hIn := 1000 * (300 - 0), pIn := 101325, pOut := 101325 - 0, mDot := 1 }, qDot := HeatTransferRate.topToBottom 10000 } : Resolved Unit Unit)
    (⟨constStatesFun 1000 1 2 (⟨300, 1, ()⟩ : State Unit) (⟨0 + (1000 * (300 - 0) - -10000 / 1) / 1000, 1, ()⟩ : State Unit) (linearArray 2 (1000 * (300 - 0)) (1000 * (300 - 0) - -10000 / 1)) true, constStatesFun 1000 1 2 (⟨300, 1, ()⟩ : State Unit) (⟨0 + (1000 * (300 - 0) + -10000 / 1) / 1000, 1, ()⟩ : State Unit) (linearArray 2 (1000 * (300 - 0) + -10000 / 1) (1000 * (300 - 0))) false, linearArray 2 (1000 * (300 - 0)) (1000 * (300 - 0) - -10000 / 1), linearArray 2 (1000 * (300 - 0) + -10000 / 1) (1000 * (300 - 0))⟩ : Nodes Unit Unit)
    10000 ⟨1, 0⟩ rfl
  refine ⟨⟨_, _, h.1 (resolvedConst_heatRate 1000 101325 1 (⟨⟨⟨300, 1, ()⟩, ⟨300, 1, ()⟩⟩, ⟨1, 1⟩, ⟨0, 0⟩⟩ : Known Unit Unit)
      (.bottomToTop 10000))
    (nodesConst counterFlowArrangement 1000 101325 1 2 ({ top := { inlet := ⟨300, 1, ()⟩, outlet := ⟨0 + (1000 * (300 - 0) - -10000 / 1) / 1000, 1, ()⟩, hIn := 1000 * (300 - 0), pIn := 101325, pOut := 101325 - 0, mDot := 1 }, bottom := { inlet := ⟨300, 1, ()⟩, outlet := ⟨0 + (1000 * (300 - 0) + -10000 / 1) / 1000, 1, ()⟩, hIn := 1000 * (300 - 0), pIn := 101325, pOut := 101325 - 0, mDot := 1 }, qDot := HeatTransferRate.bottomToTop 10000 } : Resolved Unit Unit))⟩, ?_⟩
  exact (h.2 (resolvedConst_heatRate 1000 101325 1 (⟨⟨⟨300, 1, ()⟩, ⟨300, 1, ()⟩⟩, ⟨1, 1⟩, ⟨0, 0⟩⟩ : Known Unit Unit)
      (.topToBottom 10000))).trans
    (if_neg (show ¬ ((1 : ℝ) < 0) by norm_num))

/-- Witness for C7 at a concrete equal-temperature stream pair. -/
theorem claim_C7_zero_max_heat_flow_witness :
    (0 : ℝ) < 1 ∧ (300 : ℝ) = 300 ∧
    (((⟨1, 300, 300, .none⟩ : Stream).heatFlow.signed ≠ 0 →
       knownConditionsAndInlets (fun a _ => a) ⟨1, 300⟩ ⟨1, 300, 300, .none⟩
         = .error .aboveMaximum) ∧
     ((⟨1, 300, 300, .none⟩ : Stream).heatFlow.signed = 0 →
       ∃ r, knownConditionsAndInlets (fun a _ => a) ⟨1, 300⟩ ⟨1, 300, 300, .none⟩
         = .ok r ∧ r.ua = 0 ∧ r.ntu = 0)) :=
  ⟨by norm_num, rfl,
    claim_C7_zero_max_heat_flow (fun a _ => a) ⟨1, 300⟩ ⟨1, 300, 300, .none⟩
      (by show (0 : ℝ) < 1; norm_num) (by show (0 : ℝ) < 1; norm_num) rfl⟩

end TwineModels
